import Mathlib

/-!
# SmMgr: a table-driven state-machine engine

Shallow embedding of `components/sm/SmMgr.h` and `components/sm/SmMgr.c`, and of
the TCP session class of `components/sm/SmMgr_demo.c`.

* Identifiers and return codes are `int32_t` in the source; the engine only
  compares and copies them, so they are `Int` here.
* A `void *` is `SmPtr` (`none` is `NULL`); an optional callback is an
  `Option` of a function (`none` is a `NULL` function pointer).
* Callbacks receive the handle of the instance.  They read the instance
  through `SmHandle` and act on the memory of the caller, the type `U`; the
  fields of the instance are written by the engine only.
* `SmWorld` is the state every API function is passed through: the instance
  (`none` for a `NULL` instance pointer), the caller's memory and the trace of
  observable steps (callback invocations, state-field updates), in order.  The
  trace is bookkeeping of the embedding: the engine appends to it and never
  reads it.
-/

namespace SmMgr

abbrev SmStateId := Int
abbrev SmEventId := Int
abbrev SmRetCode := Int
abbrev SmPtr := Option Nat

abbrev SM_RET_OK : SmRetCode := 0
abbrev SM_RET_ERROR : SmRetCode := -1
abbrev SM_RET_IGNORE : SmRetCode := -2
abbrev SM_RET_TRANSITION : SmRetCode := -3
abbrev SM_STATE_INVALID : SmStateId := -1
abbrev SM_EVENT_INVALID : SmEventId := -1

/-- What a callback reads of the instance through the handle it is given. -/
structure SmHandle where
  current_state : SmStateId
  previous_state : SmStateId
  is_initialized : Bool
  user_data : SmPtr
  deriving DecidableEq, Repr

/-- One observable step of the engine. -/
inductive SmStep where
  | onInit
  | onDeinit
  | onHandle (state : SmStateId) (event : SmEventId)
  | condition (event : SmEventId) (next : SmStateId) (data : SmPtr)
  | action (event : SmEventId) (next : SmStateId) (data : SmPtr)
  | onExit (state : SmStateId)
  | update (previous current : SmStateId)
  | log (class_name from_state to_state : String) (event_id : SmEventId)
      (event_name : Option String)
  | onEnter (state : SmStateId)
  deriving DecidableEq, Repr

abbrev SmConditionFn (U : Type) := SmHandle → SmPtr → U → Bool × U
abbrev SmActionFn (U : Type) := SmHandle → SmPtr → U → SmRetCode × U
abbrev SmStateEnterFn (U : Type) := SmHandle → U → SmRetCode × U
abbrev SmStateExitFn (U : Type) := SmHandle → U → SmRetCode × U
abbrev SmStateHandleFn (U : Type) := SmHandle → SmEventId → U → SmRetCode × U
abbrev SmInitFn (U : Type) := SmHandle → U → SmRetCode × U
abbrev SmDeinitFn (U : Type) := SmHandle → U → SmRetCode × U
abbrev SmTransLogFn (U : Type) :=
  String → String → String → SmEventId → Option String → U → U
abbrev SmGetEventNameFn := SmEventId → Option String

/-- Transition rule, `struct SmTransitionTag`. -/
structure SmTransition (U : Type) where
  event_id : SmEventId
  next_state : SmStateId
  condition : Option (SmConditionFn U)
  action : Option (SmActionFn U)
  action_data : SmPtr

/-- State, `struct SmStateTag`; `transitions` is the rule array (`none` for a
`NULL` array) and `trans_count` is its length. -/
structure SmState (U : Type) where
  state_id : SmStateId
  state_name : String
  on_enter : Option (SmStateEnterFn U)
  on_exit : Option (SmStateExitFn U)
  on_handle : Option (SmStateHandleFn U)
  transitions : Option (List (SmTransition U))

/-- Machine class, `struct SmClassTag`; `state_count` is the length of `states`. -/
structure SmClass (U : Type) where
  class_name : String
  states : List (SmState U)
  on_init : Option (SmInitFn U)
  on_deinit : Option (SmDeinitFn U)

/-- Machine instance, `struct SmMachineTag`. -/
structure SmMachine (U : Type) where
  sm_class : Option (SmClass U)
  current_state : SmStateId
  previous_state : SmStateId
  is_initialized : Bool
  user_data : SmPtr
  trans_log_fn : Option (SmTransLogFn U)
  get_event_name_fn : Option SmGetEventNameFn

/-- The state threaded through the API. -/
structure SmWorld (U : Type) where
  machine : Option (SmMachine U)
  user : U
  trace : List SmStep

/-- Outcome of one optional callback invocation. -/
structure SmCall (U : Type) where
  ret : SmRetCode
  user : U
  trace : List SmStep

variable {U : Type}

/-- The view of the instance a callback gets from `(SmHandle)machine`. -/
def SmMachine.handle (m : SmMachine U) : SmHandle :=
  ⟨m.current_state, m.previous_state, m.is_initialized, m.user_data⟩

/-- The pattern `ret = SM_RET_OK; if (cb != NULL) ret = cb(handle);`, the call
appended to the trace. -/
def SmInvoke (cb : Option (SmHandle → U → SmRetCode × U)) (step : SmStep)
    (h : SmHandle) (user : U) (trace : List SmStep) : SmCall U :=
  match cb with
  | none => ⟨SM_RET_OK, user, trace⟩
  | some f => ⟨(f h user).1, (f h user).2, trace ++ [step]⟩

/-- The loop of `SmFindState` over `states[0 .. state_count)`. -/
def SmFindState.scan (state_id : SmStateId) : List (SmState U) → Option (SmState U)
  | [] => none
  | s :: rest => if s.state_id = state_id then some s else SmFindState.scan state_id rest

/-- `SmFindState`: the first state of the class of the instance with the id. -/
def SmFindState (machine : Option (SmMachine U)) (state_id : SmStateId) :
    Option (SmState U) :=
  match machine with
  | none => none
  | some m =>
    match m.sm_class with
    | none => none
    | some c => SmFindState.scan state_id c.states

/-- The loop of `SmFindTransition` over `transitions[0 .. trans_count)`. -/
def SmFindTransition.scan (event : SmEventId) :
    List (SmTransition U) → Option (SmTransition U)
  | [] => none
  | t :: rest => if t.event_id = event then some t else SmFindTransition.scan event rest

/-- `SmFindTransition`: the first rule of the state for the event. -/
def SmFindTransition (state : Option (SmState U)) (event : SmEventId) :
    Option (SmTransition U) :=
  match state with
  | none => none
  | some s =>
    match s.transitions with
    | none => none
    | some rules => SmFindTransition.scan event rules

/-- The name read by `machine->sm_class->class_name`; the class is present
wherever the engine reads it (a state of it has just been found). -/
def SmMachine.class_name (m : SmMachine U) : String :=
  match m.sm_class with
  | none => ""
  | some c => c.class_name

/-- The call `machine->trans_log_fn(...)` under `if (machine->trans_log_fn != NULL)`. -/
def SmLogCall (m : SmMachine U) (from_state to_state : String) (event_id : SmEventId)
    (event_name : Option String) (user : U) (trace : List SmStep) : U × List SmStep :=
  match m.trans_log_fn with
  | none => (user, trace)
  | some log =>
    (log m.class_name from_state to_state event_id event_name user,
     trace ++ [SmStep.log m.class_name from_state to_state event_id event_name])

/-- The event name handed to the logger by `SmPerformTransition`. -/
def SmEventName (m : SmMachine U) (event_id : SmEventId) : Option String :=
  match m.get_event_name_fn with
  | none => none
  | some f => f event_id

/-- `SmPerformTransition`: action, target lookup, exit, update, log, enter. -/
def SmPerformTransition (m : SmMachine U) (current_state : SmState U)
    (trans : SmTransition U) (user : U) (trace : List SmStep) : SmRetCode × SmWorld U :=
  let a := SmInvoke (trans.action.map fun f h => f h trans.action_data)
    (SmStep.action trans.event_id trans.next_state trans.action_data) m.handle user trace
  if a.ret ≠ SM_RET_OK then (a.ret, ⟨some m, a.user, a.trace⟩)
  else
    match SmFindState (some m) trans.next_state with
    | none => (SM_RET_ERROR, ⟨some m, a.user, a.trace⟩)
    | some next_state =>
      let x := SmInvoke current_state.on_exit (SmStep.onExit current_state.state_id)
        m.handle a.user a.trace
      if x.ret ≠ SM_RET_OK then (x.ret, ⟨some m, x.user, x.trace⟩)
      else
        let m1 : SmMachine U :=
          { m with previous_state := m.current_state, current_state := trans.next_state }
        let l := SmLogCall m1 current_state.state_name next_state.state_name trans.event_id
          (SmEventName m1 trans.event_id) x.user
          (x.trace ++ [SmStep.update m1.previous_state m1.current_state])
        let n := SmInvoke next_state.on_enter (SmStep.onEnter next_state.state_id)
          m1.handle l.1 l.2
        if n.ret ≠ SM_RET_OK then (n.ret, ⟨some m1, n.user, n.trace⟩)
        else (SM_RET_OK, ⟨some m1, n.user, n.trace⟩)

/-- Steps 2 to 4 of `SmSendEvent`: rule lookup, guard, transition. -/
def SmSendEvent.dispatch (m : SmMachine U) (state : SmState U) (event : SmEventId)
    (user : U) (trace : List SmStep) : SmRetCode × SmWorld U :=
  match SmFindTransition (some state) event with
  | none => (SM_RET_IGNORE, ⟨some m, user, trace⟩)
  | some rule =>
    match rule.condition with
    | none => SmPerformTransition m state rule user trace
    | some cond =>
      let g := cond m.handle rule.action_data user
      let trace1 := trace ++ [SmStep.condition rule.event_id rule.next_state rule.action_data]
      if !g.1 then (SM_RET_IGNORE, ⟨some m, g.2, trace1⟩)
      else SmPerformTransition m state rule g.2 trace1

/-- `SmSendEvent`. -/
def SmSendEvent (w : SmWorld U) (event : SmEventId) : SmRetCode × SmWorld U :=
  match w.machine with
  | none => (SM_RET_ERROR, w)
  | some m =>
    if !m.is_initialized then (SM_RET_ERROR, w)
    else if m.current_state = SM_STATE_INVALID then (SM_RET_ERROR, w)
    else
      match SmFindState (some m) m.current_state with
      | none => (SM_RET_ERROR, w)
      | some state =>
        match state.on_handle with
        | none => SmSendEvent.dispatch m state event w.user w.trace
        | some handle =>
          let r := handle m.handle event w.user
          let trace1 := w.trace ++ [SmStep.onHandle state.state_id event]
          if r.1 = SM_RET_TRANSITION then (SM_RET_OK, ⟨some m, r.2, trace1⟩)
          else if r.1 ≠ SM_RET_OK ∧ r.1 ≠ SM_RET_IGNORE then (r.1, ⟨some m, r.2, trace1⟩)
          else SmSendEvent.dispatch m state event r.2 trace1

/-- The instance storage after `memset(machine, 0, sizeof(SmMachine))`. -/
def SmMachine.zero : SmMachine U := ⟨none, 0, 0, false, none, none, none⟩

/-- `SmCreate`. -/
def SmCreate (w : SmWorld U) (sm_class : Option (SmClass U)) (user_data : SmPtr) :
    SmRetCode × SmWorld U :=
  match w.machine, sm_class with
  | none, _ => (SM_RET_ERROR, w)
  | some _, none => (SM_RET_ERROR, w)
  | some _, some c =>
    let m0 : SmMachine U :=
      { (SmMachine.zero : SmMachine U) with
        sm_class := some c, user_data := user_data, current_state := SM_STATE_INVALID,
        previous_state := SM_STATE_INVALID, is_initialized := false,
        trans_log_fn := none, get_event_name_fn := none }
    match c.on_init with
    | none => (SM_RET_OK, ⟨some { m0 with is_initialized := true }, w.user, w.trace⟩)
    | some init =>
      let r := init m0.handle w.user
      let trace1 := w.trace ++ [SmStep.onInit]
      if r.1 ≠ SM_RET_OK then (r.1, ⟨some m0, r.2, trace1⟩)
      else (SM_RET_OK, ⟨some { m0 with is_initialized := true }, r.2, trace1⟩)

/-- `SmDestroy`. -/
def SmDestroy (w : SmWorld U) : SmRetCode × SmWorld U :=
  match w.machine with
  | none => (SM_RET_ERROR, w)
  | some m =>
    if !m.is_initialized then (SM_RET_ERROR, w)
    else
      let d : SmCall U :=
        match m.sm_class with
        | none => ⟨SM_RET_OK, w.user, w.trace⟩
        | some c => SmInvoke c.on_deinit SmStep.onDeinit m.handle w.user w.trace
      let x : SmCall U :=
        if m.current_state ≠ SM_STATE_INVALID then
          match SmFindState (some m) m.current_state with
          | none => d
          | some state =>
            SmInvoke state.on_exit (SmStep.onExit state.state_id) m.handle d.user d.trace
        else d
      (SM_RET_OK, ⟨some SmMachine.zero, x.user, x.trace⟩)

/-- `SmStart`. -/
def SmStart (w : SmWorld U) (initial_state : SmStateId) : SmRetCode × SmWorld U :=
  match w.machine with
  | none => (SM_RET_ERROR, w)
  | some m =>
    if !m.is_initialized then (SM_RET_ERROR, w)
    else
      match SmFindState (some m) initial_state with
      | none => (SM_RET_ERROR, w)
      | some state =>
        let m1 : SmMachine U :=
          { m with current_state := initial_state, previous_state := SM_STATE_INVALID }
        let n := SmInvoke state.on_enter (SmStep.onEnter state.state_id) m1.handle w.user
          (w.trace ++ [SmStep.update m1.previous_state m1.current_state])
        if n.ret ≠ SM_RET_OK then (n.ret, ⟨some m1, n.user, n.trace⟩)
        else (SM_RET_OK, ⟨some m1, n.user, n.trace⟩)

/-- `SmStop`. -/
def SmStop (w : SmWorld U) : SmRetCode × SmWorld U :=
  match w.machine with
  | none => (SM_RET_ERROR, w)
  | some m =>
    if !m.is_initialized then (SM_RET_ERROR, w)
    else if m.current_state = SM_STATE_INVALID then (SM_RET_OK, w)
    else
      let x : SmCall U :=
        match SmFindState (some m) m.current_state with
        | none => ⟨SM_RET_OK, w.user, w.trace⟩
        | some state =>
          SmInvoke state.on_exit (SmStep.onExit state.state_id) m.handle w.user w.trace
      let m1 : SmMachine U := { m with current_state := SM_STATE_INVALID }
      (SM_RET_OK, ⟨some m1, x.user,
        x.trace ++ [SmStep.update m1.previous_state m1.current_state]⟩)

/-- `SmGetCurrentState`. -/
def SmGetCurrentState (w : SmWorld U) : SmStateId :=
  match w.machine with
  | none => SM_STATE_INVALID
  | some m => if !m.is_initialized then SM_STATE_INVALID else m.current_state

/-- `SmForceTransition`. -/
def SmForceTransition (w : SmWorld U) (new_state : SmStateId) : SmRetCode × SmWorld U :=
  match w.machine with
  | none => (SM_RET_ERROR, w)
  | some m =>
    if !m.is_initialized then (SM_RET_ERROR, w)
    else if m.current_state = new_state then (SM_RET_OK, w)
    else
      match SmFindState (some m) new_state with
      | none => (SM_RET_ERROR, w)
      | some next_state =>
        let x : SmCall U :=
          match SmFindState (some m) m.current_state with
          | none => ⟨SM_RET_OK, w.user, w.trace⟩
          | some current_state =>
            SmInvoke current_state.on_exit (SmStep.onExit current_state.state_id)
              m.handle w.user w.trace
        if x.ret ≠ SM_RET_OK then (x.ret, ⟨some m, x.user, x.trace⟩)
        else
          let m1 : SmMachine U :=
            { m with previous_state := m.current_state, current_state := new_state }
          let trace1 := x.trace ++ [SmStep.update m1.previous_state m1.current_state]
          let l : U × List SmStep :=
            match m1.trans_log_fn with
            | none => (x.user, trace1)
            | some _ =>
              match SmFindState (some m1) m1.previous_state with
              | none => (x.user, trace1)
              | some current_state =>
                SmLogCall m1 current_state.state_name next_state.state_name SM_EVENT_INVALID
                  (some "FORCE_TRANSITION") x.user trace1
          let n := SmInvoke next_state.on_enter (SmStep.onEnter next_state.state_id)
            m1.handle l.1 l.2
          if n.ret ≠ SM_RET_OK then (n.ret, ⟨some m1, n.user, n.trace⟩)
          else (SM_RET_OK, ⟨some m1, n.user, n.trace⟩)

/-- `SmGetUserData`. -/
def SmGetUserData (w : SmWorld U) : SmPtr :=
  match w.machine with
  | none => none
  | some m => m.user_data

/-- `SmSetTransLogFn`. -/
def SmSetTransLogFn (w : SmWorld U) (trans_log_fn : Option (SmTransLogFn U)) : SmWorld U :=
  match w.machine with
  | none => w
  | some m => { w with machine := some { m with trans_log_fn := trans_log_fn } }

/-- `SmSetGetEventNameFn`. -/
def SmSetGetEventNameFn (w : SmWorld U) (get_event_name_fn : Option SmGetEventNameFn) :
    SmWorld U :=
  match w.machine with
  | none => w
  | some m => { w with machine := some { m with get_event_name_fn := get_event_name_fn } }

/-- `SmGetCurrentStateName`: the name of `states[current_state]`, the state at
the index `current_state` of the array. -/
def SmGetCurrentStateName (w : SmWorld U) : Option String :=
  match w.machine with
  | none => none
  | some m =>
    if !m.is_initialized then none
    else
      match m.sm_class with
      | none => none
      | some c =>
        if m.current_state < 0 ∨ m.current_state ≥ (c.states.length : Int) then none
        else (c.states.get? m.current_state.toNat).map fun s => s.state_name

/-! ## Specification vocabulary -/

/-- The step list `[step]` when the callback is present, `[]` when it is absent. -/
def SmStepIf (present : Bool) (step : SmStep) : List SmStep :=
  if present then [step] else []

/-- The callback is absent and `v = u`, or it is present and, called with `h` on
the memory `u`, returns `SM_RET_OK` and leaves the memory `v`. -/
def SmSucceeds (cb : Option (SmHandle → U → SmRetCode × U)) (h : SmHandle) (u v : U) : Prop :=
  match cb with
  | none => v = u
  | some f => f h u = (SM_RET_OK, v)

/-- The callback is present and, called with `h` on the memory `u`, returns the
code `c`, which is not `SM_RET_OK`, and leaves the memory `v`. -/
def SmFails (cb : Option (SmHandle → U → SmRetCode × U)) (h : SmHandle) (u : U)
    (c : SmRetCode) (v : U) : Prop :=
  match cb with
  | none => False
  | some f => f h u = (c, v) ∧ c ≠ SM_RET_OK

/-- The `on_handle` callback is absent and `v = u`, or it returns `SM_RET_OK` or
`SM_RET_IGNORE` for the event and leaves the memory `v`. -/
def SmHandlePasses (cb : Option (SmStateHandleFn U)) (h : SmHandle) (event : SmEventId)
    (u v : U) : Prop :=
  match cb with
  | none => v = u
  | some f => (f h event u).2 = v ∧ ((f h event u).1 = SM_RET_OK ∨ (f h event u).1 = SM_RET_IGNORE)

/-- The rule has no guard and `v = u`, or its guard, called with `h` and the
action data of the rule on the memory `u`, accepts and leaves the memory `v`. -/
def SmGuardAccepts (rule : SmTransition U) (h : SmHandle) (u v : U) : Prop :=
  match rule.condition with
  | none => v = u
  | some g => g h rule.action_data u = (true, v)

/-- The rule has a guard which, called with `h` and the action data of the rule
on the memory `u`, rejects and leaves the memory `v`. -/
def SmGuardRejects (rule : SmTransition U) (h : SmHandle) (u v : U) : Prop :=
  match rule.condition with
  | none => False
  | some g => g h rule.action_data u = (false, v)

/-- The action of a rule as a callback on the handle alone (its second
argument is the action data of the rule). -/
def SmTransition.actionCall (rule : SmTransition U) : Option (SmHandle → U → SmRetCode × U) :=
  rule.action.map fun f h => f h rule.action_data

/-- The trace entry of the `on_handle` call of a state. -/
def SmHandleSteps (state : SmState U) (event : SmEventId) : List SmStep :=
  SmStepIf state.on_handle.isSome (SmStep.onHandle state.state_id event)

/-- The trace entry of the guard evaluation of a rule. -/
def SmGuardSteps (rule : SmTransition U) : List SmStep :=
  SmStepIf rule.condition.isSome
    (SmStep.condition rule.event_id rule.next_state rule.action_data)

/-- The trace entry of the action call of a rule. -/
def SmActionSteps (rule : SmTransition U) : List SmStep :=
  SmStepIf rule.action.isSome (SmStep.action rule.event_id rule.next_state rule.action_data)

/-- The trace entry of the `on_exit` call of a state. -/
def SmExitSteps (state : SmState U) : List SmStep :=
  SmStepIf state.on_exit.isSome (SmStep.onExit state.state_id)

/-- The trace entry of the `on_enter` call of a state. -/
def SmEnterSteps (state : SmState U) : List SmStep :=
  SmStepIf state.on_enter.isSome (SmStep.onEnter state.state_id)

/-- The instance after the state-field update of a transition to `target`. -/
def SmMachine.moved (m : SmMachine U) (target : SmStateId) : SmMachine U :=
  { m with previous_state := m.current_state, current_state := target }

/-- The caller's memory after the logger call of a transition (unchanged when
no logger is registered). -/
def SmLogUser (m : SmMachine U) (from_state to_state : String) (event_id : SmEventId)
    (u : U) : U :=
  (SmLogCall m from_state to_state event_id (SmEventName m event_id) u []).1

/-- The trace entry of the logger call of a transition. -/
def SmLogSteps (m : SmMachine U) (from_state to_state : String) (event_id : SmEventId) :
    List SmStep :=
  SmStepIf m.trans_log_fn.isSome
    (SmStep.log m.class_name from_state to_state event_id (SmEventName m event_id))

/-! ## A small class used to instantiate the theorems

The caller's memory is one counter.  Every callback leaves its mark on it: the
action adds 1, an exit adds 10, the logger adds 100, an enter adds 1000. -/

/-- Guard: accepts while the counter is below 5. -/
def exGuard : SmConditionFn Nat := fun _ _ n => (decide (n < 5), n)

/-- Action: counts and succeeds. -/
def exAction : SmActionFn Nat := fun _ _ n => (SM_RET_OK, n + 1)

/-- Action: counts and fails with code 7. -/
def exBadAction : SmActionFn Nat := fun _ _ n => (7, n + 1)

/-- Handler of state 0: asks for a transition on event 9, fails with code 5 on
event 8, ignores event 7, succeeds otherwise. -/
def exHandle : SmStateHandleFn Nat := fun _ e n =>
  (if e = 9 then SM_RET_TRANSITION else if e = 8 then 5
    else if e = 7 then SM_RET_IGNORE else SM_RET_OK, n)

/-- Enter callback that succeeds. -/
def exEnter : SmStateEnterFn Nat := fun _ n => (SM_RET_OK, n + 1000)

/-- Enter callback that fails with code 4. -/
def exBadEnter : SmStateEnterFn Nat := fun _ n => (4, n + 1000)

/-- Exit callback that succeeds. -/
def exExit : SmStateExitFn Nat := fun _ n => (SM_RET_OK, n + 10)

/-- Exit callback that fails with code 9. -/
def exBadExit : SmStateExitFn Nat := fun _ n => (9, n + 10)

/-- Logger. -/
def exLog : SmTransLogFn Nat := fun _ _ _ _ _ n => n + 100

/-- Event-name resolver: only event 1 has a name. -/
def exName : SmGetEventNameFn := fun e => if e = 1 then some "E1" else none

/-- Rule of state 0 for event 1: guarded, with an action, to state 1. -/
def exRule1 : SmTransition Nat := ⟨1, 1, some exGuard, some exAction, some 42⟩

/-- A later rule of state 0 for event 1 again, unguarded, to state 2. -/
def exRule1b : SmTransition Nat := ⟨1, 2, none, none, none⟩

/-- Rule of state 0 for event 2: its action fails. -/
def exRule2 : SmTransition Nat := ⟨2, 1, none, some exBadAction, none⟩

/-- Rule of state 0 for event 3: to state 2, whose enter callback fails. -/
def exRule3 : SmTransition Nat := ⟨3, 2, none, none, none⟩

/-- Rule of state 0 for event 4: its target, 99, is declared by no state. -/
def exRule4 : SmTransition Nat := ⟨4, 99, none, some exAction, none⟩

/-- Guarded rule of state 0 for event 6 whose target, 99, is declared by no state. -/
def exRule6 : SmTransition Nat := ⟨6, 99, some exGuard, none, none⟩

/-- Rule of state 1 for event 1; the exit callback of state 1 fails. -/
def exRuleB : SmTransition Nat := ⟨1, 0, none, some exAction, none⟩

/-- State 0. -/
def exStateA : SmState Nat :=
  ⟨0, "A", some exEnter, some exExit, some exHandle,
    some [exRule1, exRule1b, exRule2, exRule3, exRule4, exRule6]⟩

/-- State 1: no handler, a failing exit callback. -/
def exStateB : SmState Nat := ⟨1, "B", some exEnter, some exBadExit, none, some [exRuleB]⟩

/-- State 2: a failing enter callback, no rule array. -/
def exStateC : SmState Nat := ⟨2, "C", some exBadEnter, none, none, none⟩

/-- The class. -/
def exClass : SmClass Nat := ⟨"Ex", [exStateA, exStateB, exStateC], none, none⟩

/-- An initialized instance of the class in state `cur`, logger and resolver
registered. -/
def exMachine (cur : SmStateId) : SmMachine Nat :=
  ⟨some exClass, cur, SM_STATE_INVALID, true, none, some exLog, some exName⟩

/-- The instance in state `cur`, the counter at `n`, an empty trace. -/
def exWorld (cur : SmStateId) (n : Nat) : SmWorld Nat := ⟨some (exMachine cur), n, []⟩

/-! ## Vocabulary of the lifecycle operations -/

/-- The instance as `SmCreate` sets it up before the init hook runs. -/
def SmMachine.fresh (c : SmClass U) (user_data : SmPtr) : SmMachine U :=
  ⟨some c, SM_STATE_INVALID, SM_STATE_INVALID, false, user_data, none, none⟩

/-- The instance `SmCreate` leaves on success. -/
def SmMachine.created (c : SmClass U) (user_data : SmPtr) : SmMachine U :=
  ⟨some c, SM_STATE_INVALID, SM_STATE_INVALID, true, user_data, none, none⟩

/-- The instance after the field assignments of `SmStart`. -/
def SmMachine.started (m : SmMachine U) (initial_state : SmStateId) : SmMachine U :=
  { m with current_state := initial_state, previous_state := SM_STATE_INVALID }

/-- The instance after the field assignment of `SmStop`. -/
def SmMachine.stopped (m : SmMachine U) : SmMachine U :=
  { m with current_state := SM_STATE_INVALID }

/-- The exit callback of the active state of the instance, if the class
declares that state and the state has one. -/
def SmMachine.exitCall (m : SmMachine U) : Option (SmHandle → U → SmRetCode × U) :=
  match SmFindState (some m) m.current_state with
  | none => none
  | some state => state.on_exit

/-- The trace entry of the exit call made for the active state of the instance. -/
def SmMachine.exitSteps (m : SmMachine U) : List SmStep :=
  match SmFindState (some m) m.current_state with
  | none => []
  | some state => SmExitSteps state

/-- The exit block shared by `SmStop` and `SmForceTransition`: the exit callback
of the active state is called when the class declares the state and the state
has one. -/
def SmMachine.runExit (m : SmMachine U) (user : U) (trace : List SmStep) : SmCall U :=
  match SmFindState (some m) m.current_state with
  | none => ⟨SM_RET_OK, user, trace⟩
  | some state =>
    SmInvoke state.on_exit (SmStep.onExit state.state_id) m.handle user trace

/-- The logger block of `SmForceTransition`, run on the instance `m1` after the
field update: the logger is called when it is registered and the former state
is declared in the class. -/
def SmForceLog (m1 : SmMachine U) (next_state : SmState U) (user : U)
    (trace : List SmStep) : U × List SmStep :=
  match m1.trans_log_fn with
  | none => (user, trace)
  | some _ =>
    match SmFindState (some m1) m1.previous_state with
    | none => (user, trace)
    | some current_state =>
      SmLogCall m1 current_state.state_name next_state.state_name SM_EVENT_INVALID
        (some "FORCE_TRANSITION") user trace

/-- The caller's memory after the logger block of `SmForceTransition`. -/
def SmForceLogUser (m1 : SmMachine U) (next_state : SmState U) (user : U) : U :=
  (SmForceLog m1 next_state user []).1

/-- The trace entries of the logger block of `SmForceTransition`. -/
def SmForceLogSteps (m1 : SmMachine U) (next_state : SmState U) : List SmStep :=
  match m1.trans_log_fn with
  | none => []
  | some _ =>
    match SmFindState (some m1) m1.previous_state with
    | none => []
    | some current_state =>
      [SmStep.log m1.class_name current_state.state_name next_state.state_name
        SM_EVENT_INVALID (some "FORCE_TRANSITION")]

/-! ## More example data -/

/-- Init hook that succeeds. -/
def exInit : SmInitFn Nat := fun _ n => (SM_RET_OK, n + 5)

/-- Init hook that fails with code 3. -/
def exBadInit : SmInitFn Nat := fun _ n => (3, n + 5)

/-- The example class with an init hook that succeeds. -/
def exClassInit : SmClass Nat := { exClass with on_init := some exInit }

/-- The example class with an init hook that fails. -/
def exClassBadInit : SmClass Nat := { exClass with on_init := some exBadInit }

/-- Instance storage holding leftovers of an earlier use. -/
def exStale : SmMachine Nat := ⟨none, 7, 8, true, some 9, some exLog, some exName⟩

/-- World whose instance storage holds leftovers, the counter at `n`. -/
def exStaleWorld (n : Nat) : SmWorld Nat := ⟨some exStale, n, []⟩

/-- Enter callback that returns the ignore code. -/
def exIgnoreEnter : SmStateEnterFn Nat := fun _ n => (SM_RET_IGNORE, n + 1000)

/-- State 0 of a two-state class: one unguarded rule for event 1, to state 1. -/
def exStateP : SmState Nat := ⟨0, "P", none, none, none, some [⟨1, 1, none, none, none⟩]⟩

/-- State 1 of the two-state class: its enter callback returns the ignore code. -/
def exStateQ : SmState Nat := ⟨1, "Q", some exIgnoreEnter, none, none, none⟩

/-- The two-state class. -/
def exClassPQ : SmClass Nat := ⟨"PQ", [exStateP, exStateQ], none, none⟩

/-- An initialized instance of the two-state class in state 0. -/
def exWorldPQ : SmWorld Nat :=
  ⟨some ⟨some exClassPQ, 0, SM_STATE_INVALID, true, none, none, none⟩, 0, []⟩

/-! ## Vocabulary of scenarios and of the state-field invariant -/

/-- The callback, if present, returns `SM_RET_OK` whatever it is called with. -/
def SmAlwaysSucceeds (cb : Option (SmHandle → U → SmRetCode × U)) : Prop :=
  ∀ f, cb = some f → ∀ h u, (f h u).1 = SM_RET_OK

/-- The `on_handle` callback, if present, returns `SM_RET_OK` for every event. -/
def SmHandleAlwaysSucceeds (cb : Option (SmStateHandleFn U)) : Prop :=
  ∀ f, cb = some f → ∀ h e u, (f h e u).1 = SM_RET_OK

/-- The world after `n` calls of `SmSendEvent` with the same event. -/
def SmAfter (event : SmEventId) : Nat → SmWorld U → SmWorld U
  | 0, w => w
  | n + 1, w => (SmSendEvent (SmAfter event n w) event).2

/-- The trace entry of the deinit hook of the class of the instance. -/
def SmMachine.deinitSteps (m : SmMachine U) : List SmStep :=
  match m.sm_class with
  | none => []
  | some c => SmStepIf c.on_deinit.isSome SmStep.onDeinit

/-- The trace entries of the exit call `SmDestroy` makes when a state is active. -/
def SmMachine.destroyExitSteps (m : SmMachine U) : List SmStep :=
  if m.current_state ≠ SM_STATE_INVALID then m.exitSteps else []

/-- Some state of the class of the instance has the id. -/
def SmDeclared (m : SmMachine U) (state_id : SmStateId) : Prop :=
  ∃ c S, m.sm_class = some c ∧ S ∈ c.states ∧ S.state_id = state_id

/-- The id is the invalid sentinel or the id of a declared state. -/
def SmStateOk (m : SmMachine U) (state_id : SmStateId) : Prop :=
  state_id = SM_STATE_INVALID ∨ SmDeclared m state_id

/-- The operations that drive a created instance. -/
inductive SmOp where
  | start (initial_state : SmStateId)
  | stop
  | send (event : SmEventId)
  | force (new_state : SmStateId)
  deriving DecidableEq, Repr

/-- The world after one operation. -/
def SmOp.apply (w : SmWorld U) : SmOp → SmWorld U
  | SmOp.start s => (SmStart w s).2
  | SmOp.stop => (SmStop w).2
  | SmOp.send e => (SmSendEvent w e).2
  | SmOp.force s => (SmForceTransition w s).2

/-- The worlds an instance goes through when it is set up by `SmCreate` with
the class `c` and then driven by `SmStart`, `SmStop`, `SmSendEvent` and
`SmForceTransition`, the caller being free to change its own memory between
calls. -/
inductive SmReach (c : SmClass U) : SmWorld U → Prop where
  | create (w : SmWorld U) (m0 : SmMachine U) (user_data : SmPtr) :
      w.machine = some m0 → SmReach c (SmCreate w (some c) user_data).2
  | step (w : SmWorld U) (op : SmOp) : SmReach c w → SmReach c (op.apply w)
  | caller (w : SmWorld U) (u : U) : SmReach c w → SmReach c { w with user := u }

/-- The retry scenario: the state `S` has, for the event `fail`, the rule `r`
that keeps the instance in `S`, whose guard accepts exactly while the counter
`retries` of the caller's memory is below 5 and whose action succeeds and adds
one to the counter; the other callbacks of `S` and the logger `logf` do not
fail and leave the counter alone. -/
structure SmRetrySetup (S : SmState U) (r : SmTransition U) (fail : SmEventId)
    (retries : U → Nat) (logf : Option (SmTransLogFn U)) : Prop where
  started : S.state_id ≠ SM_STATE_INVALID
  rule : SmFindTransition (some S) fail = some r
  self : r.next_state = S.state_id
  guard : ∃ g, r.condition = some g ∧
    ∀ h d u, (g h d u).1 = decide (retries u < 5) ∧ retries (g h d u).2 = retries u
  action : ∃ a, r.action = some a ∧
    ∀ h d u, (a h d u).1 = SM_RET_OK ∧ retries (a h d u).2 = retries u + 1
  handle : ∀ f, S.on_handle = some f → ∀ h e u,
    ((f h e u).1 = SM_RET_OK ∨ (f h e u).1 = SM_RET_IGNORE) ∧
      retries (f h e u).2 = retries u
  leave : ∀ f, S.on_exit = some f → ∀ h u,
    (f h u).1 = SM_RET_OK ∧ retries (f h u).2 = retries u
  enter : ∀ f, S.on_enter = some f → ∀ h u,
    (f h u).1 = SM_RET_OK ∧ retries (f h u).2 = retries u
  logger : ∀ l, logf = some l → ∀ a b c e n u, retries (l a b c e n u) = retries u

/-! ## Example data for the scenarios -/


/-- State A of the two-state scenario: one unguarded rule, event 1 to state 1. -/
def exScenA : SmState Nat :=
  ⟨0, "A", some exEnter, some exExit, none, some [⟨1, 1, none, some exAction, none⟩]⟩

/-- State B of the two-state scenario: no rule. -/
def exScenB : SmState Nat := ⟨1, "B", some exEnter, none, none, some []⟩

/-- The class of the two-state scenario. -/
def exClassAB : SmClass Nat := ⟨"AB", [exScenA, exScenB], some exInit, none⟩

/-- Rule of the retry scenario: event 2 keeps the state, guarded by `exGuard`
(counter below 5), with the action `exAction` (counter plus one). -/
def exRetryRule : SmTransition Nat := ⟨2, 1, some exGuard, some exAction, none⟩

/-- State of the retry scenario. -/
def exConnecting : SmState Nat := ⟨1, "Connecting", none, none, none, some [exRetryRule]⟩

/-- Class of the retry scenario. -/
def exClassRetry : SmClass Nat := ⟨"Retry", [exConnecting], none, none⟩

/-- An instance started in the state of the retry scenario, the counter at 0. -/
def exWorldRetry : SmWorld Nat :=
  ⟨some ⟨some exClassRetry, 1, SM_STATE_INVALID, true, none, none, none⟩, 0, []⟩

/-- A class whose state ids are unique but are not the array indices. -/
def exClassSwapped : SmClass Nat :=
  ⟨"Swapped", [⟨1, "One", none, none, none, none⟩, ⟨0, "Zero", none, none, none, none⟩],
    none, none⟩

/-- An initialized instance of `exClassSwapped` in the state with id 1. -/
def exWorldSwapped : SmWorld Nat :=
  ⟨some ⟨some exClassSwapped, 1, SM_STATE_INVALID, true, none, none, none⟩, 0, []⟩

/-- A class whose state ids, 5 and 7, lie outside the index range of the array. -/
def exClassSparse : SmClass Nat :=
  ⟨"Sparse", [⟨5, "Five", none, none, none, none⟩, ⟨7, "Seven", none, none, none, none⟩],
    none, none⟩

/-- An initialized instance of `exClassSparse` in the state with id 5. -/
def exWorldSparse : SmWorld Nat :=
  ⟨some ⟨some exClassSparse, 5, SM_STATE_INVALID, true, none, none, none⟩, 0, []⟩

/-! ## The table macros of `SmMgr.h` -/

/-- `SM_TRANS_END()`: `{ .event_id = SM_EVENT_INVALID }`, the other fields zero. -/
def SM_TRANS_END : SmTransition U := ⟨SM_EVENT_INVALID, 0, none, none, none⟩

/-- `SM_TRANS(evt, next)`. -/
def SM_TRANS (evt : SmEventId) (next : SmStateId) : SmTransition U :=
  ⟨evt, next, none, none, none⟩

/-- `SM_TRANS_COND(evt, next, cond)`. -/
def SM_TRANS_COND (evt : SmEventId) (next : SmStateId) (cond : SmConditionFn U) :
    SmTransition U :=
  ⟨evt, next, some cond, none, none⟩

/-- `SM_TRANS_ACTION(evt, next, act, act_data)`. -/
def SM_TRANS_ACTION (evt : SmEventId) (next : SmStateId) (act : SmActionFn U)
    (act_data : SmPtr) : SmTransition U :=
  ⟨evt, next, none, some act, act_data⟩

/-- `SM_TRANS_FULL(evt, next, cond, act, act_data)`. -/
def SM_TRANS_FULL (evt : SmEventId) (next : SmStateId) (cond : SmConditionFn U)
    (act : SmActionFn U) (act_data : SmPtr) : SmTransition U :=
  ⟨evt, next, some cond, some act, act_data⟩

/-- The entries `[0 .. count)` of an array whose `uint16_t` count field is set
from `sizeof(array) / sizeof(entry)`: the length is stored modulo `2 ^ 16`. -/
def SmCounted {α : Type} (array : List α) : List α :=
  array.take (array.length % 2 ^ 16)

/-- `SM_STATE(id, name, enter, exit, handle, trans_array)`; `trans_count` is
`sizeof(trans_array) / sizeof(SmTransition)`, the whole array with its last
entry, stored in a `uint16_t`. -/
def SM_STATE (id : SmStateId) (name : String) (enter : Option (SmStateEnterFn U))
    (exit_fn : Option (SmStateExitFn U)) (handle : Option (SmStateHandleFn U))
    (trans_array : List (SmTransition U)) : SmState U :=
  ⟨id, name, enter, exit_fn, handle, some (SmCounted trans_array)⟩

/-- `SM_CLASS_DEF(name, states_array, init_fn, deinit_fn)`; `state_count` is
`sizeof(states_array) / sizeof(SmState)`, stored in a `uint16_t`. -/
def SM_CLASS_DEF (name : String) (states_array : List (SmState U))
    (init_fn : Option (SmInitFn U)) (deinit_fn : Option (SmDeinitFn U)) : SmClass U :=
  ⟨name, SmCounted states_array, init_fn, deinit_fn⟩

/-! ## The TCP session example, `SmMgr_demo.c`

The caller's memory is the `session_data` member of `TcpSessionSm`, next to the
instance.  The log macro `ALOG_E` has no effect on it and is left out.  A
callback that dereferences a pointer other than the address of `session_data`
has undefined behaviour in C; the embedding records it in `fault` and lets the
callback return, so that the steps of the engine can still be read. -/

abbrev STATE_DISCONNECTED : SmStateId := 0
abbrev STATE_CONNECTING : SmStateId := 1
abbrev STATE_CONNECTED : SmStateId := 2
abbrev STATE_AUTHENTICATING : SmStateId := 3
abbrev STATE_AUTHENTICATED : SmStateId := 4
abbrev STATE_RECONNECTING : SmStateId := 5
abbrev STATE_ERROR : SmStateId := 6
abbrev STATE_MAX : SmStateId := 7

abbrev EVT_CONNECT : SmEventId := 0
abbrev EVT_CONNECT_OK : SmEventId := 1
abbrev EVT_CONNECT_FAIL : SmEventId := 2
abbrev EVT_DISCONNECT : SmEventId := 3
abbrev EVT_REMOTE_CLOSE : SmEventId := 4
abbrev EVT_SEND_AUTH : SmEventId := 5
abbrev EVT_AUTH_OK : SmEventId := 6
abbrev EVT_AUTH_FAIL : SmEventId := 7
abbrev EVT_TIMEOUT : SmEventId := 8
abbrev EVT_NETWORK_ERROR : SmEventId := 9
abbrev EVT_RECONNECT : SmEventId := 10
abbrev EVT_MAX : SmEventId := 11

/-- `TcpSessionData`; the `uint32_t` counters are kept below `2 ^ 32`. -/
structure TcpSessionData where
  socket_fd : Int
  connect_retry_count : Nat
  reconnect_count : Nat
  auth_retry_count : Nat
  last_error_code : Nat
  need_reconnect : Bool
  keepalive_tick : Nat
  server_ip : String
  server_port : Nat
  deriving DecidableEq, Repr

/-- The memory the callbacks of the example act on. -/
structure TcpMem where
  session_data : TcpSessionData
  fault : Bool
  deriving DecidableEq, Repr

/-- The address `&tcp_sm.session_data`, the `user_data` the demo gives `SmCreate`. -/
def tcpSessionAddr : Nat := 1

/-- Increment of a `uint32_t`. -/
def u32succ (n : Nat) : Nat := (n + 1) % 2 ^ 32

/-- `GetEventName`. -/
def GetEventName : SmGetEventNameFn := fun event_id =>
  if 0 ≤ event_id ∧ event_id < 11 then
    ["CONNECT", "CONNECT_OK", "CONNECT_FAIL", "DISCONNECT", "REMOTE_CLOSE", "SEND_AUTH",
      "AUTH_OK", "AUTH_FAIL", "TIMEOUT", "NETWORK_ERROR", "RECONNECT"].get? event_id.toNat
  else some "UNKNOWN"

/-- `TransLogCallback`: it only logs. -/
def TransLogCallback : SmTransLogFn TcpMem := fun _ _ _ _ _ mem => mem

/-- `CanRetryConnect`: reads the counter through the handle. -/
def CanRetryConnect : SmConditionFn TcpMem := fun _ _ mem =>
  (decide (mem.session_data.connect_retry_count < 5), mem)

/-- `CanRetryAuth`. -/
def CanRetryAuth : SmConditionFn TcpMem := fun _ _ mem =>
  (decide (mem.session_data.auth_retry_count < 3), mem)

/-- `ShouldReconnect`. -/
def ShouldReconnect : SmConditionFn TcpMem := fun _ _ mem =>
  (mem.session_data.need_reconnect && decide (mem.session_data.reconnect_count < 10), mem)

/-- `OnConnectAction`: it counts through its second argument,
`data = (TcpSessionData *)user_data`, not through the handle. -/
def OnConnectAction : SmActionFn TcpMem := fun _ user_data mem =>
  if user_data = some tcpSessionAddr then
    (SM_RET_OK, { mem with session_data :=
      { mem.session_data with
        connect_retry_count := u32succ mem.session_data.connect_retry_count } })
  else (SM_RET_OK, { mem with fault := true })

/-- `OnDisconnectAction`. -/
def OnDisconnectAction : SmActionFn TcpMem := fun _ _ mem =>
  (SM_RET_OK, { mem with session_data :=
    { mem.session_data with
      socket_fd := (-1 : Int), connect_retry_count := 0,
      auth_retry_count := 0 } })

/-- `OnSendAuthAction`. -/
def OnSendAuthAction : SmActionFn TcpMem := fun _ _ mem =>
  (SM_RET_OK, { mem with session_data :=
    { mem.session_data with auth_retry_count := u32succ mem.session_data.auth_retry_count } })

/-- `OnReconnectStartAction`. -/
def OnReconnectStartAction : SmActionFn TcpMem := fun _ _ mem =>
  (SM_RET_OK, { mem with session_data :=
    { mem.session_data with
      reconnect_count := u32succ mem.session_data.reconnect_count,
      connect_retry_count := 0, auth_retry_count := 0 } })

/-- `Disconnected_OnEnter`. -/
def Disconnected_OnEnter : SmStateEnterFn TcpMem := fun _ mem =>
  (SM_RET_OK, { mem with session_data :=
    { mem.session_data with socket_fd := (-1 : Int), need_reconnect := false } })

/-- `Disconnected_OnExit`. -/
def Disconnected_OnExit : SmStateExitFn TcpMem := fun _ mem => (SM_RET_OK, mem)

/-- `Disconnected_OnHandle`. -/
def Disconnected_OnHandle : SmStateHandleFn TcpMem := fun _ event mem =>
  if event = EVT_CONNECT_OK then
    (SM_RET_OK, { mem with session_data := { mem.session_data with socket_fd := 100 } })
  else (SM_RET_OK, mem)

/-- `Connecting_OnEnter`. -/
def Connecting_OnEnter : SmStateEnterFn TcpMem := fun _ mem => (SM_RET_OK, mem)

/-- `Connecting_OnExit`. -/
def Connecting_OnExit : SmStateExitFn TcpMem := fun _ mem => (SM_RET_OK, mem)

/-- `Connecting_OnHandle`. -/
def Connecting_OnHandle : SmStateHandleFn TcpMem := fun _ event mem =>
  if event = EVT_CONNECT_OK then
    (SM_RET_OK, { mem with session_data := { mem.session_data with socket_fd := 100 } })
  else if event = EVT_CONNECT_FAIL ∨ event = EVT_TIMEOUT then
    (SM_RET_OK, { mem with session_data :=
      { mem.session_data with
        last_error_code := if event = EVT_TIMEOUT then 1001 else 1000 } })
  else (SM_RET_OK, mem)

/-- `Connected_OnEnter`. -/
def Connected_OnEnter : SmStateEnterFn TcpMem := fun _ mem =>
  (SM_RET_OK, { mem with session_data := { mem.session_data with auth_retry_count := 0 } })

/-- `Connected_OnExit`. -/
def Connected_OnExit : SmStateExitFn TcpMem := fun _ mem => (SM_RET_OK, mem)

/-- `Connected_OnHandle`. -/
def Connected_OnHandle : SmStateHandleFn TcpMem := fun _ _ mem => (SM_RET_OK, mem)

/-- `Authenticating_OnEnter`. -/
def Authenticating_OnEnter : SmStateEnterFn TcpMem := fun _ mem => (SM_RET_OK, mem)

/-- `Authenticating_OnExit`. -/
def Authenticating_OnExit : SmStateExitFn TcpMem := fun _ mem => (SM_RET_OK, mem)

/-- `Authenticating_OnHandle`. -/
def Authenticating_OnHandle : SmStateHandleFn TcpMem := fun _ event mem =>
  if event = EVT_AUTH_OK then (SM_RET_OK, mem)
  else if event = EVT_AUTH_FAIL ∨ event = EVT_TIMEOUT then
    (SM_RET_OK, { mem with session_data :=
      { mem.session_data with
        last_error_code := if event = EVT_TIMEOUT then 2001 else 2000 } })
  else (SM_RET_OK, mem)

/-- `Authenticated_OnEnter`. -/
def Authenticated_OnEnter : SmStateEnterFn TcpMem := fun _ mem =>
  (SM_RET_OK, { mem with session_data := { mem.session_data with reconnect_count := 0 } })

/-- `Authenticated_OnExit`. -/
def Authenticated_OnExit : SmStateExitFn TcpMem := fun _ mem => (SM_RET_OK, mem)

/-- `Authenticated_OnHandle`. -/
def Authenticated_OnHandle : SmStateHandleFn TcpMem := fun _ event mem =>
  if event = EVT_REMOTE_CLOSE ∨ event = EVT_NETWORK_ERROR then
    (SM_RET_OK, { mem with session_data :=
      { mem.session_data with
        need_reconnect := true,
        last_error_code := if event = EVT_REMOTE_CLOSE then 3000 else 3001 } })
  else (SM_RET_OK, mem)

/-- `Reconnecting_OnEnter`. -/
def Reconnecting_OnEnter : SmStateEnterFn TcpMem := fun _ mem => (SM_RET_OK, mem)

/-- `Reconnecting_OnExit`. -/
def Reconnecting_OnExit : SmStateExitFn TcpMem := fun _ mem => (SM_RET_OK, mem)

/-- `Reconnecting_OnHandle`. -/
def Reconnecting_OnHandle : SmStateHandleFn TcpMem := fun _ event mem =>
  if event = EVT_CONNECT_OK then
    (SM_RET_OK, { mem with session_data := { mem.session_data with socket_fd := 100 } })
  else if event = EVT_CONNECT_FAIL ∨ event = EVT_TIMEOUT then
    (SM_RET_OK, { mem with session_data :=
      { mem.session_data with
        last_error_code := if event = EVT_TIMEOUT then 4001 else 4000 } })
  else (SM_RET_OK, mem)

/-- `Error_OnEnter`. -/
def Error_OnEnter : SmStateEnterFn TcpMem := fun _ mem => (SM_RET_OK, mem)

/-- `Error_OnExit`. -/
def Error_OnExit : SmStateExitFn TcpMem := fun _ mem => (SM_RET_OK, mem)

/-- `Error_OnHandle`. -/
def Error_OnHandle : SmStateHandleFn TcpMem := fun _ _ mem => (SM_RET_OK, mem)

/-- `disconnected_transitions`. -/
def disconnected_transitions : List (SmTransition TcpMem) :=
  [SM_TRANS_ACTION EVT_CONNECT STATE_CONNECTING OnConnectAction none,
   SM_TRANS_END]

/-- `connecting_transitions`. -/
def connecting_transitions : List (SmTransition TcpMem) :=
  [SM_TRANS EVT_CONNECT_OK STATE_CONNECTED,
   SM_TRANS_FULL EVT_CONNECT_FAIL STATE_CONNECTING CanRetryConnect OnConnectAction none,
   SM_TRANS_FULL EVT_TIMEOUT STATE_CONNECTING CanRetryConnect OnConnectAction none,
   SM_TRANS EVT_NETWORK_ERROR STATE_ERROR,
   SM_TRANS EVT_DISCONNECT STATE_DISCONNECTED,
   SM_TRANS_END]

/-- `connected_transitions`. -/
def connected_transitions : List (SmTransition TcpMem) :=
  [SM_TRANS_ACTION EVT_SEND_AUTH STATE_AUTHENTICATING OnSendAuthAction none,
   SM_TRANS_ACTION EVT_DISCONNECT STATE_DISCONNECTED OnDisconnectAction none,
   SM_TRANS EVT_REMOTE_CLOSE STATE_ERROR,
   SM_TRANS EVT_NETWORK_ERROR STATE_ERROR,
   SM_TRANS_END]

/-- `authenticating_transitions`. -/
def authenticating_transitions : List (SmTransition TcpMem) :=
  [SM_TRANS EVT_AUTH_OK STATE_AUTHENTICATED,
   SM_TRANS_FULL EVT_AUTH_FAIL STATE_AUTHENTICATING CanRetryAuth OnSendAuthAction none,
   SM_TRANS_FULL EVT_TIMEOUT STATE_AUTHENTICATING CanRetryAuth OnSendAuthAction none,
   SM_TRANS EVT_NETWORK_ERROR STATE_ERROR,
   SM_TRANS EVT_DISCONNECT STATE_DISCONNECTED,
   SM_TRANS_END]

/-- `authenticated_transitions`. -/
def authenticated_transitions : List (SmTransition TcpMem) :=
  [SM_TRANS_FULL EVT_REMOTE_CLOSE STATE_RECONNECTING ShouldReconnect
     OnReconnectStartAction none,
   SM_TRANS_FULL EVT_NETWORK_ERROR STATE_RECONNECTING ShouldReconnect
     OnReconnectStartAction none,
   SM_TRANS_ACTION EVT_DISCONNECT STATE_DISCONNECTED OnDisconnectAction none,
   SM_TRANS_END]

/-- `reconnecting_transitions`. -/
def reconnecting_transitions : List (SmTransition TcpMem) :=
  [SM_TRANS EVT_CONNECT_OK STATE_CONNECTED,
   SM_TRANS_FULL EVT_CONNECT_FAIL STATE_RECONNECTING CanRetryConnect OnConnectAction none,
   SM_TRANS_FULL EVT_TIMEOUT STATE_RECONNECTING CanRetryConnect OnConnectAction none,
   SM_TRANS EVT_NETWORK_ERROR STATE_ERROR,
   SM_TRANS EVT_DISCONNECT STATE_DISCONNECTED,
   SM_TRANS_END]

/-- `error_transitions`. -/
def error_transitions : List (SmTransition TcpMem) :=
  [SM_TRANS_ACTION EVT_CONNECT STATE_CONNECTING OnConnectAction none,
   SM_TRANS_END]

/-- `tcp_states`. -/
def tcp_states : List (SmState TcpMem) :=
  [SM_STATE STATE_DISCONNECTED "DISCONNECTED" (some Disconnected_OnEnter)
     (some Disconnected_OnExit) (some Disconnected_OnHandle) disconnected_transitions,
   SM_STATE STATE_CONNECTING "CONNECTING" (some Connecting_OnEnter)
     (some Connecting_OnExit) (some Connecting_OnHandle) connecting_transitions,
   SM_STATE STATE_CONNECTED "CONNECTED" (some Connected_OnEnter)
     (some Connected_OnExit) (some Connected_OnHandle) connected_transitions,
   SM_STATE STATE_AUTHENTICATING "AUTHENTICATING" (some Authenticating_OnEnter)
     (some Authenticating_OnExit) (some Authenticating_OnHandle) authenticating_transitions,
   SM_STATE STATE_AUTHENTICATED "AUTHENTICATED" (some Authenticated_OnEnter)
     (some Authenticated_OnExit) (some Authenticated_OnHandle) authenticated_transitions,
   SM_STATE STATE_RECONNECTING "RECONNECTING" (some Reconnecting_OnEnter)
     (some Reconnecting_OnExit) (some Reconnecting_OnHandle) reconnecting_transitions,
   SM_STATE STATE_ERROR "ERROR" (some Error_OnEnter)
     (some Error_OnExit) (some Error_OnHandle) error_transitions]

/-- `Tcp_OnInit`. -/
def Tcp_OnInit : SmInitFn TcpMem := fun _ mem =>
  (SM_RET_OK, { mem with session_data :=
    { mem.session_data with
      socket_fd := (-1 : Int), connect_retry_count := 0,
      reconnect_count := 0, auth_retry_count := 0, last_error_code := 0,
      need_reconnect := false, keepalive_tick := 0, server_ip := "192.168.1.100",
      server_port := 8080 } })

/-- `Tcp_OnDeinit`. -/
def Tcp_OnDeinit : SmDeinitFn TcpMem := fun _ mem => (SM_RET_OK, mem)

/-- `tcp_sm_class`. -/
def tcp_sm_class : SmClass TcpMem :=
  SM_CLASS_DEF "TcpSessionSm" tcp_states (some Tcp_OnInit) (some Tcp_OnDeinit)

/-- `TcpSessionSm tcp_sm = { 0 }`: the session data before `SmCreate`. -/
def tcpZeroData : TcpSessionData := ⟨0, 0, 0, 0, 0, false, 0, "", 0⟩

/-- The session data with the connect retry counter at `n`, as `Tcp_OnInit`
leaves the other fields. -/
def tcpData (n : Nat) : TcpSessionData :=
  ⟨-1, n, 0, 0, 0, false, 0, "192.168.1.100", 8080⟩

/-- The instance of the demo after `SmCreate(&tcp_sm.sm, &tcp_sm_class,
&tcp_sm.session_data)`, `SmSetTransLogFn` and `SmSetGetEventNameFn`, in the state
`cur`. -/
def tcpMachine (cur : SmStateId) : SmMachine TcpMem :=
  ⟨some tcp_sm_class, cur, SM_STATE_INVALID, true, some tcpSessionAddr,
    some TransLogCallback, some GetEventName⟩

/-- The demo instance in the state `cur` with the session data `data`, no fault,
an empty trace. -/
def tcpWorld (cur : SmStateId) (data : TcpSessionData) : SmWorld TcpMem :=
  ⟨some (tcpMachine cur), ⟨data, false⟩, []⟩

/-- The entry of `tcp_states` for `STATE_CONNECTING`. -/
def tcpConnecting : SmState TcpMem :=
  SM_STATE STATE_CONNECTING "CONNECTING" (some Connecting_OnEnter)
    (some Connecting_OnExit) (some Connecting_OnHandle) connecting_transitions

/-- The rule of `connecting_transitions` for `EVT_TIMEOUT`. -/
def tcpTimeoutRule : SmTransition TcpMem :=
  SM_TRANS_FULL EVT_TIMEOUT STATE_CONNECTING CanRetryConnect OnConnectAction none

/-- The memory `Connecting_OnHandle` leaves for `EVT_TIMEOUT`. -/
def tcpTimedOut (data : TcpSessionData) : TcpMem :=
  ⟨{ data with last_error_code := 1001 }, false⟩

/-! ## Lookup -/

theorem SmFindState_scan_some_iff (state_id : SmStateId) (l : List (SmState U))
    (s : SmState U) :
    SmFindState.scan state_id l = some s ↔
      s.state_id = state_id ∧
        ∃ pre post, l = pre ++ s :: post ∧ ∀ x ∈ pre, x.state_id ≠ state_id := by
  induction l with
  | nil => simp [SmFindState.scan]
  | cons a rest ih =>
    by_cases ha : a.state_id = state_id
    · simp only [SmFindState.scan, ha, if_true, Option.some.injEq]
      constructor
      · intro h
        subst h
        exact ⟨ha, [], rest, rfl, by simp⟩
      · rintro ⟨_, pre, post, hl, hpre⟩
        cases pre with
        | nil => simp at hl; exact hl.1
        | cons b pre =>
          simp only [List.cons_append, List.cons.injEq] at hl
          exact absurd (hl.1 ▸ ha) (hpre b (by simp))
    · simp only [SmFindState.scan, ha, if_false, ih]
      constructor
      · rintro ⟨hs, pre, post, hl, hpre⟩
        refine ⟨hs, a :: pre, post, by simp [hl], ?_⟩
        intro x hx
        rcases List.mem_cons.1 hx with rfl | hx
        · exact ha
        · exact hpre x hx
      · rintro ⟨hs, pre, post, hl, hpre⟩
        cases pre with
        | nil =>
          simp only [List.nil_append, List.cons.injEq] at hl
          exact absurd (hl.1 ▸ hs) ha
        | cons b pre =>
          simp only [List.cons_append, List.cons.injEq] at hl
          exact ⟨hs, pre, post, hl.2, fun x hx => hpre x (by simp [hx])⟩

theorem SmFindState_scan_none_iff (state_id : SmStateId) (l : List (SmState U)) :
    SmFindState.scan state_id l = none ↔ ∀ x ∈ l, x.state_id ≠ state_id := by
  induction l with
  | nil => simp [SmFindState.scan]
  | cons a rest ih =>
    by_cases ha : a.state_id = state_id
    · simp [SmFindState.scan, ha]
    · simp [SmFindState.scan, ha, ih]

theorem SmFindTransition_scan_some_iff (event : SmEventId) (l : List (SmTransition U))
    (t : SmTransition U) :
    SmFindTransition.scan event l = some t ↔
      t.event_id = event ∧
        ∃ pre post, l = pre ++ t :: post ∧ ∀ x ∈ pre, x.event_id ≠ event := by
  induction l with
  | nil => simp [SmFindTransition.scan]
  | cons a rest ih =>
    by_cases ha : a.event_id = event
    · simp only [SmFindTransition.scan, ha, if_true, Option.some.injEq]
      constructor
      · intro h
        subst h
        exact ⟨ha, [], rest, rfl, by simp⟩
      · rintro ⟨_, pre, post, hl, hpre⟩
        cases pre with
        | nil => simp at hl; exact hl.1
        | cons b pre =>
          simp only [List.cons_append, List.cons.injEq] at hl
          exact absurd (hl.1 ▸ ha) (hpre b (by simp))
    · simp only [SmFindTransition.scan, ha, if_false, ih]
      constructor
      · rintro ⟨hs, pre, post, hl, hpre⟩
        refine ⟨hs, a :: pre, post, by simp [hl], ?_⟩
        intro x hx
        rcases List.mem_cons.1 hx with rfl | hx
        · exact ha
        · exact hpre x hx
      · rintro ⟨hs, pre, post, hl, hpre⟩
        cases pre with
        | nil =>
          simp only [List.nil_append, List.cons.injEq] at hl
          exact absurd (hl.1 ▸ hs) ha
        | cons b pre =>
          simp only [List.cons_append, List.cons.injEq] at hl
          exact ⟨hs, pre, post, hl.2, fun x hx => hpre x (by simp [hx])⟩

theorem SmFindTransition_scan_none_iff (event : SmEventId) (l : List (SmTransition U)) :
    SmFindTransition.scan event l = none ↔ ∀ x ∈ l, x.event_id ≠ event := by
  induction l with
  | nil => simp [SmFindTransition.scan]
  | cons a rest ih =>
    by_cases ha : a.event_id = event
    · simp [SmFindTransition.scan, ha]
    · simp [SmFindTransition.scan, ha, ih]

/-! ## The stages of `SmSendEvent` -/

theorem SmInvoke_of_succeeds {cb : Option (SmHandle → U → SmRetCode × U)} {h : SmHandle}
    {u v : U} (hs : SmSucceeds cb h u v) (step : SmStep) (t : List SmStep) :
    SmInvoke cb step h u t = ⟨SM_RET_OK, v, t ++ SmStepIf cb.isSome step⟩ := by
  cases cb with
  | none => simp [SmSucceeds] at hs; simp [SmInvoke, SmStepIf, hs]
  | some f => simp [SmSucceeds] at hs; simp [SmInvoke, SmStepIf, hs]

theorem SmInvoke_of_fails {cb : Option (SmHandle → U → SmRetCode × U)} {h : SmHandle}
    {u v : U} {c : SmRetCode} (hf : SmFails cb h u c v) (step : SmStep) (t : List SmStep) :
    SmInvoke cb step h u t = ⟨c, v, t ++ SmStepIf cb.isSome step⟩ := by
  cases cb with
  | none => simp [SmFails] at hf
  | some f => simp [SmFails] at hf; simp [SmInvoke, SmStepIf, hf.1]

theorem SmFails_ne_ok {cb : Option (SmHandle → U → SmRetCode × U)} {h : SmHandle}
    {u v : U} {c : SmRetCode} (hf : SmFails cb h u c v) : c ≠ SM_RET_OK := by
  cases cb with
  | none => simp [SmFails] at hf
  | some f => exact hf.2

theorem SmFails_isSome {cb : Option (SmHandle → U → SmRetCode × U)} {h : SmHandle}
    {u v : U} {c : SmRetCode} (hf : SmFails cb h u c v) : cb.isSome = true := by
  cases cb with
  | none => simp [SmFails] at hf
  | some f => rfl

theorem SmSendEvent_guards {w : SmWorld U} {m : SmMachine U}
    (hm : w.machine = some m)
    (hbad : m.is_initialized = false ∨ m.current_state = SM_STATE_INVALID)
    (event : SmEventId) : SmSendEvent w event = (SM_RET_ERROR, w) := by
  unfold SmSendEvent
  rw [hm]
  rcases hbad with h | h
  · simp [h]
  · simp [h]

theorem SmTransition_actionCall_isSome (r : SmTransition U) :
    r.actionCall.isSome = r.action.isSome := by
  unfold SmTransition.actionCall
  cases r.action <;> rfl

theorem SmSendEvent_eq_dispatch {w : SmWorld U} {m : SmMachine U} {S : SmState U}
    {event : SmEventId} {u1 : U}
    (hm : w.machine = some m) (hinit : m.is_initialized = true)
    (hstarted : m.current_state ≠ SM_STATE_INVALID)
    (hS : SmFindState (some m) m.current_state = some S)
    (hH : SmHandlePasses S.on_handle m.handle event w.user u1) :
    SmSendEvent w event =
      SmSendEvent.dispatch m S event u1 (w.trace ++ SmHandleSteps S event) := by
  unfold SmSendEvent
  rw [hm]
  simp only [hinit, hstarted, hS, Bool.not_true, if_false]
  unfold SmHandlePasses at hH
  unfold SmHandleSteps
  cases hcb : S.on_handle with
  | none => rw [hcb] at hH; simp [SmStepIf, hH]
  | some f =>
    rw [hcb] at hH
    obtain ⟨hu, hc⟩ := hH
    have h1 : (f m.handle event w.user).1 ≠ SM_RET_TRANSITION := by
      rcases hc with hc | hc <;> rw [hc] <;> decide
    have h2 : ¬ ((f m.handle event w.user).1 ≠ SM_RET_OK ∧
        (f m.handle event w.user).1 ≠ SM_RET_IGNORE) := by
      rcases hc with hc | hc <;> simp [hc]
    simp [h1, h2, hu, SmStepIf]

theorem SmSendEvent_handle_stops {w : SmWorld U} {m : SmMachine U} {S : SmState U}
    {event : SmEventId} {f : SmStateHandleFn U}
    (hm : w.machine = some m) (hinit : m.is_initialized = true)
    (hstarted : m.current_state ≠ SM_STATE_INVALID)
    (hS : SmFindState (some m) m.current_state = some S)
    (hf : S.on_handle = some f)
    (hc : (f m.handle event w.user).1 ≠ SM_RET_OK ∧
      (f m.handle event w.user).1 ≠ SM_RET_IGNORE) :
    SmSendEvent w event =
      (if (f m.handle event w.user).1 = SM_RET_TRANSITION then SM_RET_OK
        else (f m.handle event w.user).1,
       ⟨some m, (f m.handle event w.user).2,
        w.trace ++ [SmStep.onHandle S.state_id event]⟩) := by
  unfold SmSendEvent
  rw [hm]
  simp only [hinit, hstarted, hS, hf, Bool.not_true, if_false]
  by_cases ht : (f m.handle event w.user).1 = SM_RET_TRANSITION
  · simp [ht]
  · simp [ht, hc]

theorem SmSendEvent_dispatch_none {m : SmMachine U} {S : SmState U} {event : SmEventId}
    (hr : SmFindTransition (some S) event = none) (u : U) (t : List SmStep) :
    SmSendEvent.dispatch m S event u t = (SM_RET_IGNORE, ⟨some m, u, t⟩) := by
  simp [SmSendEvent.dispatch, hr]

theorem SmSendEvent_dispatch_reject {m : SmMachine U} {S : SmState U} {event : SmEventId}
    {r : SmTransition U} {u v : U}
    (hr : SmFindTransition (some S) event = some r)
    (hG : SmGuardRejects r m.handle u v) (t : List SmStep) :
    SmSendEvent.dispatch m S event u t =
      (SM_RET_IGNORE, ⟨some m, v, t ++ SmGuardSteps r⟩) := by
  unfold SmGuardRejects at hG
  unfold SmSendEvent.dispatch SmGuardSteps
  rw [hr]
  cases hc : r.condition with
  | none => rw [hc] at hG; exact hG.elim
  | some g =>
    rw [hc] at hG
    simp only at hG
    simp [hc, hG, SmStepIf]

theorem SmSendEvent_dispatch_accept {m : SmMachine U} {S : SmState U} {event : SmEventId}
    {r : SmTransition U} {u v : U}
    (hr : SmFindTransition (some S) event = some r)
    (hG : SmGuardAccepts r m.handle u v) (t : List SmStep) :
    SmSendEvent.dispatch m S event u t =
      SmPerformTransition m S r v (t ++ SmGuardSteps r) := by
  unfold SmGuardAccepts at hG
  unfold SmSendEvent.dispatch SmGuardSteps
  rw [hr]
  cases hc : r.condition with
  | none =>
    rw [hc] at hG
    simp only at hG
    simp [hc, hG, SmStepIf]
  | some g =>
    rw [hc] at hG
    simp only at hG
    simp [hc, hG, SmStepIf]

theorem SmPerformTransition_action_fails {m : SmMachine U} {S : SmState U}
    {r : SmTransition U} {u v : U} {c : SmRetCode}
    (hA : SmFails r.actionCall m.handle u c v) (t : List SmStep) :
    SmPerformTransition m S r u t = (c, ⟨some m, v, t ++ SmActionSteps r⟩) := by
  have hi := SmInvoke_of_fails hA
    (SmStep.action r.event_id r.next_state r.action_data) t
  have hne := SmFails_ne_ok hA
  rw [SmTransition_actionCall_isSome] at hi
  unfold SmTransition.actionCall at hi
  unfold SmPerformTransition
  simp only [hi, ne_eq, hne, not_false_eq_true, if_true, SmActionSteps]

theorem SmPerformTransition_no_target {m : SmMachine U} {S : SmState U}
    {r : SmTransition U} {u v : U}
    (hA : SmSucceeds r.actionCall m.handle u v)
    (hT : SmFindState (some m) r.next_state = none) (t : List SmStep) :
    SmPerformTransition m S r u t = (SM_RET_ERROR, ⟨some m, v, t ++ SmActionSteps r⟩) := by
  have hi := SmInvoke_of_succeeds hA
    (SmStep.action r.event_id r.next_state r.action_data) t
  rw [SmTransition_actionCall_isSome] at hi
  unfold SmTransition.actionCall at hi
  unfold SmPerformTransition
  simp only [hi, hT, ne_eq, not_true_eq_false, if_false, SmActionSteps]

theorem SmPerformTransition_exit_fails {m : SmMachine U} {S T : SmState U}
    {r : SmTransition U} {u v v1 : U} {c : SmRetCode}
    (hA : SmSucceeds r.actionCall m.handle u v)
    (hT : SmFindState (some m) r.next_state = some T)
    (hX : SmFails S.on_exit m.handle v c v1) (t : List SmStep) :
    SmPerformTransition m S r u t =
      (c, ⟨some m, v1, t ++ SmActionSteps r ++ SmExitSteps S⟩) := by
  have hi := SmInvoke_of_succeeds hA
    (SmStep.action r.event_id r.next_state r.action_data) t
  have hx := SmInvoke_of_fails hX (SmStep.onExit S.state_id)
    (t ++ SmActionSteps r)
  have hne := SmFails_ne_ok hX
  rw [SmTransition_actionCall_isSome] at hi
  unfold SmTransition.actionCall at hi
  unfold SmActionSteps at hx
  unfold SmPerformTransition
  simp only [hi, hT, ne_eq, not_true_eq_false, if_false, hx, hne,
    not_false_eq_true, if_true, SmActionSteps, SmExitSteps]

theorem SmLogCall_eq (m : SmMachine U) (a b : String) (ev : SmEventId) (u : U)
    (t : List SmStep) :
    SmLogCall m a b ev (SmEventName m ev) u t =
      (SmLogUser m a b ev u, t ++ SmLogSteps m a b ev) := by
  unfold SmLogUser SmLogSteps SmLogCall
  cases m.trans_log_fn <;> simp [SmStepIf]

theorem SmPerformTransition_moves {m : SmMachine U} {S T : SmState U}
    {r : SmTransition U} {u v v1 : U}
    (hA : SmSucceeds r.actionCall m.handle u v)
    (hT : SmFindState (some m) r.next_state = some T)
    (hX : SmSucceeds S.on_exit m.handle v v1) (t : List SmStep) :
    SmPerformTransition m S r u t =
      ((SmInvoke T.on_enter (SmStep.onEnter T.state_id) (m.moved r.next_state).handle
          (SmLogUser (m.moved r.next_state) S.state_name T.state_name r.event_id v1)
          (t ++ SmActionSteps r ++ SmExitSteps S ++
            [SmStep.update m.current_state r.next_state] ++
            SmLogSteps (m.moved r.next_state) S.state_name T.state_name r.event_id)).ret,
       ⟨some (m.moved r.next_state),
        (SmInvoke T.on_enter (SmStep.onEnter T.state_id) (m.moved r.next_state).handle
          (SmLogUser (m.moved r.next_state) S.state_name T.state_name r.event_id v1)
          (t ++ SmActionSteps r ++ SmExitSteps S ++
            [SmStep.update m.current_state r.next_state] ++
            SmLogSteps (m.moved r.next_state) S.state_name T.state_name r.event_id)).user,
        (SmInvoke T.on_enter (SmStep.onEnter T.state_id) (m.moved r.next_state).handle
          (SmLogUser (m.moved r.next_state) S.state_name T.state_name r.event_id v1)
          (t ++ SmActionSteps r ++ SmExitSteps S ++
            [SmStep.update m.current_state r.next_state] ++
            SmLogSteps (m.moved r.next_state) S.state_name T.state_name r.event_id)).trace⟩) := by
  have hi := SmInvoke_of_succeeds hA
    (SmStep.action r.event_id r.next_state r.action_data) t
  have hx := SmInvoke_of_succeeds hX (SmStep.onExit S.state_id)
    (t ++ SmActionSteps r)
  have hl := SmLogCall_eq (m.moved r.next_state) S.state_name T.state_name r.event_id v1
    (t ++ SmActionSteps r ++ SmExitSteps S ++ [SmStep.update m.current_state r.next_state])
  rw [SmTransition_actionCall_isSome] at hi
  unfold SmTransition.actionCall at hi
  unfold SmActionSteps at hx
  unfold SmActionSteps SmExitSteps SmMachine.moved at hl
  unfold SmPerformTransition
  simp only [hi, hT, ne_eq, not_true_eq_false, if_false, hx, hl,
    SmActionSteps, SmExitSteps, SmMachine.moved]
  split
  · rfl
  · rename_i h
    simp only [not_not] at h
    simp only [h]

theorem SmPerformTransition_enter_ok {m : SmMachine U} {S T : SmState U}
    {r : SmTransition U} {u v v1 v2 : U}
    (hA : SmSucceeds r.actionCall m.handle u v)
    (hT : SmFindState (some m) r.next_state = some T)
    (hX : SmSucceeds S.on_exit m.handle v v1)
    (hN : SmSucceeds T.on_enter (m.moved r.next_state).handle
      (SmLogUser (m.moved r.next_state) S.state_name T.state_name r.event_id v1) v2)
    (t : List SmStep) :
    SmPerformTransition m S r u t =
      (SM_RET_OK, ⟨some (m.moved r.next_state), v2,
        t ++ SmActionSteps r ++ SmExitSteps S ++
          [SmStep.update m.current_state r.next_state] ++
          SmLogSteps (m.moved r.next_state) S.state_name T.state_name r.event_id ++
          SmEnterSteps T⟩) := by
  rw [SmPerformTransition_moves hA hT hX, SmInvoke_of_succeeds hN]
  rfl

theorem SmPerformTransition_enter_fails {m : SmMachine U} {S T : SmState U}
    {r : SmTransition U} {u v v1 v2 : U} {c : SmRetCode}
    (hA : SmSucceeds r.actionCall m.handle u v)
    (hT : SmFindState (some m) r.next_state = some T)
    (hX : SmSucceeds S.on_exit m.handle v v1)
    (hN : SmFails T.on_enter (m.moved r.next_state).handle
      (SmLogUser (m.moved r.next_state) S.state_name T.state_name r.event_id v1) c v2)
    (t : List SmStep) :
    SmPerformTransition m S r u t =
      (c, ⟨some (m.moved r.next_state), v2,
        t ++ SmActionSteps r ++ SmExitSteps S ++
          [SmStep.update m.current_state r.next_state] ++
          SmLogSteps (m.moved r.next_state) S.state_name T.state_name r.event_id ++
          SmEnterSteps T⟩) := by
  rw [SmPerformTransition_moves hA hT hX, SmInvoke_of_fails hN]
  rfl

theorem SmSendEvent_reaches {w : SmWorld U} {m : SmMachine U} {S : SmState U}
    {r : SmTransition U} {event : SmEventId} {u1 u2 : U}
    (hm : w.machine = some m) (hinit : m.is_initialized = true)
    (hstarted : m.current_state ≠ SM_STATE_INVALID)
    (hS : SmFindState (some m) m.current_state = some S)
    (hH : SmHandlePasses S.on_handle m.handle event w.user u1)
    (hr : SmFindTransition (some S) event = some r)
    (hG : SmGuardAccepts r m.handle u1 u2) :
    SmSendEvent w event =
      SmPerformTransition m S r u2 (w.trace ++ SmHandleSteps S event ++ SmGuardSteps r) := by
  rw [SmSendEvent_eq_dispatch hm hinit hstarted hS hH, SmSendEvent_dispatch_accept hr hG]

theorem SmFindState_state_id {m : SmMachine U} {state_id : SmStateId} {S : SmState U}
    (hS : SmFindState (some m) state_id = some S) : S.state_id = state_id := by
  unfold SmFindState at hS
  cases hc : m.sm_class with
  | none => simp [hc] at hS
  | some c =>
    simp only [hc] at hS
    exact ((SmFindState_scan_some_iff state_id c.states S).1 hS).1

theorem SmInvoke_trace (cb : Option (SmHandle → U → SmRetCode × U)) (step : SmStep)
    (h : SmHandle) (u : U) (t : List SmStep) :
    (SmInvoke cb step h u t).trace = t ++ SmStepIf cb.isSome step := by
  cases cb <;> simp [SmInvoke, SmStepIf]

theorem SmLogSteps_registered {m : SmMachine U} {log : SmTransLogFn U}
    (hlog : m.trans_log_fn = some log) (a b : String) (ev : SmEventId) :
    SmLogSteps m a b ev = [SmStep.log m.class_name a b ev (SmEventName m ev)] := by
  simp [SmLogSteps, hlog, SmStepIf]

theorem SmMachine_moved_log_steps (m : SmMachine U) (target : SmStateId) (a b : String)
    (ev : SmEventId) : SmLogSteps (m.moved target) a b ev = SmLogSteps m a b ev := rfl

/-! ## Claims -/

/-- C1: on an initialized, started instance whose current state `S` is declared,
when `on_handle` is absent or returns success or ignore, the first rule `r` of
`S` for the event has no guard or an accepting one, its action is absent or
succeeds, its target `T` is declared, and `S.on_exit` and `T.on_enter` are absent
or succeed, `SmSendEvent` returns `SM_RET_OK`, `current_state` becomes
`r.next_state` and `previous_state` becomes the id of `S`. -/
theorem SmSendEvent_fires_first_rule (w : SmWorld U) (m : SmMachine U) (S T : SmState U)
    (r : SmTransition U) (event : SmEventId) (u1 u2 u3 u4 u5 : U)
    (hm : w.machine = some m) (hinit : m.is_initialized = true)
    (hstarted : m.current_state ≠ SM_STATE_INVALID)
    (hS : SmFindState (some m) m.current_state = some S)
    (hH : SmHandlePasses S.on_handle m.handle event w.user u1)
    (hr : SmFindTransition (some S) event = some r)
    (hG : SmGuardAccepts r m.handle u1 u2)
    (hA : SmSucceeds r.actionCall m.handle u2 u3)
    (hT : SmFindState (some m) r.next_state = some T)
    (hX : SmSucceeds S.on_exit m.handle u3 u4)
    (hN : SmSucceeds T.on_enter (m.moved r.next_state).handle
      (SmLogUser (m.moved r.next_state) S.state_name T.state_name r.event_id u4) u5) :
    (SmSendEvent w event).1 = SM_RET_OK ∧
      ∃ m1, (SmSendEvent w event).2.machine = some m1 ∧
        m1.current_state = r.next_state ∧ m1.previous_state = S.state_id := by
  rw [SmSendEvent_reaches hm hinit hstarted hS hH hr hG,
    SmPerformTransition_enter_ok hA hT hX hN]
  exact ⟨rfl, _, rfl, rfl, (SmFindState_state_id hS).symm⟩

/-- C1 at the example class: in state 0 with the counter at 0, event 1 fires the
guarded rule to state 1. -/
theorem SmSendEvent_fires_first_rule_witness :
    (SmSendEvent (exWorld 0 0) 1).1 = SM_RET_OK ∧
      ∃ m1, (SmSendEvent (exWorld 0 0) 1).2.machine = some m1 ∧
        m1.current_state = exRule1.next_state ∧ m1.previous_state = exStateA.state_id :=
  SmSendEvent_fires_first_rule (exWorld 0 0) (exMachine 0) exStateA exStateB exRule1 1
    0 0 1 11 1111 rfl rfl (by decide) rfl ⟨rfl, Or.inl rfl⟩ rfl rfl rfl rfl rfl rfl

/-- C2: for a state and an event id, `SmFindTransition` returns a rule exactly
when it is the first rule of the array, in declaration order, whose `event_id`
is the event (whatever later rules share that event id), and returns nothing
exactly when no rule of the state has that event id. -/
theorem SmFindTransition_first_match (state : SmState U) (event : SmEventId) :
    (∀ t, SmFindTransition (some state) event = some t ↔
      t.event_id = event ∧
        ∃ pre post, state.transitions = some (pre ++ t :: post) ∧
          ∀ x ∈ pre, x.event_id ≠ event) ∧
    (SmFindTransition (some state) event = none ↔
      ∀ rules, state.transitions = some rules → ∀ x ∈ rules, x.event_id ≠ event) := by
  cases hrules : state.transitions with
  | none => simp [SmFindTransition, hrules]
  | some rules =>
    simp only [SmFindTransition, hrules, Option.some.injEq]
    refine ⟨fun t => ?_, ?_⟩
    · rw [SmFindTransition_scan_some_iff]
    · rw [SmFindTransition_scan_none_iff]
      constructor
      · intro h l hl
        exact hl ▸ h
      · intro h
        exact h rules rfl

/-- C3: for an instance and a state id, `SmFindState` returns nothing or a state
whose `state_id` is the queried id; it returns nothing exactly when the class
is absent or no state of the class has the id, and otherwise the state it
returns is the first one with the id in declaration order. -/
theorem SmFindState_first_match (m : SmMachine U) (state_id : SmStateId) :
    (∀ s, SmFindState (some m) state_id = some s → s.state_id = state_id) ∧
    (SmFindState (some m) state_id = none ↔
      m.sm_class = none ∨
        ∃ c, m.sm_class = some c ∧ ∀ x ∈ c.states, x.state_id ≠ state_id) ∧
    (∀ s, SmFindState (some m) state_id = some s ↔
      ∃ c pre post, m.sm_class = some c ∧ c.states = pre ++ s :: post ∧
        s.state_id = state_id ∧ ∀ x ∈ pre, x.state_id ≠ state_id) ∧
    SmFindState (none : Option (SmMachine U)) state_id = none := by
  refine ⟨fun s hs => SmFindState_state_id hs, ?_, ?_, rfl⟩
  · cases hc : m.sm_class with
    | none => simp [SmFindState, hc]
    | some c => simp [SmFindState, hc, SmFindState_scan_none_iff]
  · intro s
    cases hc : m.sm_class with
    | none => simp [SmFindState, hc]
    | some c =>
      simp only [SmFindState, hc, Option.some.injEq, SmFindState_scan_some_iff]
      constructor
      · rintro ⟨hs, pre, post, hl, hpre⟩
        exact ⟨c, pre, post, rfl, hl, hs, hpre⟩
      · rintro ⟨c1, pre, post, hc1, hl, hs, hpre⟩
        subst hc1
        exact ⟨hs, pre, post, hl, hpre⟩

/-- C4: on an initialized, started instance whose current state `S` declares no
rule for the event and whose `on_handle` is absent or returns success or ignore,
`SmSendEvent` returns `SM_RET_IGNORE`, a code different from `SM_RET_OK` and
from `SM_RET_ERROR`; the instance is unchanged, and the only step added to the
trace is the `on_handle` call: no guard, action, exit, enter or logger call. -/
theorem SmSendEvent_no_rule_ignored (w : SmWorld U) (m : SmMachine U) (S : SmState U)
    (event : SmEventId) (u1 : U)
    (hm : w.machine = some m) (hinit : m.is_initialized = true)
    (hstarted : m.current_state ≠ SM_STATE_INVALID)
    (hS : SmFindState (some m) m.current_state = some S)
    (hH : SmHandlePasses S.on_handle m.handle event w.user u1)
    (hr : SmFindTransition (some S) event = none) :
    (SmSendEvent w event).1 = SM_RET_IGNORE ∧
      SM_RET_IGNORE ≠ SM_RET_OK ∧ SM_RET_IGNORE ≠ SM_RET_ERROR ∧
      (SmSendEvent w event).2.machine = some m ∧
      (∀ m1, (SmSendEvent w event).2.machine = some m1 →
        m1.current_state = m.current_state ∧ m1.previous_state = m.previous_state) ∧
      (SmSendEvent w event).2.trace = w.trace ++ SmHandleSteps S event := by
  rw [SmSendEvent_eq_dispatch hm hinit hstarted hS hH, SmSendEvent_dispatch_none hr]
  refine ⟨rfl, by decide, by decide, rfl, ?_, rfl⟩
  intro m1 h1
  simp only [Option.some.injEq] at h1
  subst h1
  exact ⟨rfl, rfl⟩

/-- C4 at the example class: state 0 declares no rule for event 5. -/
theorem SmSendEvent_no_rule_ignored_witness :
    (SmSendEvent (exWorld 0 0) 5).1 = SM_RET_IGNORE ∧
      SM_RET_IGNORE ≠ SM_RET_OK ∧ SM_RET_IGNORE ≠ SM_RET_ERROR ∧
      (SmSendEvent (exWorld 0 0) 5).2.machine = some (exMachine 0) ∧
      (∀ m1, (SmSendEvent (exWorld 0 0) 5).2.machine = some m1 →
        m1.current_state = (exMachine 0).current_state ∧
          m1.previous_state = (exMachine 0).previous_state) ∧
      (SmSendEvent (exWorld 0 0) 5).2.trace =
        (exWorld 0 0).trace ++ SmHandleSteps exStateA 5 :=
  SmSendEvent_no_rule_ignored (exWorld 0 0) (exMachine 0) exStateA 5 0 rfl rfl (by decide) rfl ⟨rfl, Or.inl rfl⟩ rfl

/-- C5, as stated, fails on the code: state 0 of the example class has a guarded
rule for event 6 whose target, 99, no state declares.  With the counter at 5 the
guard rejects and the event is ignored; with the counter back at 0 the guard
accepts, every hook succeeds, and `SmSendEvent` returns `SM_RET_ERROR` with the
instance still in state 0. -/
theorem SmSendEvent_retry_undeclared_target :
    (SmFindTransition (some exStateA) 6).map (fun t => (t.event_id, t.next_state)) =
        some (6, 99) ∧
      exGuard (exMachine 0).handle exRule6.action_data 5 = (false, 5) ∧
      (SmSendEvent (exWorld 0 5) 6).1 = SM_RET_IGNORE ∧
      exHandle (exMachine 0).handle 6 0 = (SM_RET_OK, 0) ∧
      exGuard (exMachine 0).handle exRule6.action_data 0 = (true, 0) ∧
      (SmSendEvent { (SmSendEvent (exWorld 0 5) 6).2 with user := 0 } 6).1 = SM_RET_ERROR ∧
      (SmSendEvent { (SmSendEvent (exWorld 0 5) 6).2 with user := 0 } 6).2.machine.map
        (fun m => m.current_state) = some 0 := by
  decide

/-- C5, amended: when the first rule `r` of the current state for the event has a
guard that rejects (it is evaluated once `on_handle`, if present, has returned
success or ignore), `SmSendEvent` returns `SM_RET_IGNORE`, leaves the instance
unchanged and adds to the trace only the `on_handle` call and the guard
evaluation (no action, exit, enter or logger call).  Sending the event again,
from any memory `v` of the caller on which the guard accepts, every hook
succeeds and the target of `r` is declared in the class, returns `SM_RET_OK` and
moves the instance to `r.next_state`. -/
theorem SmSendEvent_guard_rejects_then_accepts (w : SmWorld U) (m : SmMachine U)
    (S : SmState U) (r : SmTransition U) (event : SmEventId) (u1 u2 : U)
    (hm : w.machine = some m) (hinit : m.is_initialized = true)
    (hstarted : m.current_state ≠ SM_STATE_INVALID)
    (hS : SmFindState (some m) m.current_state = some S)
    (hH : SmHandlePasses S.on_handle m.handle event w.user u1)
    (hr : SmFindTransition (some S) event = some r)
    (hG : SmGuardRejects r m.handle u1 u2) :
    (SmSendEvent w event).1 = SM_RET_IGNORE ∧
      (SmSendEvent w event).2.machine = some m ∧
      (SmSendEvent w event).2.trace = w.trace ++ SmHandleSteps S event ++ SmGuardSteps r ∧
      ∀ (T : SmState U) (v v1 v2 v3 v4 v5 : U),
        SmHandlePasses S.on_handle m.handle event v v1 →
        SmGuardAccepts r m.handle v1 v2 →
        SmSucceeds r.actionCall m.handle v2 v3 →
        SmFindState (some m) r.next_state = some T →
        SmSucceeds S.on_exit m.handle v3 v4 →
        SmSucceeds T.on_enter (m.moved r.next_state).handle
          (SmLogUser (m.moved r.next_state) S.state_name T.state_name r.event_id v4) v5 →
        (SmSendEvent { (SmSendEvent w event).2 with user := v } event).1 = SM_RET_OK ∧
          ∃ m1, (SmSendEvent { (SmSendEvent w event).2 with user := v } event).2.machine =
              some m1 ∧
            m1.current_state = r.next_state ∧ m1.previous_state = S.state_id := by
  rw [SmSendEvent_eq_dispatch hm hinit hstarted hS hH, SmSendEvent_dispatch_reject hr hG]
  refine ⟨rfl, rfl, rfl, ?_⟩
  intro T v v1 v2 v3 v4 v5 hH2 hG2 hA hT hX hN
  rw [SmSendEvent_reaches (w := ⟨some m, v, _⟩) rfl hinit hstarted hS hH2 hr hG2,
    SmPerformTransition_enter_ok hA hT hX hN]
  exact ⟨rfl, _, rfl, rfl, (SmFindState_state_id hS).symm⟩

/-- C5 at the example class: with the counter at 5 the guard of the rule for
event 1 rejects; sent again with the counter at 0, the event moves the instance
to state 1. -/
theorem SmSendEvent_guard_rejects_then_accepts_witness :
    (SmSendEvent (exWorld 0 5) 1).1 = SM_RET_IGNORE ∧
      (SmSendEvent (exWorld 0 5) 1).2.machine = some (exMachine 0) ∧
      (SmSendEvent { (SmSendEvent (exWorld 0 5) 1).2 with user := 0 } 1).1 = SM_RET_OK ∧
      ∃ m1, (SmSendEvent { (SmSendEvent (exWorld 0 5) 1).2 with user := 0 } 1).2.machine =
          some m1 ∧
        m1.current_state = exRule1.next_state ∧ m1.previous_state = exStateA.state_id :=
  have h := SmSendEvent_guard_rejects_then_accepts (exWorld 0 5) (exMachine 0) exStateA
    exRule1 1 5 5 rfl rfl (by decide) rfl ⟨rfl, Or.inl rfl⟩ rfl rfl
  ⟨h.1, h.2.1, h.2.2.2 exStateB 0 0 0 1 11 1111 ⟨rfl, Or.inl rfl⟩ rfl rfl rfl rfl rfl⟩

/-- C6: on an instance that is not initialized, or is initialized with
`current_state` the invalid sentinel, `SmSendEvent` returns `SM_RET_ERROR` for
every event and leaves the whole world as it was: every field of the instance,
the caller's memory, and the trace (no callback is invoked). -/
theorem SmSendEvent_not_started_error (w : SmWorld U) (m : SmMachine U)
    (hm : w.machine = some m)
    (hbad : m.is_initialized = false ∨
      (m.is_initialized = true ∧ m.current_state = SM_STATE_INVALID))
    (event : SmEventId) :
    (SmSendEvent w event).1 = SM_RET_ERROR ∧ (SmSendEvent w event).2 = w ∧
      (SmSendEvent w event).2.machine = some m ∧
      (SmSendEvent w event).2.trace = w.trace := by
  have h : SmSendEvent w event = (SM_RET_ERROR, w) :=
    SmSendEvent_guards hm (hbad.imp id And.right) event
  rw [h]
  exact ⟨rfl, rfl, hm, rfl⟩

/-- C6 at the example class: an initialized instance that was never started. -/
theorem SmSendEvent_not_started_error_witness :
    (SmSendEvent (exWorld SM_STATE_INVALID 0) 1).1 = SM_RET_ERROR ∧
      (SmSendEvent (exWorld SM_STATE_INVALID 0) 1).2 = exWorld SM_STATE_INVALID 0 ∧
      (SmSendEvent (exWorld SM_STATE_INVALID 0) 1).2.machine =
        some (exMachine SM_STATE_INVALID) ∧
      (SmSendEvent (exWorld SM_STATE_INVALID 0) 1).2.trace =
        (exWorld SM_STATE_INVALID 0).trace :=
  SmSendEvent_not_started_error (exWorld SM_STATE_INVALID 0)
    (exMachine SM_STATE_INVALID) rfl (Or.inr ⟨rfl, rfl⟩) 1

/-- C7, as stated, fails on the code: in state 0 of the example class, with a
logger registered, event 4 selects an unguarded rule, so transition execution is
reached; its action succeeds and no callback fails, yet the only steps are the
`on_handle` call and the action: no exit, no update, no logger call, and the
result is `SM_RET_ERROR`, because the target of the rule, 99, is declared by no
state. -/
theorem SmSendEvent_steps_undeclared_target :
    (exMachine 0).trans_log_fn.isSome = true ∧
      (SmFindTransition (some exStateA) 4).map
        (fun t => (t.event_id, t.next_state, t.condition.isSome, t.action.isSome)) =
          some (4, 99, false, true) ∧
      exHandle (exMachine 0).handle 4 0 = (SM_RET_OK, 0) ∧
      exAction (exMachine 0).handle exRule4.action_data 0 = (SM_RET_OK, 1) ∧
      (SmSendEvent (exWorld 0 0) 4).2.trace =
        [SmStep.onHandle 0 4, SmStep.action 4 99 none] ∧
      (SmSendEvent (exWorld 0 0) 4).1 = SM_RET_ERROR := by
  decide

/-- C7, amended: when `SmSendEvent` reaches transition execution with a logger
registered and the target `T` of the rule is declared in the class, the steps
added after the guard are, in this order and once each: the action (if
present), `on_exit` of the source state (if present), the update of
`previous_state` and `current_state`, the logger call, `on_enter` of the target
(if present).  When the action fails the trace ends with the action; when the
exit callback fails it ends with the exit call; the enter callback is the last
step whether it fails or not, and the failing callback's code is returned. -/
theorem SmSendEvent_step_order (w : SmWorld U) (m : SmMachine U) (S T : SmState U)
    (r : SmTransition U) (event : SmEventId) (u1 u2 : U) (log : SmTransLogFn U)
    (hm : w.machine = some m) (hinit : m.is_initialized = true)
    (hstarted : m.current_state ≠ SM_STATE_INVALID)
    (hS : SmFindState (some m) m.current_state = some S)
    (hH : SmHandlePasses S.on_handle m.handle event w.user u1)
    (hr : SmFindTransition (some S) event = some r)
    (hG : SmGuardAccepts r m.handle u1 u2)
    (hlog : m.trans_log_fn = some log)
    (hT : SmFindState (some m) r.next_state = some T) :
    (∀ c v, SmFails r.actionCall m.handle u2 c v →
      (SmSendEvent w event).1 = c ∧
      (SmSendEvent w event).2.trace =
        w.trace ++ SmHandleSteps S event ++ SmGuardSteps r ++
          [SmStep.action r.event_id r.next_state r.action_data]) ∧
    (∀ u3, SmSucceeds r.actionCall m.handle u2 u3 →
      (∀ c v, SmFails S.on_exit m.handle u3 c v →
        (SmSendEvent w event).1 = c ∧
        (SmSendEvent w event).2.trace =
          w.trace ++ SmHandleSteps S event ++ SmGuardSteps r ++ SmActionSteps r ++
            [SmStep.onExit S.state_id]) ∧
      (∀ u4, SmSucceeds S.on_exit m.handle u3 u4 →
        (SmSendEvent w event).2.trace =
          w.trace ++ SmHandleSteps S event ++ SmGuardSteps r ++ SmActionSteps r ++
            SmExitSteps S ++
            [SmStep.update m.current_state r.next_state,
             SmStep.log m.class_name S.state_name T.state_name r.event_id
               (SmEventName m r.event_id)] ++
            SmEnterSteps T ∧
        (∀ c v, SmFails T.on_enter (m.moved r.next_state).handle
            (SmLogUser (m.moved r.next_state) S.state_name T.state_name r.event_id u4) c v →
          (SmSendEvent w event).1 = c) ∧
        (∀ v, SmSucceeds T.on_enter (m.moved r.next_state).handle
            (SmLogUser (m.moved r.next_state) S.state_name T.state_name r.event_id u4) v →
          (SmSendEvent w event).1 = SM_RET_OK))) := by
  rw [SmSendEvent_reaches hm hinit hstarted hS hH hr hG]
  refine ⟨fun c v hA => ?_, fun u3 hA => ⟨fun c v hX => ?_, fun u4 hX => ⟨?_, ?_, ?_⟩⟩⟩
  · rw [SmPerformTransition_action_fails hA]
    have hp : r.action.isSome = true := by
      rw [← SmTransition_actionCall_isSome]; exact SmFails_isSome hA
    simp [SmActionSteps, hp, SmStepIf]
  · rw [SmPerformTransition_exit_fails hA hT hX]
    simp [SmExitSteps, SmFails_isSome hX, SmStepIf]
  · rw [SmPerformTransition_moves hA hT hX]
    simp only [SmInvoke_trace, SmMachine_moved_log_steps, SmLogSteps_registered hlog,
      SmEnterSteps, List.append_assoc, List.cons_append, List.nil_append]
  · intro c v hN
    rw [SmPerformTransition_enter_fails hA hT hX hN]
  · intro v hN
    rw [SmPerformTransition_enter_ok hA hT hX hN]

/-- C7 at the example class: event 1 in state 0 with the counter at 0 runs the
action, the exit of state 0, the update, the logger and the enter of state 1. -/
theorem SmSendEvent_step_order_witness :
    (SmSendEvent (exWorld 0 0) 1).2.trace =
        (exWorld 0 0).trace ++ SmHandleSteps exStateA 1 ++ SmGuardSteps exRule1 ++
          SmActionSteps exRule1 ++ SmExitSteps exStateA ++
          [SmStep.update 0 1, SmStep.log "Ex" "A" "B" 1 (some "E1")] ++
          SmEnterSteps exStateB ∧
      (SmSendEvent (exWorld 0 0) 1).1 = SM_RET_OK :=
  have h := ((SmSendEvent_step_order (exWorld 0 0) (exMachine 0) exStateA exStateB exRule1 1
    0 0 exLog rfl rfl (by decide) rfl ⟨rfl, Or.inl rfl⟩ rfl rfl rfl rfl).2 1 rfl).2 11 rfl
  ⟨h.1, h.2.2 1111 rfl⟩

/-- C8: in a transition executed by `SmSendEvent`, when the action of the rule
returns a code other than `SM_RET_OK`, or the action is absent or succeeds and
`on_exit` of the source state returns such a code (the exit callback is called
only once the target `T` of the rule has been found), `SmSendEvent` returns
that code and the instance is unchanged (`current_state` and `previous_state`
included); the trace ends with the failing call, so neither the logger nor
`on_enter` of the target is invoked, and in the exit case the action (if
present) has been invoked once. -/
theorem SmSendEvent_action_or_exit_fails (w : SmWorld U) (m : SmMachine U) (S : SmState U)
    (r : SmTransition U) (event : SmEventId) (u1 u2 : U)
    (hm : w.machine = some m) (hinit : m.is_initialized = true)
    (hstarted : m.current_state ≠ SM_STATE_INVALID)
    (hS : SmFindState (some m) m.current_state = some S)
    (hH : SmHandlePasses S.on_handle m.handle event w.user u1)
    (hr : SmFindTransition (some S) event = some r)
    (hG : SmGuardAccepts r m.handle u1 u2) :
    (∀ c v, SmFails r.actionCall m.handle u2 c v →
      (SmSendEvent w event).1 = c ∧
      (SmSendEvent w event).2.machine = some m ∧
      (SmSendEvent w event).2.trace =
        w.trace ++ SmHandleSteps S event ++ SmGuardSteps r ++
          [SmStep.action r.event_id r.next_state r.action_data]) ∧
    (∀ T u3 c v, SmSucceeds r.actionCall m.handle u2 u3 →
      SmFindState (some m) r.next_state = some T →
      SmFails S.on_exit m.handle u3 c v →
      (SmSendEvent w event).1 = c ∧
      (SmSendEvent w event).2.machine = some m ∧
      (SmSendEvent w event).2.trace =
        w.trace ++ SmHandleSteps S event ++ SmGuardSteps r ++ SmActionSteps r ++
          [SmStep.onExit S.state_id]) := by
  rw [SmSendEvent_reaches hm hinit hstarted hS hH hr hG]
  refine ⟨fun c v hA => ?_, fun T u3 c v hA hT hX => ?_⟩
  · rw [SmPerformTransition_action_fails hA]
    have hp : r.action.isSome = true := by
      rw [← SmTransition_actionCall_isSome]; exact SmFails_isSome hA
    simp [SmActionSteps, hp, SmStepIf]
  · rw [SmPerformTransition_exit_fails hA hT hX]
    simp [SmExitSteps, SmFails_isSome hX, SmStepIf]

/-- C8 at the example class: the action of the rule of state 0 for event 2 fails
with code 7; the exit callback of state 1 fails with code 9 after the action of
its rule for event 1 has run. -/
theorem SmSendEvent_action_or_exit_fails_witness :
    ((SmSendEvent (exWorld 0 0) 2).1 = 7 ∧
      (SmSendEvent (exWorld 0 0) 2).2.machine = some (exMachine 0) ∧
      (SmSendEvent (exWorld 0 0) 2).2.trace =
        (exWorld 0 0).trace ++ SmHandleSteps exStateA 2 ++ SmGuardSteps exRule2 ++
          [SmStep.action 2 1 none]) ∧
    ((SmSendEvent (exWorld 1 0) 1).1 = 9 ∧
      (SmSendEvent (exWorld 1 0) 1).2.machine = some (exMachine 1) ∧
      (SmSendEvent (exWorld 1 0) 1).2.trace =
        (exWorld 1 0).trace ++ SmHandleSteps exStateB 1 ++ SmGuardSteps exRuleB ++
          SmActionSteps exRuleB ++ [SmStep.onExit 1]) :=
  ⟨(SmSendEvent_action_or_exit_fails (exWorld 0 0) (exMachine 0) exStateA exRule2 2 0 0
      rfl rfl (by decide) rfl ⟨rfl, Or.inl rfl⟩ rfl rfl).1 7 1 ⟨rfl, by decide⟩,
   (SmSendEvent_action_or_exit_fails (exWorld 1 0) (exMachine 1) exStateB exRuleB 1 0 0
      rfl rfl (by decide) rfl rfl rfl rfl).2 exStateA 1 9 11 rfl rfl ⟨rfl, by decide⟩⟩

/-- C9: in a transition executed by `SmSendEvent` in which the action and the
exit callback are absent or succeed and `on_enter` of the target `T` returns a
code other than `SM_RET_OK`, `SmSendEvent` returns that code and the state
change is kept: `current_state` is the target of the rule, `previous_state` is
the id of the source state, and the logger, if registered, has been invoked
(its call is in the trace, before the enter call). -/
theorem SmSendEvent_enter_fails_keeps_state (w : SmWorld U) (m : SmMachine U)
    (S T : SmState U) (r : SmTransition U) (event : SmEventId) (u1 u2 u3 u4 v : U)
    (c : SmRetCode)
    (hm : w.machine = some m) (hinit : m.is_initialized = true)
    (hstarted : m.current_state ≠ SM_STATE_INVALID)
    (hS : SmFindState (some m) m.current_state = some S)
    (hH : SmHandlePasses S.on_handle m.handle event w.user u1)
    (hr : SmFindTransition (some S) event = some r)
    (hG : SmGuardAccepts r m.handle u1 u2)
    (hA : SmSucceeds r.actionCall m.handle u2 u3)
    (hT : SmFindState (some m) r.next_state = some T)
    (hX : SmSucceeds S.on_exit m.handle u3 u4)
    (hN : SmFails T.on_enter (m.moved r.next_state).handle
      (SmLogUser (m.moved r.next_state) S.state_name T.state_name r.event_id u4) c v) :
    (SmSendEvent w event).1 = c ∧ c ≠ SM_RET_OK ∧
      (∃ m1, (SmSendEvent w event).2.machine = some m1 ∧
        m1.current_state = r.next_state ∧ m1.previous_state = S.state_id) ∧
      (SmSendEvent w event).2.trace =
        w.trace ++ SmHandleSteps S event ++ SmGuardSteps r ++ SmActionSteps r ++
          SmExitSteps S ++ [SmStep.update m.current_state r.next_state] ++
          SmLogSteps m S.state_name T.state_name r.event_id ++
          [SmStep.onEnter T.state_id] ∧
      (∀ log, m.trans_log_fn = some log →
        SmStep.log m.class_name S.state_name T.state_name r.event_id
          (SmEventName m r.event_id) ∈ (SmSendEvent w event).2.trace) := by
  rw [SmSendEvent_reaches hm hinit hstarted hS hH hr hG,
    SmPerformTransition_enter_fails hA hT hX hN]
  refine ⟨rfl, SmFails_ne_ok hN, ⟨_, rfl, rfl, (SmFindState_state_id hS).symm⟩, ?_, ?_⟩
  · simp [SmEnterSteps, SmFails_isSome hN, SmStepIf, SmMachine_moved_log_steps]
  · intro log hlog
    simp [SmMachine_moved_log_steps, SmLogSteps_registered hlog]

/-- C9 at the example class: event 3 in state 0 leads to state 2, whose enter
callback fails with code 4. -/
theorem SmSendEvent_enter_fails_keeps_state_witness :
    (SmSendEvent (exWorld 0 0) 3).1 = 4 ∧ (4 : SmRetCode) ≠ SM_RET_OK ∧
      (∃ m1, (SmSendEvent (exWorld 0 0) 3).2.machine = some m1 ∧
        m1.current_state = exRule3.next_state ∧ m1.previous_state = exStateA.state_id) ∧
      (SmSendEvent (exWorld 0 0) 3).2.trace =
        (exWorld 0 0).trace ++ SmHandleSteps exStateA 3 ++ SmGuardSteps exRule3 ++
          SmActionSteps exRule3 ++ SmExitSteps exStateA ++
          [SmStep.update (exMachine 0).current_state exRule3.next_state] ++
          SmLogSteps (exMachine 0) exStateA.state_name exStateC.state_name
            exRule3.event_id ++
          [SmStep.onEnter exStateC.state_id] ∧
      (∀ log, (exMachine 0).trans_log_fn = some log →
        SmStep.log (exMachine 0).class_name exStateA.state_name exStateC.state_name
          exRule3.event_id (SmEventName (exMachine 0) exRule3.event_id) ∈
            (SmSendEvent (exWorld 0 0) 3).2.trace) :=
  SmSendEvent_enter_fails_keeps_state (exWorld 0 0) (exMachine 0) exStateA exStateC exRule3 3
    0 0 0 10 1110 4 rfl rfl (by decide) rfl ⟨rfl, Or.inl rfl⟩ rfl rfl rfl rfl rfl
    ⟨rfl, by decide⟩

/-- C10: on an initialized, started instance whose current state has an
`on_handle` callback returning a code other than `SM_RET_OK` and
`SM_RET_IGNORE`, `SmSendEvent` stops there: the instance is unchanged, the only
step added to the trace is the `on_handle` call (no rule lookup follows, so no
guard, action, exit, enter or logger call), and the result is `SM_RET_OK` when
the code is `SM_RET_TRANSITION` and the code itself otherwise. -/
theorem SmSendEvent_handle_intercepts (w : SmWorld U) (m : SmMachine U) (S : SmState U)
    (event : SmEventId) (f : SmStateHandleFn U)
    (hm : w.machine = some m) (hinit : m.is_initialized = true)
    (hstarted : m.current_state ≠ SM_STATE_INVALID)
    (hS : SmFindState (some m) m.current_state = some S)
    (hf : S.on_handle = some f)
    (hc : (f m.handle event w.user).1 ≠ SM_RET_OK ∧
      (f m.handle event w.user).1 ≠ SM_RET_IGNORE) :
    ((f m.handle event w.user).1 = SM_RET_TRANSITION →
        (SmSendEvent w event).1 = SM_RET_OK) ∧
      ((f m.handle event w.user).1 ≠ SM_RET_TRANSITION →
        (SmSendEvent w event).1 = (f m.handle event w.user).1) ∧
      (SmSendEvent w event).2.machine = some m ∧
      (∀ m1, (SmSendEvent w event).2.machine = some m1 →
        m1.current_state = m.current_state ∧ m1.previous_state = m.previous_state) ∧
      (SmSendEvent w event).2.trace = w.trace ++ [SmStep.onHandle S.state_id event] := by
  rw [SmSendEvent_handle_stops hm hinit hstarted hS hf hc]
  refine ⟨fun h => by simp [h], fun h => by simp [h], rfl, ?_, rfl⟩
  intro m1 h1
  simp only [Option.some.injEq] at h1
  subst h1
  exact ⟨rfl, rfl⟩

/-- C10 at the example class: the handler of state 0 asks for a transition on
event 9, and the call returns `SM_RET_OK` without leaving state 0. -/
theorem SmSendEvent_handle_intercepts_witness :
    (SmSendEvent (exWorld 0 0) 9).1 = SM_RET_OK ∧
      (SmSendEvent (exWorld 0 0) 9).2.machine = some (exMachine 0) ∧
      (SmSendEvent (exWorld 0 0) 9).2.trace =
        (exWorld 0 0).trace ++ [SmStep.onHandle exStateA.state_id 9] :=
  have h := SmSendEvent_handle_intercepts (exWorld 0 0) (exMachine 0) exStateA 9 exHandle
    rfl rfl (by decide) rfl rfl (by decide)
  ⟨h.1 (by decide), h.2.2.1, h.2.2.2.2⟩

/-! ## The lifecycle operations, stage by stage -/

theorem SmSucceeds_or_fails (cb : Option (SmHandle → U → SmRetCode × U)) (h : SmHandle)
    (u : U) : (∃ v, SmSucceeds cb h u v) ∨ ∃ c v, SmFails cb h u c v := by
  cases cb with
  | none => exact Or.inl ⟨u, rfl⟩
  | some f =>
    by_cases hc : (f h u).1 = SM_RET_OK
    · exact Or.inl ⟨(f h u).2, Prod.ext hc rfl⟩
    · exact Or.inr ⟨(f h u).1, (f h u).2, rfl, hc⟩

theorem SmMachine_runExit_of_succeeds {m : SmMachine U} {u v : U}
    (hX : SmSucceeds m.exitCall m.handle u v) (t : List SmStep) :
    m.runExit u t = ⟨SM_RET_OK, v, t ++ m.exitSteps⟩ := by
  unfold SmMachine.exitCall at hX
  unfold SmMachine.runExit SmMachine.exitSteps
  cases hS : SmFindState (some m) m.current_state with
  | none =>
    rw [hS] at hX
    simp only [SmSucceeds] at hX
    simp [hX]
  | some S =>
    rw [hS] at hX
    simp only at hX
    simp only [SmInvoke_of_succeeds hX, SmExitSteps]

theorem SmMachine_runExit_of_fails {m : SmMachine U} {u v : U} {c : SmRetCode}
    (hX : SmFails m.exitCall m.handle u c v) (t : List SmStep) :
    m.runExit u t = ⟨c, v, t ++ m.exitSteps⟩ := by
  unfold SmMachine.exitCall at hX
  unfold SmMachine.runExit SmMachine.exitSteps
  cases hS : SmFindState (some m) m.current_state with
  | none =>
    rw [hS] at hX
    simp only [SmFails] at hX
  | some S =>
    rw [hS] at hX
    simp only at hX
    simp only [SmInvoke_of_fails hX, SmExitSteps]

theorem SmMachine_runExit_trace (m : SmMachine U) (u : U) (t : List SmStep) :
    (m.runExit u t).trace = t ++ m.exitSteps := by
  unfold SmMachine.runExit SmMachine.exitSteps
  cases hS : SmFindState (some m) m.current_state with
  | none => simp
  | some S => simp only [SmInvoke_trace, SmExitSteps]

theorem SmForceLog_eq (m1 : SmMachine U) (T : SmState U) (u : U) (t : List SmStep) :
    SmForceLog m1 T u t = (SmForceLogUser m1 T u, t ++ SmForceLogSteps m1 T) := by
  unfold SmForceLogUser SmForceLog SmForceLogSteps
  cases hl : m1.trans_log_fn with
  | none => simp
  | some log =>
    cases hS : SmFindState (some m1) m1.previous_state with
    | none => simp
    | some S => simp [SmLogCall, hl]

theorem SmStart_uninit {w : SmWorld U} {m : SmMachine U} (hm : w.machine = some m)
    (hinit : m.is_initialized = false) (s : SmStateId) :
    SmStart w s = (SM_RET_ERROR, w) := by
  simp [SmStart, hm, hinit]

theorem SmStop_uninit {w : SmWorld U} {m : SmMachine U} (hm : w.machine = some m)
    (hinit : m.is_initialized = false) : SmStop w = (SM_RET_ERROR, w) := by
  simp [SmStop, hm, hinit]

theorem SmForceTransition_uninit {w : SmWorld U} {m : SmMachine U}
    (hm : w.machine = some m) (hinit : m.is_initialized = false) (s : SmStateId) :
    SmForceTransition w s = (SM_RET_ERROR, w) := by
  simp [SmForceTransition, hm, hinit]

theorem SmDestroy_uninit {w : SmWorld U} {m : SmMachine U} (hm : w.machine = some m)
    (hinit : m.is_initialized = false) : SmDestroy w = (SM_RET_ERROR, w) := by
  simp [SmDestroy, hm, hinit]

theorem SmStart_undeclared {w : SmWorld U} {m : SmMachine U} {s : SmStateId}
    (hm : w.machine = some m) (hT : SmFindState (some m) s = none) :
    SmStart w s = (SM_RET_ERROR, w) := by
  unfold SmStart
  rw [hm]
  simp only [hT]
  split <;> rfl

theorem SmStart_enters {w : SmWorld U} {m : SmMachine U} {s : SmStateId} {T : SmState U}
    (hm : w.machine = some m) (hinit : m.is_initialized = true)
    (hT : SmFindState (some m) s = some T) :
    SmStart w s =
      ((SmInvoke T.on_enter (SmStep.onEnter T.state_id) (m.started s).handle w.user
          (w.trace ++ [SmStep.update SM_STATE_INVALID s])).ret,
       ⟨some (m.started s),
        (SmInvoke T.on_enter (SmStep.onEnter T.state_id) (m.started s).handle w.user
          (w.trace ++ [SmStep.update SM_STATE_INVALID s])).user,
        (SmInvoke T.on_enter (SmStep.onEnter T.state_id) (m.started s).handle w.user
          (w.trace ++ [SmStep.update SM_STATE_INVALID s])).trace⟩) := by
  unfold SmStart
  rw [hm]
  simp only [hinit, hT, Bool.not_true, SmMachine.started]
  split
  · rename_i h; simp at h
  · split
    · rfl
    · rename_i h
      simp only [ne_eq, not_not] at h
      simp only [h]

theorem SmStop_stopped {w : SmWorld U} {m : SmMachine U} (hm : w.machine = some m)
    (hinit : m.is_initialized = true) (hc : m.current_state = SM_STATE_INVALID) :
    SmStop w = (SM_RET_OK, w) := by
  simp [SmStop, hm, hinit, hc]

theorem SmStop_exits {w : SmWorld U} {m : SmMachine U} (hm : w.machine = some m)
    (hinit : m.is_initialized = true) (hc : m.current_state ≠ SM_STATE_INVALID) :
    SmStop w =
      (SM_RET_OK, ⟨some m.stopped, (m.runExit w.user w.trace).user,
        w.trace ++ m.exitSteps ++ [SmStep.update m.previous_state SM_STATE_INVALID]⟩) := by
  rw [← SmMachine_runExit_trace m w.user w.trace]
  unfold SmStop
  rw [hm]
  simp only [hinit, hc, Bool.not_true, Bool.false_eq_true, if_false, SmMachine.stopped,
    SmMachine.runExit]

theorem SmForceTransition_same {w : SmWorld U} {m : SmMachine U} {s : SmStateId}
    (hm : w.machine = some m) (hinit : m.is_initialized = true)
    (hc : m.current_state = s) : SmForceTransition w s = (SM_RET_OK, w) := by
  simp [SmForceTransition, hm, hinit, hc]

theorem SmForceTransition_undeclared {w : SmWorld U} {m : SmMachine U} {s : SmStateId}
    (hm : w.machine = some m) (hinit : m.is_initialized = true)
    (hne : m.current_state ≠ s) (hT : SmFindState (some m) s = none) :
    SmForceTransition w s = (SM_RET_ERROR, w) := by
  simp [SmForceTransition, hm, hinit, hne, hT]

theorem SmForceTransition_unfold {w : SmWorld U} {m : SmMachine U} {s : SmStateId}
    {T : SmState U} (hm : w.machine = some m) (hinit : m.is_initialized = true)
    (hne : m.current_state ≠ s) (hT : SmFindState (some m) s = some T) :
    SmForceTransition w s =
      if (m.runExit w.user w.trace).ret ≠ SM_RET_OK then
        ((m.runExit w.user w.trace).ret,
          ⟨some m, (m.runExit w.user w.trace).user, (m.runExit w.user w.trace).trace⟩)
      else
        ((SmInvoke T.on_enter (SmStep.onEnter T.state_id) (m.moved s).handle
            (SmForceLog (m.moved s) T (m.runExit w.user w.trace).user
              ((m.runExit w.user w.trace).trace ++ [SmStep.update m.current_state s])).1
            (SmForceLog (m.moved s) T (m.runExit w.user w.trace).user
              ((m.runExit w.user w.trace).trace ++ [SmStep.update m.current_state s])).2).ret,
          ⟨some (m.moved s),
           (SmInvoke T.on_enter (SmStep.onEnter T.state_id) (m.moved s).handle
            (SmForceLog (m.moved s) T (m.runExit w.user w.trace).user
              ((m.runExit w.user w.trace).trace ++ [SmStep.update m.current_state s])).1
            (SmForceLog (m.moved s) T (m.runExit w.user w.trace).user
              ((m.runExit w.user w.trace).trace ++ [SmStep.update m.current_state s])).2).user,
           (SmInvoke T.on_enter (SmStep.onEnter T.state_id) (m.moved s).handle
            (SmForceLog (m.moved s) T (m.runExit w.user w.trace).user
              ((m.runExit w.user w.trace).trace ++ [SmStep.update m.current_state s])).1
            (SmForceLog (m.moved s) T (m.runExit w.user w.trace).user
              ((m.runExit w.user w.trace).trace ++ [SmStep.update m.current_state s])).2).trace⟩) := by
  unfold SmForceTransition
  rw [hm]
  simp only [hinit, hne, hT, Bool.not_true, Bool.false_eq_true, if_false, SmMachine.moved,
    SmMachine.runExit, SmForceLog]
  split
  · rfl
  · split
    · rfl
    · rename_i h2
      simp only [ne_eq, not_not] at h2
      exact Prod.ext h2.symm rfl

theorem SmForceTransition_exit_fails {w : SmWorld U} {m : SmMachine U} {s : SmStateId}
    {T : SmState U} {c : SmRetCode} {v : U}
    (hm : w.machine = some m) (hinit : m.is_initialized = true)
    (hne : m.current_state ≠ s) (hT : SmFindState (some m) s = some T)
    (hX : SmFails m.exitCall m.handle w.user c v) :
    SmForceTransition w s = (c, ⟨some m, v, w.trace ++ m.exitSteps⟩) := by
  rw [SmForceTransition_unfold hm hinit hne hT, SmMachine_runExit_of_fails hX]
  simp only [ne_eq, SmFails_ne_ok hX, not_false_eq_true, if_true]

theorem SmForceTransition_moves {w : SmWorld U} {m : SmMachine U} {s : SmStateId}
    {T : SmState U} {v : U}
    (hm : w.machine = some m) (hinit : m.is_initialized = true)
    (hne : m.current_state ≠ s) (hT : SmFindState (some m) s = some T)
    (hX : SmSucceeds m.exitCall m.handle w.user v) :
    SmForceTransition w s =
      ((SmInvoke T.on_enter (SmStep.onEnter T.state_id) (m.moved s).handle
          (SmForceLogUser (m.moved s) T v)
          (w.trace ++ m.exitSteps ++ [SmStep.update m.current_state s] ++
            SmForceLogSteps (m.moved s) T)).ret,
       ⟨some (m.moved s),
        (SmInvoke T.on_enter (SmStep.onEnter T.state_id) (m.moved s).handle
          (SmForceLogUser (m.moved s) T v)
          (w.trace ++ m.exitSteps ++ [SmStep.update m.current_state s] ++
            SmForceLogSteps (m.moved s) T)).user,
        (SmInvoke T.on_enter (SmStep.onEnter T.state_id) (m.moved s).handle
          (SmForceLogUser (m.moved s) T v)
          (w.trace ++ m.exitSteps ++ [SmStep.update m.current_state s] ++
            SmForceLogSteps (m.moved s) T)).trace⟩) := by
  rw [SmForceTransition_unfold hm hinit hne hT, SmMachine_runExit_of_succeeds hX]
  simp only [ne_eq, not_true_eq_false, if_false, SmForceLog_eq]

theorem SmForceTransition_enter_ok {w : SmWorld U} {m : SmMachine U} {s : SmStateId}
    {T : SmState U} {v v1 : U}
    (hm : w.machine = some m) (hinit : m.is_initialized = true)
    (hne : m.current_state ≠ s) (hT : SmFindState (some m) s = some T)
    (hX : SmSucceeds m.exitCall m.handle w.user v)
    (hN : SmSucceeds T.on_enter (m.moved s).handle (SmForceLogUser (m.moved s) T v) v1) :
    SmForceTransition w s =
      (SM_RET_OK, ⟨some (m.moved s), v1,
        w.trace ++ m.exitSteps ++ [SmStep.update m.current_state s] ++
          SmForceLogSteps (m.moved s) T ++ SmEnterSteps T⟩) := by
  rw [SmForceTransition_moves hm hinit hne hT hX, SmInvoke_of_succeeds hN]
  rfl

theorem SmForceTransition_enter_fails {w : SmWorld U} {m : SmMachine U} {s : SmStateId}
    {T : SmState U} {v v1 : U} {c : SmRetCode}
    (hm : w.machine = some m) (hinit : m.is_initialized = true)
    (hne : m.current_state ≠ s) (hT : SmFindState (some m) s = some T)
    (hX : SmSucceeds m.exitCall m.handle w.user v)
    (hN : SmFails T.on_enter (m.moved s).handle (SmForceLogUser (m.moved s) T v) c v1) :
    SmForceTransition w s =
      (c, ⟨some (m.moved s), v1,
        w.trace ++ m.exitSteps ++ [SmStep.update m.current_state s] ++
          SmForceLogSteps (m.moved s) T ++ SmEnterSteps T⟩) := by
  rw [SmForceTransition_moves hm hinit hne hT hX, SmInvoke_of_fails hN]
  rfl

theorem SmCreate_no_class (w : SmWorld U) (user_data : SmPtr) :
    SmCreate w none user_data = (SM_RET_ERROR, w) := by
  unfold SmCreate
  cases w.machine <;> rfl

theorem SmCreate_ok {w : SmWorld U} {m0 : SmMachine U} {c : SmClass U} {v : U}
    (hm : w.machine = some m0) (user_data : SmPtr)
    (hI : SmSucceeds c.on_init (SmMachine.fresh c user_data).handle w.user v) :
    SmCreate w (some c) user_data =
      (SM_RET_OK, ⟨some (SmMachine.created c user_data), v,
        w.trace ++ SmStepIf c.on_init.isSome SmStep.onInit⟩) := by
  unfold SmCreate
  rw [hm]
  unfold SmSucceeds at hI
  cases hc : c.on_init with
  | none =>
    rw [hc] at hI
    simp only at hI
    simp [hc, hI, SmStepIf, SmMachine.created, SmMachine.zero]
  | some f =>
    rw [hc] at hI
    simp only at hI
    have hI1 : f (SmMachine.fresh c user_data).handle w.user = (SM_RET_OK, v) := hI
    simp only [SmMachine.fresh, SmMachine.handle] at hI1
    simp [hc, SmMachine.handle, SmMachine.zero, hI1, SmStepIf, SmMachine.created]

theorem SmCreate_fails {w : SmWorld U} {m0 : SmMachine U} {c : SmClass U} {v : U}
    {code : SmRetCode} (hm : w.machine = some m0) (user_data : SmPtr)
    (hI : SmFails c.on_init (SmMachine.fresh c user_data).handle w.user code v) :
    SmCreate w (some c) user_data =
      (code, ⟨some (SmMachine.fresh c user_data), v, w.trace ++ [SmStep.onInit]⟩) := by
  unfold SmCreate
  rw [hm]
  unfold SmFails at hI
  cases hc : c.on_init with
  | none =>
    rw [hc] at hI
    exact hI.elim
  | some f =>
    rw [hc] at hI
    simp only at hI
    have hI1 : f (SmMachine.fresh c user_data).handle w.user = (code, v) := hI.1
    simp only [SmMachine.fresh, SmMachine.handle] at hI1
    simp [hc, SmMachine.handle, SmMachine.zero, hI1, hI.2, SmMachine.fresh]

theorem SmGuard_accepts_or_rejects (r : SmTransition U) (h : SmHandle) (u : U) :
    (∃ v, SmGuardAccepts r h u v) ∨ ∃ v, SmGuardRejects r h u v := by
  unfold SmGuardAccepts SmGuardRejects
  cases r.condition with
  | none => exact Or.inl ⟨u, rfl⟩
  | some g =>
    cases hg : (g h r.action_data u).1 with
    | true => exact Or.inl ⟨(g h r.action_data u).2, Prod.ext hg rfl⟩
    | false => exact Or.inr ⟨(g h r.action_data u).2, Prod.ext hg rfl⟩

theorem SmHandle_passes_or_stops (cb : Option (SmStateHandleFn U)) (h : SmHandle)
    (event : SmEventId) (u : U) :
    (∃ v, SmHandlePasses cb h event u v) ∨
      ∃ f, cb = some f ∧ (f h event u).1 ≠ SM_RET_OK ∧ (f h event u).1 ≠ SM_RET_IGNORE := by
  cases cb with
  | none => exact Or.inl ⟨u, rfl⟩
  | some f =>
    by_cases h1 : (f h event u).1 = SM_RET_OK
    · exact Or.inl ⟨(f h event u).2, rfl, Or.inl h1⟩
    · by_cases h2 : (f h event u).1 = SM_RET_IGNORE
      · exact Or.inl ⟨(f h event u).2, rfl, Or.inr h2⟩
      · exact Or.inr ⟨f, rfl, h1, h2⟩

theorem SmSendEvent_no_state {w : SmWorld U} {m : SmMachine U}
    (hm : w.machine = some m) (hS : SmFindState (some m) m.current_state = none)
    (event : SmEventId) : SmSendEvent w event = (SM_RET_ERROR, w) := by
  unfold SmSendEvent
  rw [hm]
  simp only [hS]
  split
  · rfl
  · split <;> rfl

theorem SmSendEvent_null {w : SmWorld U} (hm : w.machine = none) (event : SmEventId) :
    SmSendEvent w event = (SM_RET_ERROR, w) := by
  unfold SmSendEvent
  rw [hm]

theorem SmFindState_none_of_undeclared {m : SmMachine U} {s : SmStateId}
    (h : ∀ c, m.sm_class = some c → ∀ x ∈ c.states, x.state_id ≠ s) :
    SmFindState (some m) s = none := by
  cases hc : m.sm_class with
  | none => simp [SmFindState, hc]
  | some c =>
    simp only [SmFindState, hc]
    exact (SmFindState_scan_none_iff s c.states).2 (h c hc)

theorem SmSucceeds_not_fails {cb : Option (SmHandle → U → SmRetCode × U)} {h : SmHandle}
    {u v v1 : U} {c : SmRetCode} (hs : SmSucceeds cb h u v) (hf : SmFails cb h u c v1) :
    False := by
  cases cb with
  | none => exact hf
  | some f =>
    have h1 : f h u = (SM_RET_OK, v) := hs
    have h2 : f h u = (c, v1) := hf.1
    rw [h1] at h2
    exact hf.2 (Prod.mk.inj h2).1.symm

/-! ## Claims on ignored events and on the lifecycle -/

/-- C11, as stated, fails on the code: in the two-state class the rule of state 0
for event 1 is unguarded and fires, the enter callback of its target returns the
ignore code, and `SmSendEvent` hands that code back: the result is
`SM_RET_IGNORE` although a rule matched and no guard rejected, and the state
fields have changed from `(0, invalid)` to `(1, 0)`. -/
theorem SmSendEvent_ignored_after_transition :
    (SmFindTransition (some exStateP) 1).map
        (fun t => (t.event_id, t.next_state, t.condition.isSome)) = some (1, 1, false) ∧
      exWorldPQ.machine.map (fun m => (m.current_state, m.previous_state)) =
        some (0, SM_STATE_INVALID) ∧
      (SmSendEvent exWorldPQ 1).1 = SM_RET_IGNORE ∧
      (SmSendEvent exWorldPQ 1).2.machine.map
        (fun m => (m.current_state, m.previous_state)) = some (1, 0) := by
  decide

/-- C11, amended: whenever `SmSendEvent` returns `SM_RET_IGNORE`, the instance is
in a declared state `S` whose `on_handle` let the event through, and in this
call one of these happened: `S` declares no rule for the event; or the guard of
the first matching rule `r` rejected; or the guard accepted and the action of
`r` returned `SM_RET_IGNORE`; or the action succeeded, the target `T` is
declared and `on_exit` of `S` returned `SM_RET_IGNORE`; or `on_exit` succeeded
and `on_enter` of `T` returned `SM_RET_IGNORE`.  In every case but the last the
instance, with `current_state` and `previous_state`, is as before the call; in
the last `current_state` is the target of `r` and `previous_state` the former
`current_state`.  Each callback is taken on the memory the call hands it. -/
theorem SmSendEvent_ignored_cases (w : SmWorld U) (event : SmEventId)
    (h : (SmSendEvent w event).1 = SM_RET_IGNORE) :
    ∃ m S u1, w.machine = some m ∧ SmFindState (some m) m.current_state = some S ∧
      SmHandlePasses S.on_handle m.handle event w.user u1 ∧
      ((SmFindTransition (some S) event = none ∧
          (SmSendEvent w event).2.machine = some m) ∨
        (∃ r, SmFindTransition (some S) event = some r ∧
          ((∃ u2, SmGuardRejects r m.handle u1 u2 ∧
              (SmSendEvent w event).2.machine = some m) ∨
            (∃ u2, SmGuardAccepts r m.handle u1 u2 ∧
              ((∃ u3, SmFails r.actionCall m.handle u2 SM_RET_IGNORE u3 ∧
                  (SmSendEvent w event).2.machine = some m) ∨
                (∃ u3 T, SmSucceeds r.actionCall m.handle u2 u3 ∧
                  SmFindState (some m) r.next_state = some T ∧
                  ((∃ u4, SmFails S.on_exit m.handle u3 SM_RET_IGNORE u4 ∧
                      (SmSendEvent w event).2.machine = some m) ∨
                    (∃ u4 u5, SmSucceeds S.on_exit m.handle u3 u4 ∧
                      SmFails T.on_enter (m.moved r.next_state).handle
                        (SmLogUser (m.moved r.next_state) S.state_name T.state_name
                          r.event_id u4) SM_RET_IGNORE u5 ∧
                      (SmSendEvent w event).2.machine =
                        some (m.moved r.next_state))))))))) := by
  cases hm : w.machine with
  | none => rw [SmSendEvent_null hm] at h; exact absurd h (by decide : ¬ (SM_RET_ERROR : SmRetCode) = SM_RET_IGNORE)
  | some m =>
    by_cases hinit : m.is_initialized = true
    swap
    · rw [SmSendEvent_guards hm (Or.inl (by simpa using hinit))] at h
      exact absurd h (by decide : ¬ (SM_RET_ERROR : SmRetCode) = SM_RET_IGNORE)
    by_cases hstarted : m.current_state = SM_STATE_INVALID
    · rw [SmSendEvent_guards hm (Or.inr hstarted)] at h
      exact absurd h (by decide : ¬ (SM_RET_ERROR : SmRetCode) = SM_RET_IGNORE)
    cases hS : SmFindState (some m) m.current_state with
    | none => rw [SmSendEvent_no_state hm hS] at h; exact absurd h (by decide : ¬ (SM_RET_ERROR : SmRetCode) = SM_RET_IGNORE)
    | some S =>
      rcases SmHandle_passes_or_stops S.on_handle m.handle event w.user with
        ⟨u1, hH⟩ | ⟨f, hf, hc1, hc2⟩
      swap
      · rw [SmSendEvent_handle_stops hm hinit hstarted hS hf ⟨hc1, hc2⟩] at h
        by_cases ht : (f m.handle event w.user).1 = SM_RET_TRANSITION
        · simp [ht] at h
        · simp only [ht, if_false] at h
          exact absurd h hc2
      refine ⟨m, S, u1, rfl, hS, hH, ?_⟩
      cases hr : SmFindTransition (some S) event with
      | none =>
        left
        rw [SmSendEvent_eq_dispatch hm hinit hstarted hS hH, SmSendEvent_dispatch_none hr]
        exact ⟨rfl, rfl⟩
      | some r =>
        right
        refine ⟨r, rfl, ?_⟩
        rcases SmGuard_accepts_or_rejects r m.handle u1 with ⟨u2, hG⟩ | ⟨u2, hG⟩
        swap
        · left
          refine ⟨u2, hG, ?_⟩
          rw [SmSendEvent_eq_dispatch hm hinit hstarted hS hH,
            SmSendEvent_dispatch_reject hr hG]
        right
        refine ⟨u2, hG, ?_⟩
        rw [SmSendEvent_reaches hm hinit hstarted hS hH hr hG] at h ⊢
        rcases SmSucceeds_or_fails r.actionCall m.handle u2 with ⟨u3, hA⟩ | ⟨c, u3, hA⟩
        swap
        · rw [SmPerformTransition_action_fails hA] at h ⊢
          have hc : c = SM_RET_IGNORE := h
          subst hc
          exact Or.inl ⟨u3, hA, rfl⟩
        cases hT : SmFindState (some m) r.next_state with
        | none =>
          rw [SmPerformTransition_no_target hA hT] at h
          exact absurd h (by decide : ¬ (SM_RET_ERROR : SmRetCode) = SM_RET_IGNORE)
        | some T =>
          right
          refine ⟨u3, T, hA, rfl, ?_⟩
          rcases SmSucceeds_or_fails S.on_exit m.handle u3 with ⟨u4, hX⟩ | ⟨c, u4, hX⟩
          swap
          · rw [SmPerformTransition_exit_fails hA hT hX] at h ⊢
            have hc : c = SM_RET_IGNORE := h
            subst hc
            exact Or.inl ⟨u4, hX, rfl⟩
          rcases SmSucceeds_or_fails T.on_enter (m.moved r.next_state).handle
            (SmLogUser (m.moved r.next_state) S.state_name T.state_name r.event_id u4) with
            ⟨u5, hN⟩ | ⟨c, u5, hN⟩
          · rw [SmPerformTransition_enter_ok hA hT hX hN] at h
            exact absurd h (by decide : ¬ (SM_RET_OK : SmRetCode) = SM_RET_IGNORE)
          · rw [SmPerformTransition_enter_fails hA hT hX hN] at h ⊢
            have hc : c = SM_RET_IGNORE := h
            subst hc
            exact Or.inr ⟨u4, u5, hX, hN, rfl⟩

/-- C11 at the example class: with the counter at 5, event 1 in state 0 is
ignored because the guard of its first rule rejects. -/
theorem SmSendEvent_ignored_cases_witness :
    ∃ m S u1, (exWorld 0 5).machine = some m ∧
      SmFindState (some m) m.current_state = some S ∧
      SmHandlePasses S.on_handle m.handle 1 (exWorld 0 5).user u1 ∧
      ((SmFindTransition (some S) 1 = none ∧
          (SmSendEvent (exWorld 0 5) 1).2.machine = some m) ∨
        (∃ r, SmFindTransition (some S) 1 = some r ∧
          ((∃ u2, SmGuardRejects r m.handle u1 u2 ∧
              (SmSendEvent (exWorld 0 5) 1).2.machine = some m) ∨
            (∃ u2, SmGuardAccepts r m.handle u1 u2 ∧
              ((∃ u3, SmFails r.actionCall m.handle u2 SM_RET_IGNORE u3 ∧
                  (SmSendEvent (exWorld 0 5) 1).2.machine = some m) ∨
                (∃ u3 T, SmSucceeds r.actionCall m.handle u2 u3 ∧
                  SmFindState (some m) r.next_state = some T ∧
                  ((∃ u4, SmFails S.on_exit m.handle u3 SM_RET_IGNORE u4 ∧
                      (SmSendEvent (exWorld 0 5) 1).2.machine = some m) ∨
                    (∃ u4 u5, SmSucceeds S.on_exit m.handle u3 u4 ∧
                      SmFails T.on_enter (m.moved r.next_state).handle
                        (SmLogUser (m.moved r.next_state) S.state_name T.state_name
                          r.event_id u4) SM_RET_IGNORE u5 ∧
                      (SmSendEvent (exWorld 0 5) 1).2.machine =
                        some (m.moved r.next_state))))))))) :=
  SmSendEvent_ignored_cases (exWorld 0 5) 1 (by decide)

/-- C12: on an initialized instance, `SmForceTransition` to the state the
instance is in returns `SM_RET_OK` and hands back the world unchanged: the
instance with `current_state` and `previous_state`, the caller's memory, and the
trace, so no exit, enter or logger callback is invoked. -/
theorem SmForceTransition_same_state_noop (w : SmWorld U) (m : SmMachine U)
    (hm : w.machine = some m) (hinit : m.is_initialized = true) :
    (SmForceTransition w m.current_state).1 = SM_RET_OK ∧
      (SmForceTransition w m.current_state).2 = w ∧
      (SmForceTransition w m.current_state).2.machine = some m ∧
      (SmForceTransition w m.current_state).2.trace = w.trace := by
  rw [SmForceTransition_same hm hinit rfl]
  exact ⟨rfl, rfl, hm, rfl⟩

/-- C12 at the example class: forcing state 0 while in state 0. -/
theorem SmForceTransition_same_state_noop_witness :
    (SmForceTransition (exWorld 0 0) (exMachine 0).current_state).1 = SM_RET_OK ∧
      (SmForceTransition (exWorld 0 0) (exMachine 0).current_state).2 = exWorld 0 0 ∧
      (SmForceTransition (exWorld 0 0) (exMachine 0).current_state).2.machine =
        some (exMachine 0) ∧
      (SmForceTransition (exWorld 0 0) (exMachine 0).current_state).2.trace =
        (exWorld 0 0).trace :=
  SmForceTransition_same_state_noop (exWorld 0 0) (exMachine 0) rfl rfl

/-- C13, as stated, fails on the code: an initialized instance of the example
class that has not been started has `current_state` the invalid sentinel, an id
that no state of the class declares; `SmForceTransition` to that id returns
`SM_RET_OK`, not `SM_RET_ERROR`, because the test for the current state comes
first. -/
theorem SmForceTransition_undeclared_current_ok :
    (exMachine SM_STATE_INVALID).is_initialized = true ∧
      exClass.states.map (fun x => x.state_id) = [0, 1, 2] ∧
      (SmFindState (some (exMachine SM_STATE_INVALID)) SM_STATE_INVALID).isNone = true ∧
      (SmForceTransition (exWorld SM_STATE_INVALID 0) SM_STATE_INVALID).1 = SM_RET_OK := by
  decide

/-- C13, amended: on an initialized instance, for a `new_state` that no state of
the class declares and that differs from `current_state`, `SmForceTransition`
returns `SM_RET_ERROR` and hands back the world unchanged: no callback is
invoked, and `current_state` and `previous_state` are as before. -/
theorem SmForceTransition_undeclared_error (w : SmWorld U) (m : SmMachine U)
    (new_state : SmStateId)
    (hm : w.machine = some m) (hinit : m.is_initialized = true)
    (hne : m.current_state ≠ new_state)
    (hT : ∀ c, m.sm_class = some c → ∀ x ∈ c.states, x.state_id ≠ new_state) :
    (SmForceTransition w new_state).1 = SM_RET_ERROR ∧
      (SmForceTransition w new_state).2 = w ∧
      (SmForceTransition w new_state).2.machine = some m ∧
      (SmForceTransition w new_state).2.trace = w.trace := by
  rw [SmForceTransition_undeclared hm hinit hne (SmFindState_none_of_undeclared hT)]
  exact ⟨rfl, rfl, hm, rfl⟩

/-- C13 at the example class: no state has id 77. -/
theorem SmForceTransition_undeclared_error_witness :
    (SmForceTransition (exWorld 0 0) 77).1 = SM_RET_ERROR ∧
      (SmForceTransition (exWorld 0 0) 77).2 = exWorld 0 0 ∧
      (SmForceTransition (exWorld 0 0) 77).2.machine = some (exMachine 0) ∧
      (SmForceTransition (exWorld 0 0) 77).2.trace = (exWorld 0 0).trace :=
  SmForceTransition_undeclared_error (exWorld 0 0) (exMachine 0) 77 rfl rfl (by decide)
    (by
      intro c hc x hx
      have hc1 : c = exClass := (Option.some.inj hc).symm
      subst hc1
      simp only [exClass, List.mem_cons, List.mem_singleton, List.not_mem_nil,
        or_false] at hx
      rcases hx with rfl | rfl | rfl <;> decide)

/-- C14: on an initialized instance, for a declared `new_state` different from
`current_state`, when the exit callback of the active state (if there is one)
succeeds and `on_enter` of the new state returns a code other than `SM_RET_OK`,
`SmForceTransition` returns that code and keeps the state change:
`current_state` is `new_state` and `previous_state` is the former
`current_state`. -/
theorem SmForceTransition_enter_fails_no_rollback (w : SmWorld U) (m : SmMachine U)
    (T : SmState U) (new_state : SmStateId) (v v1 : U) (c : SmRetCode)
    (hm : w.machine = some m) (hinit : m.is_initialized = true)
    (hne : m.current_state ≠ new_state)
    (hT : SmFindState (some m) new_state = some T)
    (hX : SmSucceeds m.exitCall m.handle w.user v)
    (hN : SmFails T.on_enter (m.moved new_state).handle
      (SmForceLogUser (m.moved new_state) T v) c v1) :
    (SmForceTransition w new_state).1 = c ∧ c ≠ SM_RET_OK ∧
      ∃ m1, (SmForceTransition w new_state).2.machine = some m1 ∧
        m1.current_state = new_state ∧ m1.previous_state = m.current_state := by
  rw [SmForceTransition_enter_fails hm hinit hne hT hX hN]
  exact ⟨rfl, SmFails_ne_ok hN, _, rfl, rfl, rfl⟩

/-- C14 at the example class: forcing state 2, whose enter callback fails with
code 4, from state 0. -/
theorem SmForceTransition_enter_fails_no_rollback_witness :
    (SmForceTransition (exWorld 0 0) 2).1 = 4 ∧ (4 : SmRetCode) ≠ SM_RET_OK ∧
      ∃ m1, (SmForceTransition (exWorld 0 0) 2).2.machine = some m1 ∧
        m1.current_state = 2 ∧ m1.previous_state = (exMachine 0).current_state :=
  SmForceTransition_enter_fails_no_rollback (exWorld 0 0) (exMachine 0) exStateC 2 10 1110 4
    rfl rfl (by decide) rfl rfl ⟨rfl, by decide⟩

/-- C15, as stated, fails on the code: forcing state 0 from state 1 of the
example class, the exit callback of state 1 fails with code 9;
`SmForceTransition` returns 9 and the state fields are still `(1, invalid)`,
not `(0, 1)`: the exit callback runs before the fields are updated. -/
theorem SmForceTransition_exit_fails_not_updated :
    exBadExit (exMachine 1).handle 0 = (9, 10) ∧
      (exWorld 1 0).machine.map (fun m => (m.current_state, m.previous_state)) =
        some (1, SM_STATE_INVALID) ∧
      (SmForceTransition (exWorld 1 0) 0).1 = 9 ∧
      (SmForceTransition (exWorld 1 0) 0).2.machine.map
        (fun m => (m.current_state, m.previous_state)) = some (1, SM_STATE_INVALID) := by
  decide

/-- C15, amended: in a `SmForceTransition` call to a declared `new_state`
different from `current_state`, the code of a failing hook is returned.  When
the failing hook is `on_exit` of the active state, the instance is unchanged:
the state fields have not been updated.  When it is `on_enter` of the new state,
the fields have been updated: `current_state` is `new_state` and
`previous_state` is the former `current_state`. -/
theorem SmForceTransition_hook_fails (w : SmWorld U) (m : SmMachine U) (T : SmState U)
    (new_state : SmStateId)
    (hm : w.machine = some m) (hinit : m.is_initialized = true)
    (hne : m.current_state ≠ new_state)
    (hT : SmFindState (some m) new_state = some T) :
    (∀ c v, SmFails m.exitCall m.handle w.user c v →
      (SmForceTransition w new_state).1 = c ∧
      (SmForceTransition w new_state).2.machine = some m) ∧
    (∀ v c v1, SmSucceeds m.exitCall m.handle w.user v →
      SmFails T.on_enter (m.moved new_state).handle
        (SmForceLogUser (m.moved new_state) T v) c v1 →
      (SmForceTransition w new_state).1 = c ∧
      ∃ m1, (SmForceTransition w new_state).2.machine = some m1 ∧
        m1.current_state = new_state ∧ m1.previous_state = m.current_state) := by
  refine ⟨fun c v hX => ?_, fun v c v1 hX hN => ?_⟩
  · rw [SmForceTransition_exit_fails hm hinit hne hT hX]
    exact ⟨rfl, rfl⟩
  · rw [SmForceTransition_enter_fails hm hinit hne hT hX hN]
    exact ⟨rfl, _, rfl, rfl, rfl⟩

/-- C15 at the example class: the failing exit of state 1 leaves the instance in
state 1; the failing enter of state 2 leaves it in state 2. -/
theorem SmForceTransition_hook_fails_witness :
    ((SmForceTransition (exWorld 1 0) 0).1 = 9 ∧
      (SmForceTransition (exWorld 1 0) 0).2.machine = some (exMachine 1)) ∧
    ((SmForceTransition (exWorld 0 0) 2).1 = 4 ∧
      ∃ m1, (SmForceTransition (exWorld 0 0) 2).2.machine = some m1 ∧
        m1.current_state = 2 ∧ m1.previous_state = (exMachine 0).current_state) :=
  ⟨(SmForceTransition_hook_fails (exWorld 1 0) (exMachine 1) exStateA 0 rfl rfl
      (by decide) rfl).1 9 10 ⟨rfl, by decide⟩,
   (SmForceTransition_hook_fails (exWorld 0 0) (exMachine 0) exStateC 2 rfl rfl
      (by decide) rfl).2 10 4 1110 rfl ⟨rfl, by decide⟩⟩

/-- C16: for a present class whose init hook is absent or succeeds, and any
`user_data`, `SmCreate` returns `SM_RET_OK` and leaves the instance
initialized, bound to the class, holding `user_data` (which `SmGetUserData`
returns), with `current_state` and `previous_state` the invalid sentinel and no
logger and no event-name resolver, whatever the storage `m0` held before. -/
theorem SmCreate_initializes (w : SmWorld U) (m0 : SmMachine U) (c : SmClass U)
    (user_data : SmPtr) (v : U)
    (hm : w.machine = some m0)
    (hI : SmSucceeds c.on_init (SmMachine.fresh c user_data).handle w.user v) :
    (SmCreate w (some c) user_data).1 = SM_RET_OK ∧
      (∃ m1, (SmCreate w (some c) user_data).2.machine = some m1 ∧
        m1.is_initialized = true ∧ m1.sm_class = some c ∧ m1.user_data = user_data ∧
        m1.current_state = SM_STATE_INVALID ∧ m1.previous_state = SM_STATE_INVALID ∧
        m1.trans_log_fn = none ∧ m1.get_event_name_fn = none) ∧
      SmGetUserData (SmCreate w (some c) user_data).2 = user_data := by
  rw [SmCreate_ok hm user_data hI]
  exact ⟨rfl, ⟨_, rfl, rfl, rfl, rfl, rfl, rfl, rfl, rfl⟩, rfl⟩

/-- C16 at the example class with a succeeding init hook, on storage that holds
leftovers of an earlier use. -/
theorem SmCreate_initializes_witness :
    (SmCreate (exStaleWorld 0) (some exClassInit) (some 3)).1 = SM_RET_OK ∧
      (∃ m1, (SmCreate (exStaleWorld 0) (some exClassInit) (some 3)).2.machine = some m1 ∧
        m1.is_initialized = true ∧ m1.sm_class = some exClassInit ∧
        m1.user_data = some 3 ∧
        m1.current_state = SM_STATE_INVALID ∧ m1.previous_state = SM_STATE_INVALID ∧
        m1.trans_log_fn = none ∧ m1.get_event_name_fn = none) ∧
      SmGetUserData (SmCreate (exStaleWorld 0) (some exClassInit) (some 3)).2 = some 3 :=
  SmCreate_initializes (exStaleWorld 0) exStale exClassInit (some 3) 5 rfl rfl

/-- C17: on instance storage `m0`, `SmCreate` returns a code other than
`SM_RET_OK` exactly when the class is absent or the init hook of the class
returns such a code.  With an absent class it returns `SM_RET_ERROR` and hands
back the world unchanged (no hook invoked, the storage untouched).  With a
failing init hook it returns the code of the hook and leaves `is_initialized`
false, so that `SmStart`, `SmStop`, `SmSendEvent`, `SmForceTransition` and
`SmDestroy` on the resulting instance each return `SM_RET_ERROR`. -/
theorem SmCreate_failure_cases (w : SmWorld U) (m0 : SmMachine U)
    (sm_class : Option (SmClass U)) (user_data : SmPtr)
    (hm : w.machine = some m0) :
    ((SmCreate w sm_class user_data).1 ≠ SM_RET_OK ↔
      sm_class = none ∨
        ∃ c code v, sm_class = some c ∧
          SmFails c.on_init (SmMachine.fresh c user_data).handle w.user code v) ∧
    (sm_class = none → SmCreate w sm_class user_data = (SM_RET_ERROR, w)) ∧
    (∀ c code v, sm_class = some c →
      SmFails c.on_init (SmMachine.fresh c user_data).handle w.user code v →
      (SmCreate w sm_class user_data).1 = code ∧
      (∃ m1, (SmCreate w sm_class user_data).2.machine = some m1 ∧
        m1.is_initialized = false) ∧
      (SmCreate w sm_class user_data).2.trace = w.trace ++ [SmStep.onInit] ∧
      ∀ (s : SmStateId) (e : SmEventId),
        (SmStart (SmCreate w sm_class user_data).2 s).1 = SM_RET_ERROR ∧
        (SmStop (SmCreate w sm_class user_data).2).1 = SM_RET_ERROR ∧
        (SmSendEvent (SmCreate w sm_class user_data).2 e).1 = SM_RET_ERROR ∧
        (SmForceTransition (SmCreate w sm_class user_data).2 s).1 = SM_RET_ERROR ∧
        (SmDestroy (SmCreate w sm_class user_data).2).1 = SM_RET_ERROR) := by
  refine ⟨?_, ?_, ?_⟩
  · cases sm_class with
    | none =>
      rw [SmCreate_no_class]
      exact ⟨fun _ => Or.inl rfl, fun _ => (by decide : (SM_RET_ERROR : SmRetCode) ≠ SM_RET_OK)⟩
    | some c =>
      rcases SmSucceeds_or_fails c.on_init (SmMachine.fresh c user_data).handle w.user with
        ⟨v, hI⟩ | ⟨code, v, hI⟩
      · rw [SmCreate_ok hm user_data hI]
        constructor
        · intro h
          exact absurd rfl h
        · rintro (h | ⟨c1, code, v1, hc, hF⟩)
          · exact absurd h (by simp)
          · have hc1 : c = c1 := Option.some.inj hc
            subst hc1
            exact (SmSucceeds_not_fails hI hF).elim
      · rw [SmCreate_fails hm user_data hI]
        exact ⟨fun _ => Or.inr ⟨c, code, v, rfl, hI⟩, fun _ => SmFails_ne_ok hI⟩
  · intro h
    rw [h, SmCreate_no_class]
  · intro c code v hc hI
    subst hc
    rw [SmCreate_fails hm user_data hI]
    refine ⟨rfl, ⟨_, rfl, rfl⟩, rfl, fun s e => ⟨?_, ?_, ?_, ?_, ?_⟩⟩
    · rw [SmStart_uninit (m := SmMachine.fresh c user_data) rfl rfl]
    · rw [SmStop_uninit (m := SmMachine.fresh c user_data) rfl rfl]
    · rw [SmSendEvent_guards (m := SmMachine.fresh c user_data) rfl (Or.inl rfl)]
    · rw [SmForceTransition_uninit (m := SmMachine.fresh c user_data) rfl rfl]
    · rw [SmDestroy_uninit (m := SmMachine.fresh c user_data) rfl rfl]

/-- C17 at the example class with an init hook that fails with code 3. -/
theorem SmCreate_failure_cases_witness :
    (SmCreate (exStaleWorld 0) (some exClassBadInit) (some 3)).1 = 3 ∧
      (∃ m1, (SmCreate (exStaleWorld 0) (some exClassBadInit) (some 3)).2.machine =
          some m1 ∧ m1.is_initialized = false) ∧
      (SmCreate (exStaleWorld 0) (some exClassBadInit) (some 3)).2.trace =
        (exStaleWorld 0).trace ++ [SmStep.onInit] ∧
      ∀ (s : SmStateId) (e : SmEventId),
        (SmStart (SmCreate (exStaleWorld 0) (some exClassBadInit) (some 3)).2 s).1 =
          SM_RET_ERROR ∧
        (SmStop (SmCreate (exStaleWorld 0) (some exClassBadInit) (some 3)).2).1 =
          SM_RET_ERROR ∧
        (SmSendEvent (SmCreate (exStaleWorld 0) (some exClassBadInit) (some 3)).2 e).1 =
          SM_RET_ERROR ∧
        (SmForceTransition
          (SmCreate (exStaleWorld 0) (some exClassBadInit) (some 3)).2 s).1 =
          SM_RET_ERROR ∧
        (SmDestroy (SmCreate (exStaleWorld 0) (some exClassBadInit) (some 3)).2).1 =
          SM_RET_ERROR :=
  (SmCreate_failure_cases (exStaleWorld 0) exStale (some exClassBadInit) (some 3) rfl).2.2
    exClassBadInit 3 5 rfl ⟨rfl, by decide⟩

/-- C18: on an instance that is not initialized, or for an `initial_state` that
no state of the class declares, `SmStart` returns `SM_RET_ERROR` and hands back
the world unchanged: no callback is invoked, and `current_state` and
`previous_state` are as before. -/
theorem SmStart_rejected (w : SmWorld U) (m : SmMachine U) (initial_state : SmStateId)
    (hm : w.machine = some m)
    (hbad : m.is_initialized = false ∨
      ∀ c, m.sm_class = some c → ∀ x ∈ c.states, x.state_id ≠ initial_state) :
    (SmStart w initial_state).1 = SM_RET_ERROR ∧
      (SmStart w initial_state).2 = w ∧
      (SmStart w initial_state).2.machine = some m ∧
      (SmStart w initial_state).2.trace = w.trace := by
  have h : SmStart w initial_state = (SM_RET_ERROR, w) := by
    rcases hbad with h | h
    · exact SmStart_uninit hm h initial_state
    · exact SmStart_undeclared hm (SmFindState_none_of_undeclared h)
  rw [h]
  exact ⟨rfl, rfl, hm, rfl⟩

/-- C18 at the example class: no state has id 77. -/
theorem SmStart_rejected_witness :
    (SmStart (exWorld 0 0) 77).1 = SM_RET_ERROR ∧
      (SmStart (exWorld 0 0) 77).2 = exWorld 0 0 ∧
      (SmStart (exWorld 0 0) 77).2.machine = some (exMachine 0) ∧
      (SmStart (exWorld 0 0) 77).2.trace = (exWorld 0 0).trace :=
  SmStart_rejected (exWorld 0 0) (exMachine 0) 77 rfl
    (Or.inr (by
      intro c hc x hx
      have hc1 : c = exClass := (Option.some.inj hc).symm
      subst hc1
      simp only [exClass, List.mem_cons, List.mem_singleton, List.not_mem_nil,
        or_false] at hx
      rcases hx with rfl | rfl | rfl <;> decide))

/-- C19: on an initialized instance, whatever its `current_state`, for a declared
`initial_state` with state `T`, `SmStart` sets `current_state` to
`initial_state` and `previous_state` to the invalid sentinel; the steps it adds
are that update and the `on_enter` call of `T` if `T` has one (no exit call); it
returns `SM_RET_OK` when `on_enter` is absent or succeeds and the code of
`on_enter` otherwise, the two fields set in both cases.  `SmStop` followed by
`SmStart` does the same: the fields are set, and the result is `SM_RET_OK` when
`on_enter` is absent or succeeds. -/
theorem SmStart_sets_initial_state (w : SmWorld U) (m : SmMachine U) (T : SmState U)
    (initial_state : SmStateId)
    (hm : w.machine = some m) (hinit : m.is_initialized = true)
    (hT : SmFindState (some m) initial_state = some T) :
    (∃ m1, (SmStart w initial_state).2.machine = some m1 ∧
        m1.current_state = initial_state ∧ m1.previous_state = SM_STATE_INVALID) ∧
      (SmStart w initial_state).2.trace =
        w.trace ++ [SmStep.update SM_STATE_INVALID initial_state] ++ SmEnterSteps T ∧
      (∀ v, SmSucceeds T.on_enter (m.started initial_state).handle w.user v →
        (SmStart w initial_state).1 = SM_RET_OK) ∧
      (∀ c v, SmFails T.on_enter (m.started initial_state).handle w.user c v →
        (SmStart w initial_state).1 = c) ∧
      (SmStop w).1 = SM_RET_OK ∧
      (∃ m1, (SmStart (SmStop w).2 initial_state).2.machine = some m1 ∧
        m1.current_state = initial_state ∧ m1.previous_state = SM_STATE_INVALID) ∧
      (∀ v, SmSucceeds T.on_enter (m.started initial_state).handle (SmStop w).2.user v →
        (SmStart (SmStop w).2 initial_state).1 = SM_RET_OK) := by
  refine ⟨?_, ?_, ?_, ?_, ?_, ?_⟩
  · rw [SmStart_enters hm hinit hT]
    exact ⟨_, rfl, rfl, rfl⟩
  · rw [SmStart_enters hm hinit hT]
    simp only [SmInvoke_trace, SmEnterSteps]
  · intro v hN
    rw [SmStart_enters hm hinit hT, SmInvoke_of_succeeds hN]
  · intro c v hN
    rw [SmStart_enters hm hinit hT, SmInvoke_of_fails hN]
  · by_cases hc : m.current_state = SM_STATE_INVALID
    · rw [SmStop_stopped hm hinit hc]
    · rw [SmStop_exits hm hinit hc]
  · by_cases hc : m.current_state = SM_STATE_INVALID
    · rw [SmStop_stopped hm hinit hc]
      refine ⟨?_, ?_⟩
      · rw [SmStart_enters hm hinit hT]
        exact ⟨_, rfl, rfl, rfl⟩
      · intro v hN
        rw [SmStart_enters hm hinit hT, SmInvoke_of_succeeds hN]
    · rw [SmStop_exits hm hinit hc]
      have hT1 : SmFindState (some m.stopped) initial_state = some T := hT
      refine ⟨?_, ?_⟩
      · rw [SmStart_enters (m := m.stopped) rfl hinit hT1]
        exact ⟨_, rfl, rfl, rfl⟩
      · intro v hN
        have hN1 : SmSucceeds T.on_enter (m.stopped.started initial_state).handle
            (m.runExit w.user w.trace).user v := hN
        rw [SmStart_enters (m := m.stopped) rfl hinit hT1, SmInvoke_of_succeeds hN1]

/-- C19 at the example class: from state 1, `SmStart` at state 0, directly and
after `SmStop`. -/
theorem SmStart_sets_initial_state_witness :
    (∃ m1, (SmStart (exWorld 1 0) 0).2.machine = some m1 ∧
        m1.current_state = 0 ∧ m1.previous_state = SM_STATE_INVALID) ∧
      (SmStart (exWorld 1 0) 0).2.trace =
        (exWorld 1 0).trace ++ [SmStep.update SM_STATE_INVALID 0] ++
          SmEnterSteps exStateA ∧
      (SmStart (exWorld 1 0) 0).1 = SM_RET_OK ∧
      (SmStop (exWorld 1 0)).1 = SM_RET_OK ∧
      (∃ m1, (SmStart (SmStop (exWorld 1 0)).2 0).2.machine = some m1 ∧
        m1.current_state = 0 ∧ m1.previous_state = SM_STATE_INVALID) ∧
      (SmStart (SmStop (exWorld 1 0)).2 0).1 = SM_RET_OK :=
  have h := SmStart_sets_initial_state (exWorld 1 0) (exMachine 1) exStateA 0 rfl rfl rfl
  ⟨h.1, h.2.1, h.2.2.1 1000 rfl, h.2.2.2.2.1, h.2.2.2.2.2.1, h.2.2.2.2.2.2 1010 rfl⟩

/-- C20: on an uninitialized instance `SmStop` returns `SM_RET_ERROR`.  On an
initialized one it returns `SM_RET_OK`: with `current_state` the invalid
sentinel the world is handed back unchanged; otherwise the exit callback of the
active state, if it has one, is called once, its result is ignored (the call
returns `SM_RET_OK` also when the callback fails), `current_state` becomes the
invalid sentinel and `previous_state` is as before. -/
theorem SmStop_spec (w : SmWorld U) (m : SmMachine U) (hm : w.machine = some m) :
    (m.is_initialized = false → (SmStop w).1 = SM_RET_ERROR) ∧
    (m.is_initialized = true →
      (SmStop w).1 = SM_RET_OK ∧
      (m.current_state = SM_STATE_INVALID → (SmStop w).2 = w) ∧
      (m.current_state ≠ SM_STATE_INVALID →
        (∃ m1, (SmStop w).2.machine = some m1 ∧
          m1.current_state = SM_STATE_INVALID ∧ m1.previous_state = m.previous_state) ∧
        (SmStop w).2.trace =
          w.trace ++ m.exitSteps ++ [SmStep.update m.previous_state SM_STATE_INVALID] ∧
        (∀ S, SmFindState (some m) m.current_state = some S →
          m.exitSteps = SmExitSteps S) ∧
        (∀ c v, SmFails m.exitCall m.handle w.user c v →
          (SmStop w).1 = SM_RET_OK ∧ (SmStop w).2.user = v))) := by
  refine ⟨fun h => ?_, fun hinit => ?_⟩
  · rw [SmStop_uninit hm h]
  · by_cases hc : m.current_state = SM_STATE_INVALID
    · rw [SmStop_stopped hm hinit hc]
      exact ⟨rfl, fun _ => rfl, fun h => absurd hc h⟩
    · rw [SmStop_exits hm hinit hc]
      refine ⟨rfl, fun h => absurd h hc, fun _ => ⟨⟨_, rfl, rfl, rfl⟩, rfl, ?_, ?_⟩⟩
      · intro S hS
        simp only [SmMachine.exitSteps, hS]
      · intro c v hX
        rw [SmMachine_runExit_of_fails hX]
        exact ⟨rfl, rfl⟩

/-- C20 at the example class: stopping in state 1, whose exit callback fails
with code 9, returns `SM_RET_OK`. -/
theorem SmStop_spec_witness :
    (SmStop (exWorld 1 0)).1 = SM_RET_OK ∧
      (∃ m1, (SmStop (exWorld 1 0)).2.machine = some m1 ∧
        m1.current_state = SM_STATE_INVALID ∧
        m1.previous_state = (exMachine 1).previous_state) ∧
      (SmStop (exWorld 1 0)).2.trace =
        (exWorld 1 0).trace ++ (exMachine 1).exitSteps ++
          [SmStep.update (exMachine 1).previous_state SM_STATE_INVALID] ∧
      (SmStop (exWorld 1 0)).2.user = 10 :=
  have h := (SmStop_spec (exWorld 1 0) (exMachine 1) rfl).2 rfl
  have h2 := h.2.2 (by decide)
  ⟨h.1, h2.1, h2.2.1, (h2.2.2.2 9 10 ⟨rfl, by decide⟩).2⟩

/-! ## Destroy, accessors and lookups across field updates -/

theorem SmDestroy_destroys {w : SmWorld U} {m : SmMachine U} (hm : w.machine = some m)
    (hinit : m.is_initialized = true) :
    (SmDestroy w).1 = SM_RET_OK ∧ (SmDestroy w).2.machine = some SmMachine.zero ∧
      (SmDestroy w).2.trace = w.trace ++ m.deinitSteps ++ m.destroyExitSteps := by
  unfold SmDestroy
  rw [hm]
  simp only [hinit, Bool.not_true, Bool.false_eq_true, if_false, true_and]
  unfold SmMachine.deinitSteps SmMachine.destroyExitSteps SmMachine.exitSteps
  cases hc : m.sm_class with
  | none =>
    by_cases hcur : m.current_state = SM_STATE_INVALID
    · simp [hcur]
    · cases hS : SmFindState (some m) m.current_state with
      | none => simp [hcur]
      | some S => simp [hcur, SmInvoke_trace, SmExitSteps]
  | some c =>
    by_cases hcur : m.current_state = SM_STATE_INVALID
    · simp [hcur, SmInvoke_trace]
    · cases hS : SmFindState (some m) m.current_state with
      | none => simp [hcur, SmInvoke_trace]
      | some S => simp [hcur, SmInvoke_trace, SmExitSteps]

theorem SmFindState_congr {m m1 : SmMachine U} (h : m1.sm_class = m.sm_class)
    (s : SmStateId) : SmFindState (some m1) s = SmFindState (some m) s := by
  simp only [SmFindState, h]

theorem SmFindTransition_of_split {S : SmState U} {event : SmEventId}
    {pre post : List (SmTransition U)} {r : SmTransition U}
    (hrules : S.transitions = some (pre ++ r :: post))
    (hpre : ∀ x ∈ pre, x.event_id ≠ event) (hev : r.event_id = event) :
    SmFindTransition (some S) event = some r := by
  simp only [SmFindTransition, hrules]
  exact (SmFindTransition_scan_some_iff event _ r).2 ⟨hev, pre, post, rfl, hpre⟩

theorem SmMachine_exit_of_found {m : SmMachine U} {S : SmState U}
    (hS : SmFindState (some m) m.current_state = some S) :
    m.exitCall = S.on_exit ∧ m.exitSteps = SmExitSteps S := by
  simp only [SmMachine.exitCall, SmMachine.exitSteps, hS, and_self]

theorem SmMachine_exit_of_missing {m : SmMachine U}
    (hS : SmFindState (some m) m.current_state = none) :
    m.exitCall = none ∧ m.exitSteps = [] := by
  simp only [SmMachine.exitCall, SmMachine.exitSteps, hS, and_self]

theorem SmForceLogSteps_of_found {m : SmMachine U} {S T : SmState U}
    {log : SmTransLogFn U} (s : SmStateId) (hlog : m.trans_log_fn = some log)
    (hS : SmFindState (some m) m.current_state = some S) :
    SmForceLogSteps (m.moved s) T =
      [SmStep.log m.class_name S.state_name T.state_name SM_EVENT_INVALID
        (some "FORCE_TRANSITION")] := by
  have h1 : SmFindState (some (m.moved s)) (m.moved s).previous_state = some S := hS
  have h2 : (m.moved s).trans_log_fn = some log := hlog
  simp only [SmForceLogSteps, h1, h2]
  rfl

theorem SmForceLogSteps_of_missing {m : SmMachine U} (T : SmState U) (s : SmStateId)
    (hS : SmFindState (some m) m.current_state = none) :
    SmForceLogSteps (m.moved s) T = [] := by
  have h1 : SmFindState (some (m.moved s)) (m.moved s).previous_state = none := hS
  unfold SmForceLogSteps
  cases (m.moved s).trans_log_fn with
  | none => rfl
  | some l => simp only [h1]

/-! ## Claims on destroy, the accessors and the remaining transition cases -/

/-- C21: `SmDestroy` returns `SM_RET_ERROR` exactly when the instance is not
initialized, and then hands back the world unchanged (neither the deinit hook
nor an exit callback is invoked).  After a successful `SmDestroy` the instance
is not initialized: a second `SmDestroy` returns `SM_RET_ERROR` and changes
nothing, and `SmGetCurrentState` returns the invalid sentinel. -/
theorem SmDestroy_error_iff_uninitialized (w : SmWorld U) (m : SmMachine U)
    (hm : w.machine = some m) :
    ((SmDestroy w).1 = SM_RET_ERROR ↔ m.is_initialized = false) ∧
    (m.is_initialized = false → SmDestroy w = (SM_RET_ERROR, w)) ∧
    (m.is_initialized = true →
      (SmDestroy w).1 = SM_RET_OK ∧
      (∃ m1, (SmDestroy w).2.machine = some m1 ∧ m1.is_initialized = false) ∧
      SmDestroy (SmDestroy w).2 = (SM_RET_ERROR, (SmDestroy w).2) ∧
      SmGetCurrentState (SmDestroy w).2 = SM_STATE_INVALID) := by
  refine ⟨?_, fun h => SmDestroy_uninit hm h, fun hinit => ?_⟩
  · cases hi : m.is_initialized with
    | false => simp [SmDestroy_uninit hm hi]
    | true =>
      rw [(SmDestroy_destroys hm hi).1]
      simp
  · obtain ⟨h1, h2, _⟩ := SmDestroy_destroys hm hinit
    refine ⟨h1, ⟨_, h2, rfl⟩, SmDestroy_uninit h2 rfl, ?_⟩
    simp [SmGetCurrentState, h2, SmMachine.zero]

/-- C21 at the example class: destroying an instance in state 0, twice. -/
theorem SmDestroy_error_iff_uninitialized_witness :
    (SmDestroy (exWorld 0 0)).1 = SM_RET_OK ∧
      (∃ m1, (SmDestroy (exWorld 0 0)).2.machine = some m1 ∧ m1.is_initialized = false) ∧
      SmDestroy (SmDestroy (exWorld 0 0)).2 = (SM_RET_ERROR, (SmDestroy (exWorld 0 0)).2) ∧
      SmGetCurrentState (SmDestroy (exWorld 0 0)).2 = SM_STATE_INVALID :=
  (SmDestroy_error_iff_uninitialized (exWorld 0 0) (exMachine 0) rfl).2.2 rfl

/-- C24 fails on the code: `SmGetCurrentStateName` reads `states[current_state]`,
the array entry at the index `current_state`, where `SmFindState` searches for
the state whose id is `current_state`.  In a class whose two states have the
ids 1 and 0, in this order, an initialized instance in state 1 gets the name of
state 0; in a class with the ids 5 and 7 an instance in state 5 gets no name. -/
theorem SmGetCurrentStateName_reads_by_index :
    exClassSwapped.states.map (fun x => x.state_id) = [1, 0] ∧
      exWorldSwapped.machine.map (fun m => (m.is_initialized, m.current_state)) =
        some (true, 1) ∧
      (SmFindState exWorldSwapped.machine 1).map (fun x => x.state_name) = some "One" ∧
      SmGetCurrentStateName exWorldSwapped = some "Zero" ∧
      exClassSparse.states.map (fun x => x.state_id) = [5, 7] ∧
      exWorldSparse.machine.map (fun m => (m.is_initialized, m.current_state)) =
        some (true, 5) ∧
      (SmFindState exWorldSparse.machine 5).map (fun x => x.state_name) = some "Five" ∧
      SmGetCurrentStateName exWorldSparse = none := by
  decide

/-- C25, as stated, fails on the code: `SmCreate` with an init hook that fails
leaves the instance uninitialized, and `SmGetCurrentState` returns the invalid
sentinel, but `SmGetUserData` returns the pointer given to `SmCreate`, not a
null result. -/
theorem SmGetUserData_after_failed_create :
    (SmCreate (exStaleWorld 0) (some exClassBadInit) (some 3)).1 = 3 ∧
      (SmCreate (exStaleWorld 0) (some exClassBadInit) (some 3)).2.machine.map
        (fun m => m.is_initialized) = some false ∧
      SmGetCurrentState (SmCreate (exStaleWorld 0) (some exClassBadInit) (some 3)).2 =
        SM_STATE_INVALID ∧
      SmGetUserData (SmCreate (exStaleWorld 0) (some exClassBadInit) (some 3)).2 =
        some 3 := by
  decide

/-- C25, amended: for an instance that is absent or not initialized,
`SmGetCurrentState` returns the invalid sentinel.  `SmGetUserData` returns a
null result for an absent instance and after `SmDestroy`; for a present
instance it returns the `user_data` field whatever `is_initialized` is, and
after a `SmCreate` that failed in its init hook that field is the pointer given
to `SmCreate`. -/
theorem SmAccessors_uninitialized (w : SmWorld U) :
    (w.machine = none →
      SmGetCurrentState w = SM_STATE_INVALID ∧ SmGetUserData w = none) ∧
    (∀ m, w.machine = some m → m.is_initialized = false →
      SmGetCurrentState w = SM_STATE_INVALID ∧ SmGetUserData w = m.user_data) ∧
    (∀ m, w.machine = some m → m.is_initialized = true →
      SmGetCurrentState (SmDestroy w).2 = SM_STATE_INVALID ∧
      SmGetUserData (SmDestroy w).2 = none) ∧
    (∀ m0 c user_data code v, w.machine = some m0 →
      SmFails c.on_init (SmMachine.fresh c user_data).handle w.user code v →
      SmGetCurrentState (SmCreate w (some c) user_data).2 = SM_STATE_INVALID ∧
      SmGetUserData (SmCreate w (some c) user_data).2 = user_data) := by
  refine ⟨fun h => ?_, fun m hm hi => ?_, fun m hm hi => ?_, fun m0 c ud code v hm hI => ?_⟩
  · simp [SmGetCurrentState, SmGetUserData, h]
  · simp [SmGetCurrentState, SmGetUserData, hm, hi]
  · have h2 := (SmDestroy_destroys hm hi).2.1
    simp [SmGetCurrentState, SmGetUserData, h2, SmMachine.zero]
  · rw [SmCreate_fails hm ud hI]
    simp [SmGetCurrentState, SmGetUserData, SmMachine.fresh]

/-- C27: in a transition executed by `SmSendEvent` whose rule names a target id
that no state of the class declares, the action of the rule being absent or
successful, `SmSendEvent` returns `SM_RET_ERROR` and the instance is unchanged
(`current_state` and `previous_state` included); the trace ends with the action
call, if the rule has an action: neither `on_exit` of the source state, nor the
logger, nor any `on_enter` is invoked. -/
theorem SmSendEvent_undeclared_target (w : SmWorld U) (m : SmMachine U) (S : SmState U)
    (r : SmTransition U) (event : SmEventId) (u1 u2 u3 : U)
    (hm : w.machine = some m) (hinit : m.is_initialized = true)
    (hstarted : m.current_state ≠ SM_STATE_INVALID)
    (hS : SmFindState (some m) m.current_state = some S)
    (hH : SmHandlePasses S.on_handle m.handle event w.user u1)
    (hr : SmFindTransition (some S) event = some r)
    (hG : SmGuardAccepts r m.handle u1 u2)
    (hA : SmSucceeds r.actionCall m.handle u2 u3)
    (hT : ∀ c, m.sm_class = some c → ∀ x ∈ c.states, x.state_id ≠ r.next_state) :
    (SmSendEvent w event).1 = SM_RET_ERROR ∧
      (SmSendEvent w event).2.machine = some m ∧
      (SmSendEvent w event).2.trace =
        w.trace ++ SmHandleSteps S event ++ SmGuardSteps r ++ SmActionSteps r ∧
      (SmSendEvent w event).2.user = u3 := by
  rw [SmSendEvent_reaches hm hinit hstarted hS hH hr hG,
    SmPerformTransition_no_target hA (SmFindState_none_of_undeclared hT)]
  exact ⟨rfl, rfl, rfl, rfl⟩

/-- C27 at the example class: the rule of state 0 for event 4 names state 99. -/
theorem SmSendEvent_undeclared_target_witness :
    (SmSendEvent (exWorld 0 0) 4).1 = SM_RET_ERROR ∧
      (SmSendEvent (exWorld 0 0) 4).2.machine = some (exMachine 0) ∧
      (SmSendEvent (exWorld 0 0) 4).2.trace =
        (exWorld 0 0).trace ++ SmHandleSteps exStateA 4 ++ SmGuardSteps exRule4 ++
          SmActionSteps exRule4 ∧
      (SmSendEvent (exWorld 0 0) 4).2.user = 1 :=
  SmSendEvent_undeclared_target (exWorld 0 0) (exMachine 0) exStateA exRule4 4 0 0 1
    rfl rfl (by decide) rfl ⟨rfl, Or.inl rfl⟩ rfl rfl rfl
    (by
      intro c hc x hx
      have hc1 : c = exClass := (Option.some.inj hc).symm
      subst hc1
      simp only [exClass, List.mem_cons, List.mem_singleton, List.not_mem_nil,
        or_false] at hx
      rcases hx with rfl | rfl | rfl <;> decide)

/-- C28: when the rule array of the current state is `pre ++ r :: post`, no rule
of `pre` is for the event, `r` is, and the guard of `r` rejects, `SmSendEvent`
returns `SM_RET_IGNORE` and leaves the instance unchanged, whatever rules `post`
holds (also rules for the same event that are unguarded or would accept): the
trace grows by the `on_handle` call and the one guard evaluation of `r`, so no
guard of a later rule is evaluated and no rule fires. -/
theorem SmSendEvent_first_guard_decides (w : SmWorld U) (m : SmMachine U) (S : SmState U)
    (pre post : List (SmTransition U)) (r : SmTransition U) (event : SmEventId) (u1 u2 : U)
    (hm : w.machine = some m) (hinit : m.is_initialized = true)
    (hstarted : m.current_state ≠ SM_STATE_INVALID)
    (hS : SmFindState (some m) m.current_state = some S)
    (hH : SmHandlePasses S.on_handle m.handle event w.user u1)
    (hrules : S.transitions = some (pre ++ r :: post))
    (hpre : ∀ x ∈ pre, x.event_id ≠ event) (hev : r.event_id = event)
    (hG : SmGuardRejects r m.handle u1 u2) :
    (SmSendEvent w event).1 = SM_RET_IGNORE ∧
      (SmSendEvent w event).2.machine = some m ∧
      (SmSendEvent w event).2.trace =
        w.trace ++ SmHandleSteps S event ++
          [SmStep.condition r.event_id r.next_state r.action_data] ∧
      (SmSendEvent w event).2.user = u2 := by
  have hr := SmFindTransition_of_split hrules hpre hev
  rw [SmSendEvent_eq_dispatch hm hinit hstarted hS hH, SmSendEvent_dispatch_reject hr hG]
  refine ⟨rfl, rfl, ?_, rfl⟩
  have hc : r.condition.isSome = true := by
    unfold SmGuardRejects at hG
    cases hcond : r.condition with
    | none => rw [hcond] at hG; exact hG.elim
    | some g => rfl
  simp [SmGuardSteps, hc, SmStepIf]

/-- C28 at the example class: with the counter at 5 the guard of the first rule
of state 0 for event 1 rejects; the later, unguarded rule for event 1 (to state
2) does not fire. -/
theorem SmSendEvent_first_guard_decides_witness :
    (SmSendEvent (exWorld 0 5) 1).1 = SM_RET_IGNORE ∧
      (SmSendEvent (exWorld 0 5) 1).2.machine = some (exMachine 0) ∧
      (SmSendEvent (exWorld 0 5) 1).2.trace =
        (exWorld 0 5).trace ++ SmHandleSteps exStateA 1 ++
          [SmStep.condition exRule1.event_id exRule1.next_state exRule1.action_data] ∧
      (SmSendEvent (exWorld 0 5) 1).2.user = 5 :=
  SmSendEvent_first_guard_decides (exWorld 0 5) (exMachine 0) exStateA []
    [exRule1b, exRule2, exRule3, exRule4, exRule6] exRule1 1 5 5
    rfl rfl (by decide) rfl ⟨rfl, Or.inl rfl⟩ rfl (by simp) rfl rfl

/-- C29, as stated, fails on the code: an initialized instance of the example
class with a logger registered and no active state is forced into state 1; the
steps are the field update and the enter call of state 1, without a logger
call, because the former state is not found in the class. -/
theorem SmForceTransition_no_active_state_no_log :
    (exMachine SM_STATE_INVALID).is_initialized = true ∧
      (exMachine SM_STATE_INVALID).trans_log_fn.isSome = true ∧
      (SmFindState (some (exMachine SM_STATE_INVALID)) 1).map (fun x => x.state_id) =
        some 1 ∧
      (SmForceTransition (exWorld SM_STATE_INVALID 0) 1).1 = SM_RET_OK ∧
      (SmForceTransition (exWorld SM_STATE_INVALID 0) 1).2.trace =
        [SmStep.update SM_STATE_INVALID 1, SmStep.onEnter 1] := by
  decide

/-- C29, amended: on an initialized instance with a logger registered, for a
declared `new_state` with state `T` different from `current_state`: when the
active state `S` is declared in the class and its exit callback is absent or
succeeds, `SmForceTransition` calls the logger once, after the field update and
before `on_enter` of `T`, with the class name, the name of `S`, the name of `T`,
the invalid event id and the event name "FORCE_TRANSITION"; when the instance
has no state declared in the class (no active state), no logger call is made. -/
theorem SmForceTransition_logs (w : SmWorld U) (m : SmMachine U) (T : SmState U)
    (new_state : SmStateId) (log : SmTransLogFn U)
    (hm : w.machine = some m) (hinit : m.is_initialized = true)
    (hlog : m.trans_log_fn = some log)
    (hne : m.current_state ≠ new_state)
    (hT : SmFindState (some m) new_state = some T) :
    (∀ S v, SmFindState (some m) m.current_state = some S →
      SmSucceeds S.on_exit m.handle w.user v →
      (SmForceTransition w new_state).2.trace =
        w.trace ++ SmExitSteps S ++
          [SmStep.update m.current_state new_state,
           SmStep.log m.class_name S.state_name T.state_name SM_EVENT_INVALID
             (some "FORCE_TRANSITION")] ++
          SmEnterSteps T) ∧
    (SmFindState (some m) m.current_state = none →
      (SmForceTransition w new_state).2.trace =
        w.trace ++ [SmStep.update m.current_state new_state] ++ SmEnterSteps T) := by
  refine ⟨fun S v hS hX => ?_, fun hS => ?_⟩
  · obtain ⟨he, hs⟩ := SmMachine_exit_of_found hS
    have hX1 : SmSucceeds m.exitCall m.handle w.user v := by rw [he]; exact hX
    rw [SmForceTransition_moves hm hinit hne hT hX1]
    simp only [SmInvoke_trace, hs, SmForceLogSteps_of_found new_state hlog hS, SmEnterSteps,
      List.append_assoc, List.cons_append, List.nil_append]
  · obtain ⟨he, hs⟩ := SmMachine_exit_of_missing hS
    have hX1 : SmSucceeds m.exitCall m.handle w.user w.user := by rw [he]; rfl
    rw [SmForceTransition_moves hm hinit hne hT hX1]
    simp only [SmInvoke_trace, hs, SmForceLogSteps_of_missing T new_state hS, SmEnterSteps,
      List.append_nil]

/-- C29 at the example class: forcing state 1 from state 0. -/
theorem SmForceTransition_logs_witness :
    (SmForceTransition (exWorld 0 0) 1).2.trace =
      (exWorld 0 0).trace ++ SmExitSteps exStateA ++
        [SmStep.update (exMachine 0).current_state 1,
         SmStep.log (exMachine 0).class_name exStateA.state_name exStateB.state_name
           SM_EVENT_INVALID (some "FORCE_TRANSITION")] ++
        SmEnterSteps exStateB :=
  (SmForceTransition_logs (exWorld 0 0) (exMachine 0) exStateB 1 exLog rfl rfl rfl
    (by decide) rfl).1 exStateA 10 rfl rfl

theorem SmAlwaysSucceeds_succeeds {cb : Option (SmHandle → U → SmRetCode × U)}
    (hcb : SmAlwaysSucceeds cb) (h : SmHandle) (u : U) : ∃ v, SmSucceeds cb h u v := by
  cases cb with
  | none => exact ⟨u, rfl⟩
  | some f => exact ⟨(f h u).2, Prod.ext (hcb f rfl h u) rfl⟩

theorem SmHandleAlwaysSucceeds_passes {cb : Option (SmStateHandleFn U)}
    (hcb : SmHandleAlwaysSucceeds cb) (h : SmHandle) (e : SmEventId) (u : U) :
    ∃ v, SmHandlePasses cb h e u v := by
  cases cb with
  | none => exact ⟨u, rfl⟩
  | some f => exact ⟨(f h e u).2, rfl, Or.inl (hcb f rfl h e u)⟩

theorem SmGetCurrentState_of_machine {w : SmWorld U} {m : SmMachine U}
    (hm : w.machine = some m) (hinit : m.is_initialized = true) :
    SmGetCurrentState w = m.current_state := by
  simp [SmGetCurrentState, hm, hinit]

/-- C22: for a class with exactly two states `A` and `B` (ids distinct and not
the sentinel), where `A` declares the single unguarded rule `e1 -> B` and `B`
declares no rule, and no callback fails: `SmCreate` and `SmStart` at `A` return
`SM_RET_OK`, the first `SmSendEvent` of `e1` returns `SM_RET_OK` and
`SmGetCurrentState` is then the id of `B`, and a second `SmSendEvent` of `e1`
returns `SM_RET_IGNORE` with `SmGetCurrentState` still the id of `B`. -/
theorem SmScenario_two_states (w : SmWorld U) (m0 : SmMachine U) (c : SmClass U)
    (A B : SmState U) (r : SmTransition U) (e1 : SmEventId) (user_data : SmPtr)
    (hm : w.machine = some m0)
    (hstates : c.states = [A, B])
    (hA : A.state_id ≠ SM_STATE_INVALID) (hB : B.state_id ≠ SM_STATE_INVALID)
    (hAB : A.state_id ≠ B.state_id)
    (hrules : A.transitions = some [r]) (hev : r.event_id = e1)
    (hnext : r.next_state = B.state_id) (hguard : r.condition = none)
    (hBrules : ∀ rules, B.transitions = some rules → rules = [])
    (hinit : SmAlwaysSucceeds c.on_init)
    (hAenter : SmAlwaysSucceeds A.on_enter) (hAexit : SmAlwaysSucceeds A.on_exit)
    (hAhandle : SmHandleAlwaysSucceeds A.on_handle)
    (hact : SmAlwaysSucceeds r.actionCall)
    (hBenter : SmAlwaysSucceeds B.on_enter)
    (hBhandle : SmHandleAlwaysSucceeds B.on_handle) :
    (SmCreate w (some c) user_data).1 = SM_RET_OK ∧
      (SmStart (SmCreate w (some c) user_data).2 A.state_id).1 = SM_RET_OK ∧
      (SmSendEvent (SmStart (SmCreate w (some c) user_data).2 A.state_id).2 e1).1 =
        SM_RET_OK ∧
      SmGetCurrentState
        (SmSendEvent (SmStart (SmCreate w (some c) user_data).2 A.state_id).2 e1).2 =
        B.state_id ∧
      (SmSendEvent
        (SmSendEvent (SmStart (SmCreate w (some c) user_data).2 A.state_id).2 e1).2 e1).1 =
        SM_RET_IGNORE ∧
      SmGetCurrentState
        (SmSendEvent
          (SmSendEvent (SmStart (SmCreate w (some c) user_data).2 A.state_id).2 e1).2
          e1).2 = B.state_id := by
  -- create
  obtain ⟨v1, hI⟩ := SmAlwaysSucceeds_succeeds hinit (SmMachine.fresh c user_data).handle w.user
  rw [SmCreate_ok hm user_data hI]
  -- start at A
  have hfA : ∀ m : SmMachine U, m.sm_class = some c →
      SmFindState (some m) A.state_id = some A := by
    intro m hc
    simp [SmFindState, hc, hstates, SmFindState.scan]
  have hfB : ∀ m : SmMachine U, m.sm_class = some c →
      SmFindState (some m) B.state_id = some B := by
    intro m hc
    simp [SmFindState, hc, hstates, SmFindState.scan, hAB]
  obtain ⟨v2, hN⟩ := SmAlwaysSucceeds_succeeds hAenter
    ((SmMachine.created c user_data).started A.state_id).handle v1
  have hstart := SmStart_enters
    (w := ⟨some (SmMachine.created c user_data), v1,
      w.trace ++ SmStepIf c.on_init.isSome SmStep.onInit⟩)
    (m := SmMachine.created c user_data) (s := A.state_id) rfl rfl (hfA _ rfl)
  rw [SmInvoke_of_succeeds hN] at hstart
  simp only at hstart ⊢
  rw [hstart]
  simp only
  -- first send
  obtain ⟨u1, hH⟩ := SmHandleAlwaysSucceeds_passes hAhandle
    ((SmMachine.created c user_data).started A.state_id).handle e1 v2
  have hr : SmFindTransition (some A) e1 = some r := by
    simp [SmFindTransition, hrules, SmFindTransition.scan, hev]
  have hG : SmGuardAccepts r ((SmMachine.created c user_data).started A.state_id).handle
      u1 u1 := by
    simp [SmGuardAccepts, hguard]
  obtain ⟨u3, hAc⟩ := SmAlwaysSucceeds_succeeds hact
    ((SmMachine.created c user_data).started A.state_id).handle u1
  have hT : SmFindState (some ((SmMachine.created c user_data).started A.state_id))
      r.next_state = some B := by
    rw [hnext]; exact hfB _ rfl
  obtain ⟨u4, hX⟩ := SmAlwaysSucceeds_succeeds hAexit
    ((SmMachine.created c user_data).started A.state_id).handle u3
  obtain ⟨u5, hE⟩ := SmAlwaysSucceeds_succeeds hBenter
    (((SmMachine.created c user_data).started A.state_id).moved r.next_state).handle
    (SmLogUser (((SmMachine.created c user_data).started A.state_id).moved r.next_state)
      A.state_name B.state_name r.event_id u4)
  have hsend := SmSendEvent_reaches
    (w := ⟨some ((SmMachine.created c user_data).started A.state_id), v2,
      w.trace ++ SmStepIf c.on_init.isSome SmStep.onInit ++
        [SmStep.update SM_STATE_INVALID A.state_id] ++
        SmStepIf A.on_enter.isSome (SmStep.onEnter A.state_id)⟩)
    (m := (SmMachine.created c user_data).started A.state_id) (S := A) (r := r)
    rfl rfl hA (hfA _ rfl) hH hr hG
  rw [SmPerformTransition_enter_ok hAc hT hX hE] at hsend
  simp only at hsend
  rw [hsend]
  simp only
  -- second send
  obtain ⟨u6, hH2⟩ := SmHandleAlwaysSucceeds_passes hBhandle
    (((SmMachine.created c user_data).started A.state_id).moved r.next_state).handle e1 u5
  have hcur : (((SmMachine.created c user_data).started A.state_id).moved
      r.next_state).current_state = B.state_id := hnext
  have hr2 : SmFindTransition (some B) e1 = none := by
    cases hb : B.transitions with
    | none => simp [SmFindTransition, hb]
    | some rules =>
      have := hBrules rules hb
      subst this
      simp [SmFindTransition, hb, SmFindTransition.scan]
  have hsend2 := SmSendEvent_eq_dispatch
    (w := ⟨some (((SmMachine.created c user_data).started A.state_id).moved r.next_state),
      u5, w.trace ++ SmStepIf c.on_init.isSome SmStep.onInit ++
        [SmStep.update SM_STATE_INVALID A.state_id] ++
        SmStepIf A.on_enter.isSome (SmStep.onEnter A.state_id) ++ SmHandleSteps A e1 ++
        SmGuardSteps r ++ SmActionSteps r ++ SmExitSteps A ++
        [SmStep.update ((SmMachine.created c user_data).started A.state_id).current_state
          r.next_state] ++
        SmLogSteps (((SmMachine.created c user_data).started A.state_id).moved r.next_state)
          A.state_name B.state_name r.event_id ++ SmEnterSteps B⟩)
    (m := ((SmMachine.created c user_data).started A.state_id).moved r.next_state) (S := B)
    rfl rfl (by rw [hcur]; exact hB) (by rw [hcur]; exact hfB _ rfl) hH2
  rw [SmSendEvent_dispatch_none hr2] at hsend2
  simp only at hsend2
  rw [hsend2]
  refine ⟨by trivial, by trivial, by trivial, ?_, by trivial, ?_⟩
  · rw [SmGetCurrentState_of_machine rfl rfl]; exact hcur
  · rw [SmGetCurrentState_of_machine rfl rfl]; exact hcur

/-- C22 at a concrete class: states 0 and 1, event 1, on storage that holds
leftovers of an earlier use. -/
theorem SmScenario_two_states_witness :
    (SmCreate (exStaleWorld 0) (some exClassAB) none).1 = SM_RET_OK ∧
      (SmStart (SmCreate (exStaleWorld 0) (some exClassAB) none).2 0).1 = SM_RET_OK ∧
      (SmSendEvent (SmStart (SmCreate (exStaleWorld 0) (some exClassAB) none).2 0).2 1).1 =
        SM_RET_OK ∧
      SmGetCurrentState
        (SmSendEvent (SmStart (SmCreate (exStaleWorld 0) (some exClassAB) none).2 0).2 1).2 =
        1 ∧
      (SmSendEvent
        (SmSendEvent (SmStart (SmCreate (exStaleWorld 0) (some exClassAB) none).2 0).2 1).2
        1).1 = SM_RET_IGNORE ∧
      SmGetCurrentState
        (SmSendEvent
          (SmSendEvent (SmStart (SmCreate (exStaleWorld 0) (some exClassAB) none).2 0).2
            1).2 1).2 = 1 :=
  SmScenario_two_states (exStaleWorld 0) exStale exClassAB exScenA exScenB
    ⟨1, 1, none, some exAction, none⟩ 1 none rfl rfl (by decide) (by decide) (by decide)
    rfl rfl rfl rfl (fun rules h => (Option.some.inj h).symm)
    (fun f hf h u => by cases hf; rfl) (fun f hf h u => by cases hf; rfl)
    (fun f hf h u => by cases hf; rfl) (fun f hf => by cases hf)
    (fun f hf h u => by cases hf; rfl) (fun f hf h u => by cases hf; rfl)
    (fun f hf => by cases hf)

theorem SmLogUser_retries {m : SmMachine U} {retries : U → Nat}
    (hlog : ∀ l, m.trans_log_fn = some l → ∀ a b c e n u, retries (l a b c e n u) = retries u)
    (a b : String) (ev : SmEventId) (u : U) :
    retries (SmLogUser m a b ev u) = retries u := by
  unfold SmLogUser SmLogCall
  cases hl : m.trans_log_fn with
  | none => rfl
  | some l => exact hlog l hl _ _ _ _ _ _

theorem SmRetry_step {S : SmState U} {r : SmTransition U} {fail : SmEventId}
    {retries : U → Nat} {w : SmWorld U} {m : SmMachine U}
    (hsetup : SmRetrySetup S r fail retries m.trans_log_fn)
    (hm : w.machine = some m) (hinit : m.is_initialized = true)
    (hcur : m.current_state = S.state_id)
    (hS : SmFindState (some m) S.state_id = some S) :
    (retries w.user < 5 →
      (SmSendEvent w fail).1 = SM_RET_OK ∧
      (SmSendEvent w fail).2.machine = some (m.moved S.state_id) ∧
      retries (SmSendEvent w fail).2.user = retries w.user + 1) ∧
    (¬ retries w.user < 5 →
      (SmSendEvent w fail).1 = SM_RET_IGNORE ∧
      (SmSendEvent w fail).2.machine = some m ∧
      retries (SmSendEvent w fail).2.user = retries w.user) := by
  have hstarted : m.current_state ≠ SM_STATE_INVALID := by rw [hcur]; exact hsetup.started
  have hS1 : SmFindState (some m) m.current_state = some S := by rw [hcur]; exact hS
  -- on_handle lets the event through and keeps the counter
  have hH : ∃ u1, SmHandlePasses S.on_handle m.handle fail w.user u1 ∧
      retries u1 = retries w.user := by
    cases hcb : S.on_handle with
    | none => exact ⟨w.user, rfl, rfl⟩
    | some f =>
      exact ⟨(f m.handle fail w.user).2, ⟨rfl, (hsetup.handle f hcb _ _ _).1⟩,
        (hsetup.handle f hcb _ _ _).2⟩
  obtain ⟨u1, hH, hu1⟩ := hH
  obtain ⟨g, hg, hgspec⟩ := hsetup.guard
  obtain ⟨a, ha, haspec⟩ := hsetup.action
  refine ⟨fun hlt => ?_, fun hge => ?_⟩
  · have hG : SmGuardAccepts r m.handle u1 (g m.handle r.action_data u1).2 := by
      unfold SmGuardAccepts
      rw [hg]
      exact Prod.ext (by rw [(hgspec _ _ _).1, hu1]; exact decide_eq_true hlt) rfl
    have hA : SmSucceeds r.actionCall m.handle (g m.handle r.action_data u1).2
        (a m.handle r.action_data (g m.handle r.action_data u1).2).2 := by
      unfold SmTransition.actionCall
      rw [ha]
      exact Prod.ext (haspec _ _ _).1 rfl
    have hT : SmFindState (some m) r.next_state = some S := by rw [hsetup.self]; exact hS
    have hX : ∃ u4, SmSucceeds S.on_exit m.handle
        (a m.handle r.action_data (g m.handle r.action_data u1).2).2 u4 ∧
        retries u4 = retries (a m.handle r.action_data (g m.handle r.action_data u1).2).2 := by
      cases hcb : S.on_exit with
      | none => exact ⟨_, rfl, rfl⟩
      | some f =>
        exact ⟨(f m.handle _).2, Prod.ext (hsetup.leave f hcb _ _).1 rfl,
          (hsetup.leave f hcb _ _).2⟩
    obtain ⟨u4, hX, hu4⟩ := hX
    have hN : ∃ u5, SmSucceeds S.on_enter (m.moved r.next_state).handle
        (SmLogUser (m.moved r.next_state) S.state_name S.state_name r.event_id u4) u5 ∧
        retries u5 =
          retries (SmLogUser (m.moved r.next_state) S.state_name S.state_name
            r.event_id u4) := by
      cases hcb : S.on_enter with
      | none => exact ⟨_, rfl, rfl⟩
      | some f =>
        exact ⟨(f (m.moved r.next_state).handle _).2,
          Prod.ext (hsetup.enter f hcb _ _).1 rfl, (hsetup.enter f hcb _ _).2⟩
    obtain ⟨u5, hN, hu5⟩ := hN
    rw [SmSendEvent_reaches hm hinit hstarted hS1 hH hsetup.rule hG,
      SmPerformTransition_enter_ok hA hT hX hN]
    refine ⟨rfl, by rw [hsetup.self], ?_⟩
    show retries u5 = retries w.user + 1
    rw [hu5, SmLogUser_retries (m := m.moved r.next_state) hsetup.logger, hu4,
      (haspec _ _ _).2, (hgspec _ _ _).2, hu1]
  · have hG : SmGuardRejects r m.handle u1 (g m.handle r.action_data u1).2 := by
      unfold SmGuardRejects
      rw [hg]
      exact Prod.ext (by rw [(hgspec _ _ _).1, hu1]; exact decide_eq_false hge) rfl
    rw [SmSendEvent_eq_dispatch hm hinit hstarted hS1 hH,
      SmSendEvent_dispatch_reject hsetup.rule hG]
    refine ⟨rfl, rfl, ?_⟩
    show retries (g m.handle r.action_data u1).2 = retries w.user
    rw [(hgspec _ _ _).2, hu1]

theorem SmRetry_after {S : SmState U} {r : SmTransition U} {fail : SmEventId}
    {retries : U → Nat} {w : SmWorld U} {m : SmMachine U}
    (hsetup : SmRetrySetup S r fail retries m.trans_log_fn)
    (hm : w.machine = some m) (hinit : m.is_initialized = true)
    (hcur : m.current_state = S.state_id)
    (hS : SmFindState (some m) S.state_id = some S)
    (h0 : retries w.user = 0) (k : Nat) (hk : k ≤ 5) :
    ∃ m1, (SmAfter fail k w).machine = some m1 ∧ m1.is_initialized = true ∧
      m1.sm_class = m.sm_class ∧ m1.trans_log_fn = m.trans_log_fn ∧
      m1.current_state = S.state_id ∧ retries (SmAfter fail k w).user = k := by
  induction k with
  | zero => exact ⟨m, hm, hinit, rfl, rfl, hcur, h0⟩
  | succ k ih =>
    obtain ⟨m1, hm1, hi1, hc1, hl1, hcur1, hr1⟩ := ih (Nat.le_of_succ_le hk)
    have hsetup1 : SmRetrySetup S r fail retries m1.trans_log_fn := by rw [hl1]; exact hsetup
    have hS1 : SmFindState (some m1) S.state_id = some S := by
      rw [SmFindState_congr hc1]; exact hS
    have hlt : retries (SmAfter fail k w).user < 5 := by rw [hr1]; exact hk
    obtain ⟨_, hmach, hret⟩ := (SmRetry_step hsetup1 hm1 hi1 hcur1 hS1).1 hlt
    refine ⟨m1.moved S.state_id, hmach, hi1, hc1, hl1, rfl, ?_⟩
    show retries (SmSendEvent (SmAfter fail k w) fail).2.user = k + 1
    rw [hret, hr1]

/-- C23: for a state `S` (Connecting) with, for the event `fail`, the rule that
keeps the instance in `S`, guarded by `retries < 5`, with the action
`retries += 1`, on an instance started in `S` with `retries = 0`: each of the
first five `SmSendEvent` calls returns `SM_RET_OK`, leaves the instance in `S`
and adds one to `retries`, which reaches 5; the sixth returns `SM_RET_IGNORE`
with `retries` still 5 and the instance still in `S`. -/
theorem SmScenario_guarded_retry (w : SmWorld U) (m : SmMachine U) (S : SmState U)
    (r : SmTransition U) (fail : SmEventId) (retries : U → Nat)
    (hm : w.machine = some m) (hinit : m.is_initialized = true)
    (hcur : m.current_state = S.state_id)
    (hS : SmFindState (some m) S.state_id = some S)
    (hsetup : SmRetrySetup S r fail retries m.trans_log_fn)
    (h0 : retries w.user = 0) :
    (∀ k, k < 5 →
      (SmSendEvent (SmAfter fail k w) fail).1 = SM_RET_OK ∧
      SmGetCurrentState (SmAfter fail (k + 1) w) = S.state_id ∧
      retries (SmAfter fail (k + 1) w).user = k + 1) ∧
    (SmSendEvent (SmAfter fail 5 w) fail).1 = SM_RET_IGNORE ∧
    SmGetCurrentState (SmAfter fail 6 w) = S.state_id ∧
    retries (SmAfter fail 6 w).user = 5 := by
  refine ⟨fun k hk => ?_, ?_⟩
  · obtain ⟨m1, hm1, hi1, hc1, hl1, hcur1, hr1⟩ :=
      SmRetry_after hsetup hm hinit hcur hS h0 k (Nat.le_of_lt hk)
    obtain ⟨m2, hm2, hi2, _, _, hcur2, hr2⟩ :=
      SmRetry_after hsetup hm hinit hcur hS h0 (k + 1) hk
    have hsetup1 : SmRetrySetup S r fail retries m1.trans_log_fn := by rw [hl1]; exact hsetup
    have hS1 : SmFindState (some m1) S.state_id = some S := by
      rw [SmFindState_congr hc1]; exact hS
    refine ⟨((SmRetry_step hsetup1 hm1 hi1 hcur1 hS1).1 (by rw [hr1]; exact hk)).1, ?_, hr2⟩
    rw [SmGetCurrentState_of_machine hm2 hi2, hcur2]
  · obtain ⟨m1, hm1, hi1, hc1, hl1, hcur1, hr1⟩ :=
      SmRetry_after hsetup hm hinit hcur hS h0 5 (Nat.le_refl 5)
    have hsetup1 : SmRetrySetup S r fail retries m1.trans_log_fn := by rw [hl1]; exact hsetup
    have hS1 : SmFindState (some m1) S.state_id = some S := by
      rw [SmFindState_congr hc1]; exact hS
    obtain ⟨hret, hmach, hu⟩ :=
      (SmRetry_step hsetup1 hm1 hi1 hcur1 hS1).2 (by rw [hr1]; decide)
    refine ⟨hret, ?_, ?_⟩
    · show SmGetCurrentState (SmSendEvent (SmAfter fail 5 w) fail).2 = S.state_id
      rw [SmGetCurrentState_of_machine hmach hi1, hcur1]
    · show retries (SmSendEvent (SmAfter fail 5 w) fail).2.user = 5
      rw [hu, hr1]

/-- The example retry state satisfies the retry scenario, the counter being the
caller's memory itself. -/
theorem exConnecting_setup : SmRetrySetup exConnecting exRetryRule 2 (fun n : Nat => n) none where
  started := by decide
  rule := rfl
  self := rfl
  guard := ⟨exGuard, rfl, fun _ _ _ => ⟨rfl, rfl⟩⟩
  action := ⟨exAction, rfl, fun _ _ _ => ⟨rfl, rfl⟩⟩
  handle := fun f hf => by cases hf
  leave := fun f hf => by cases hf
  enter := fun f hf => by cases hf
  logger := fun l hl => by cases hl

/-- C23 at the example retry class: five retries succeed, the sixth is ignored. -/
theorem SmScenario_guarded_retry_witness :
    (∀ k, k < 5 →
      (SmSendEvent (SmAfter 2 k exWorldRetry) 2).1 = SM_RET_OK ∧
      SmGetCurrentState (SmAfter 2 (k + 1) exWorldRetry) = exConnecting.state_id ∧
      (SmAfter 2 (k + 1) exWorldRetry).user = k + 1) ∧
    (SmSendEvent (SmAfter 2 5 exWorldRetry) 2).1 = SM_RET_IGNORE ∧
    SmGetCurrentState (SmAfter 2 6 exWorldRetry) = exConnecting.state_id ∧
    (SmAfter 2 6 exWorldRetry).user = 5 :=
  SmScenario_guarded_retry exWorldRetry
    ⟨some exClassRetry, 1, SM_STATE_INVALID, true, none, none, none⟩ exConnecting
    exRetryRule 2 (fun n : Nat => n) rfl rfl rfl rfl exConnecting_setup rfl

/-! ## The state fields of a driven instance -/

theorem SmDeclared_of_found {m : SmMachine U} {s : SmStateId} {T : SmState U}
    (h : SmFindState (some m) s = some T) : SmDeclared m s := by
  cases hc : m.sm_class with
  | none => simp [SmFindState, hc] at h
  | some c =>
    simp only [SmFindState, hc] at h
    obtain ⟨hid, pre, post, hl, _⟩ := (SmFindState_scan_some_iff s c.states T).1 h
    exact ⟨c, T, hc, by rw [hl]; simp, hid⟩

theorem SmFound_of_declared {m : SmMachine U} {s : SmStateId} (h : SmDeclared m s) :
    ∃ S, SmFindState (some m) s = some S := by
  obtain ⟨c, T, hc, hmem, hid⟩ := h
  cases hf : SmFindState (some m) s with
  | some S => exact ⟨S, rfl⟩
  | none =>
    simp only [SmFindState, hc] at hf
    exact absurd hid ((SmFindState_scan_none_iff s c.states).1 hf T hmem)

theorem SmPerformTransition_machine (m : SmMachine U) (S : SmState U)
    (r : SmTransition U) (u : U) (t : List SmStep) :
    (SmPerformTransition m S r u t).2.machine = some m ∨
      ∃ T, SmFindState (some m) r.next_state = some T ∧
        (SmPerformTransition m S r u t).2.machine = some (m.moved r.next_state) := by
  rcases SmSucceeds_or_fails r.actionCall m.handle u with ⟨u3, hA⟩ | ⟨c, u3, hA⟩
  swap
  · rw [SmPerformTransition_action_fails hA]; exact Or.inl rfl
  cases hT : SmFindState (some m) r.next_state with
  | none => rw [SmPerformTransition_no_target hA hT]; exact Or.inl rfl
  | some T =>
    rcases SmSucceeds_or_fails S.on_exit m.handle u3 with ⟨u4, hX⟩ | ⟨c, u4, hX⟩
    swap
    · rw [SmPerformTransition_exit_fails hA hT hX]; exact Or.inl rfl
    rw [SmPerformTransition_moves hA hT hX]
    exact Or.inr ⟨T, rfl, rfl⟩

theorem SmSendEvent_machine {w : SmWorld U} {m : SmMachine U} (hm : w.machine = some m)
    (event : SmEventId) :
    (SmSendEvent w event).2.machine = some m ∨
      ∃ s T, SmFindState (some m) s = some T ∧
        (SmSendEvent w event).2.machine = some (m.moved s) := by
  by_cases hinit : m.is_initialized = true
  swap
  · rw [SmSendEvent_guards hm (Or.inl (by simpa using hinit))]; exact Or.inl hm
  by_cases hstarted : m.current_state = SM_STATE_INVALID
  · rw [SmSendEvent_guards hm (Or.inr hstarted)]; exact Or.inl hm
  cases hS : SmFindState (some m) m.current_state with
  | none => rw [SmSendEvent_no_state hm hS]; exact Or.inl hm
  | some S =>
    rcases SmHandle_passes_or_stops S.on_handle m.handle event w.user with
      ⟨u1, hH⟩ | ⟨f, hf, hc1, hc2⟩
    swap
    · rw [SmSendEvent_handle_stops hm hinit hstarted hS hf ⟨hc1, hc2⟩]; exact Or.inl rfl
    cases hr : SmFindTransition (some S) event with
    | none =>
      rw [SmSendEvent_eq_dispatch hm hinit hstarted hS hH, SmSendEvent_dispatch_none hr]
      exact Or.inl rfl
    | some r =>
      rcases SmGuard_accepts_or_rejects r m.handle u1 with ⟨u2, hG⟩ | ⟨u2, hG⟩
      swap
      · rw [SmSendEvent_eq_dispatch hm hinit hstarted hS hH,
          SmSendEvent_dispatch_reject hr hG]
        exact Or.inl rfl
      rw [SmSendEvent_reaches hm hinit hstarted hS hH hr hG]
      rcases SmPerformTransition_machine m S r u2
        (w.trace ++ SmHandleSteps S event ++ SmGuardSteps r) with h | ⟨T, hT, h⟩
      · exact Or.inl h
      · exact Or.inr ⟨r.next_state, T, hT, h⟩

theorem SmForceTransition_machine {w : SmWorld U} {m : SmMachine U}
    (hm : w.machine = some m) (s : SmStateId) :
    (SmForceTransition w s).2.machine = some m ∨
      ∃ T, SmFindState (some m) s = some T ∧
        (SmForceTransition w s).2.machine = some (m.moved s) := by
  by_cases hinit : m.is_initialized = true
  swap
  · rw [SmForceTransition_uninit hm (by simpa using hinit)]; exact Or.inl hm
  by_cases hsame : m.current_state = s
  · rw [SmForceTransition_same hm hinit hsame]; exact Or.inl hm
  cases hT : SmFindState (some m) s with
  | none => rw [SmForceTransition_undeclared hm hinit hsame hT]; exact Or.inl hm
  | some T =>
    rcases SmSucceeds_or_fails m.exitCall m.handle w.user with ⟨v, hX⟩ | ⟨c, v, hX⟩
    · rw [SmForceTransition_moves hm hinit hsame hT hX]; exact Or.inr ⟨T, rfl, rfl⟩
    · rw [SmForceTransition_exit_fails hm hinit hsame hT hX]; exact Or.inl rfl

theorem SmStart_machine {w : SmWorld U} {m : SmMachine U} (hm : w.machine = some m)
    (s : SmStateId) :
    (SmStart w s).2.machine = some m ∨
      ∃ T, SmFindState (some m) s = some T ∧
        (SmStart w s).2.machine = some (m.started s) := by
  by_cases hinit : m.is_initialized = true
  swap
  · rw [SmStart_uninit hm (by simpa using hinit)]; exact Or.inl hm
  cases hT : SmFindState (some m) s with
  | none => rw [SmStart_undeclared hm hT]; exact Or.inl hm
  | some T => rw [SmStart_enters hm hinit hT]; exact Or.inr ⟨T, rfl, rfl⟩

theorem SmStop_machine {w : SmWorld U} {m : SmMachine U} (hm : w.machine = some m) :
    (SmStop w).2.machine = some m ∨ (SmStop w).2.machine = some m.stopped := by
  by_cases hinit : m.is_initialized = true
  swap
  · rw [SmStop_uninit hm (by simpa using hinit)]; exact Or.inl hm
  by_cases hc : m.current_state = SM_STATE_INVALID
  · rw [SmStop_stopped hm hinit hc]; exact Or.inl hm
  · rw [SmStop_exits hm hinit hc]; exact Or.inr rfl

theorem SmOp_apply_keeps_fields_ok {c : SmClass U} {w : SmWorld U} {m : SmMachine U}
    (hm : w.machine = some m) (hc : m.sm_class = some c)
    (hcur : SmStateOk m m.current_state) (hprev : SmStateOk m m.previous_state)
    (op : SmOp) :
    ∃ m1, (op.apply w).machine = some m1 ∧ m1.sm_class = some c ∧
      SmStateOk m1 m1.current_state ∧ SmStateOk m1 m1.previous_state := by
  cases op with
  | start s =>
    rcases SmStart_machine hm s with h | ⟨T, hT, h⟩
    · exact ⟨m, h, hc, hcur, hprev⟩
    · exact ⟨m.started s, h, hc, Or.inr (SmDeclared_of_found hT), Or.inl rfl⟩
  | stop =>
    rcases SmStop_machine hm with h | h
    · exact ⟨m, h, hc, hcur, hprev⟩
    · exact ⟨m.stopped, h, hc, Or.inl rfl, hprev⟩
  | send e =>
    rcases SmSendEvent_machine hm e with h | ⟨s, T, hT, h⟩
    · exact ⟨m, h, hc, hcur, hprev⟩
    · exact ⟨m.moved s, h, hc, Or.inr (SmDeclared_of_found hT), hcur⟩
  | force s =>
    rcases SmForceTransition_machine hm s with h | ⟨T, hT, h⟩
    · exact ⟨m, h, hc, hcur, hprev⟩
    · exact ⟨m.moved s, h, hc, Or.inr (SmDeclared_of_found hT), hcur⟩

theorem SmCreate_fields_ok {w : SmWorld U} {m0 : SmMachine U} (hm : w.machine = some m0)
    (c : SmClass U) (user_data : SmPtr) :
    ∃ m1, (SmCreate w (some c) user_data).2.machine = some m1 ∧ m1.sm_class = some c ∧
      m1.current_state = SM_STATE_INVALID ∧ m1.previous_state = SM_STATE_INVALID := by
  rcases SmSucceeds_or_fails c.on_init (SmMachine.fresh c user_data).handle w.user with
    ⟨v, hI⟩ | ⟨code, v, hI⟩
  · rw [SmCreate_ok hm user_data hI]; exact ⟨_, rfl, rfl, rfl, rfl⟩
  · rw [SmCreate_fails hm user_data hI]; exact ⟨_, rfl, rfl, rfl, rfl⟩

/-- C26: in every world that an instance set up by `SmCreate` with the class `c`
goes through under `SmStart`, `SmStop`, `SmSendEvent` and `SmForceTransition`
(callbacks write the caller's memory only), `current_state` and
`previous_state` are each the invalid sentinel or the id of a state declared in
`c`; hence, when the instance is initialized and `current_state` is not the
sentinel, `SmFindState` finds the current state, and the branch of
`SmSendEvent` for a current state that is not found is not taken. -/
theorem SmReach_state_fields_ok (c : SmClass U) (w : SmWorld U) (h : SmReach c w) :
    ∃ m, w.machine = some m ∧ m.sm_class = some c ∧
      SmStateOk m m.current_state ∧ SmStateOk m m.previous_state ∧
      (m.is_initialized = true → m.current_state ≠ SM_STATE_INVALID →
        ∃ S, SmFindState (some m) m.current_state = some S) := by
  have key : ∃ m, w.machine = some m ∧ m.sm_class = some c ∧
      SmStateOk m m.current_state ∧ SmStateOk m m.previous_state := by
    induction h with
    | create w0 m0 user_data hm =>
      obtain ⟨m1, h1, hc, hcur, hprev⟩ := SmCreate_fields_ok hm c user_data
      exact ⟨m1, h1, hc, Or.inl hcur, Or.inl hprev⟩
    | step w0 op _ ih =>
      obtain ⟨m, hm, hc, hcur, hprev⟩ := ih
      exact SmOp_apply_keeps_fields_ok hm hc hcur hprev op
    | caller w0 u _ ih =>
      obtain ⟨m, hm, hc, hcur, hprev⟩ := ih
      exact ⟨m, hm, hc, hcur, hprev⟩
  obtain ⟨m, hm, hc, hcur, hprev⟩ := key
  refine ⟨m, hm, hc, hcur, hprev, fun _ hne => ?_⟩
  rcases hcur with h1 | h1
  · exact absurd h1 hne
  · exact SmFound_of_declared h1

/-- C26 at the two-state scenario class: the world after create, start at state
0 and event 1. -/
theorem SmReach_state_fields_ok_witness :
    ∃ m, ((SmOp.send 1).apply
        ((SmOp.start 0).apply (SmCreate (exStaleWorld 0) (some exClassAB) none).2)).machine =
          some m ∧
      m.sm_class = some exClassAB ∧
      SmStateOk m m.current_state ∧ SmStateOk m m.previous_state ∧
      (m.is_initialized = true → m.current_state ≠ SM_STATE_INVALID →
        ∃ S, SmFindState (some m) m.current_state = some S) :=
  SmReach_state_fields_ok exClassAB _
    (SmReach.step _ (SmOp.send 1)
      (SmReach.step _ (SmOp.start 0) (SmReach.create (exStaleWorld 0) exStale none rfl)))

/-! ## The end-of-array marker -/

theorem SmFindTransition_scan_end_marker (rules : List (SmTransition U))
    (hrules : ∀ x ∈ rules, x.event_id ≠ SM_EVENT_INVALID) :
    SmFindTransition.scan SM_EVENT_INVALID (rules ++ [SM_TRANS_END]) =
      some (SM_TRANS_END : SmTransition U) := by
  induction rules with
  | nil => simp [SmFindTransition.scan, SM_TRANS_END]
  | cons x rest ih =>
    have hx : x.event_id ≠ SM_EVENT_INVALID := hrules x (List.mem_cons_self _ _)
    have hrest : ∀ y ∈ rest, y.event_id ≠ SM_EVENT_INVALID :=
      fun y hy => hrules y (List.mem_cons_of_mem _ hy)
    simp [SmFindTransition.scan, hx, ih hrest]

theorem SmCounted_of_lt {α : Type} (array : List α) (h : array.length < 2 ^ 16) :
    SmCounted array = array := by
  unfold SmCounted
  rw [Nat.mod_eq_of_lt h, List.take_length]

/-- For every state built with `SM_STATE` from an array of fewer than `2 ^ 16`
entries that ends with `SM_TRANS_END()` and holds no other rule for the invalid
event id, the lookup for the invalid event id returns the marker. -/
theorem SmFindTransition_end_marker (id : SmStateId) (name : String)
    (enter : Option (SmStateEnterFn U)) (exit_fn : Option (SmStateExitFn U))
    (handle : Option (SmStateHandleFn U)) (rules : List (SmTransition U))
    (hlen : (rules ++ [(SM_TRANS_END : SmTransition U)]).length < 2 ^ 16)
    (hrules : ∀ x ∈ rules, x.event_id ≠ SM_EVENT_INVALID) :
    SmFindTransition (some (SM_STATE id name enter exit_fn handle (rules ++ [SM_TRANS_END])))
        SM_EVENT_INVALID =
      some (SM_TRANS_END : SmTransition U) := by
  simp only [SmFindTransition, SM_STATE, SmCounted_of_lt _ hlen]
  exact SmFindTransition_scan_end_marker rules hrules

/-- C31 fails on the code: in the demo class the array of `STATE_CONNECTING`
ends with the marker; on an instance in `STATE_CONNECTING`, whose `on_handle`
returns success, the lookup for the invalid event id returns the marker (event
id `SM_EVENT_INVALID`, target id 0, no guard, no action), and `SmSendEvent` with
the invalid event id returns `SM_RET_OK` and moves the instance to
`STATE_DISCONNECTED`, the state with id 0, through exit, update, log and enter. -/
theorem SmSendEvent_end_marker_fires :
    connecting_transitions.getLast?.map
        (fun t => (t.event_id, t.next_state, t.condition.isSome, t.action.isSome,
          t.action_data)) =
      some (SM_EVENT_INVALID, 0, false, false, none) ∧
    (SmFindState (some (tcpMachine STATE_CONNECTING)) STATE_CONNECTING).map
        (fun x => (x.state_id, x.transitions.map List.length)) =
      some (STATE_CONNECTING, some 6) ∧
    (Connecting_OnHandle (tcpMachine STATE_CONNECTING).handle SM_EVENT_INVALID
        ⟨tcpData 0, false⟩).1 = SM_RET_OK ∧
    (SmFindTransition (SmFindState (some (tcpMachine STATE_CONNECTING)) STATE_CONNECTING)
        SM_EVENT_INVALID).map
        (fun t => (t.event_id, t.next_state, t.condition.isSome, t.action.isSome,
          t.action_data)) =
      some (SM_EVENT_INVALID, STATE_DISCONNECTED, false, false, none) ∧
    (SmSendEvent (tcpWorld STATE_CONNECTING (tcpData 0)) SM_EVENT_INVALID).1 = SM_RET_OK ∧
    (SmSendEvent (tcpWorld STATE_CONNECTING (tcpData 0)) SM_EVENT_INVALID).2.machine.map
        (fun x => (x.current_state, x.previous_state)) =
      some (STATE_DISCONNECTED, STATE_CONNECTING) ∧
    (SmSendEvent (tcpWorld STATE_CONNECTING (tcpData 0)) SM_EVENT_INVALID).2.trace =
      [SmStep.onHandle STATE_CONNECTING SM_EVENT_INVALID,
       SmStep.onExit STATE_CONNECTING,
       SmStep.update STATE_CONNECTING STATE_DISCONNECTED,
       SmStep.log "TcpSessionSm" "CONNECTING" "DISCONNECTED" SM_EVENT_INVALID
         (some "UNKNOWN"),
       SmStep.onEnter STATE_DISCONNECTED] := by
  refine ⟨by decide, by decide, by decide, by decide, by decide, by decide, by decide⟩

/-! ## The arguments of the guard and of the action -/

/-- C32: on an initialized, started instance whose active state `S` is declared
and whose `on_handle` lets the event through, for the rule `r` the lookup
returns: a guard `g` of `r` is called as `g handle r.action_data`, and its
result alone decides between Ignored and the transition; without a guard the
transition runs at once; an action `a` of `r` is called as
`a handle r.action_data`, a failure code of it is the result, and after success
the transition goes on as for the rule without the action.  The pointer handed
to both is the `action_data` of the rule, whatever `user_data` the instance
holds. -/
theorem SmSendEvent_callback_arguments (w : SmWorld U) (m : SmMachine U) (S : SmState U)
    (r : SmTransition U) (event : SmEventId) (u1 : U)
    (hm : w.machine = some m) (hinit : m.is_initialized = true)
    (hstarted : m.current_state ≠ SM_STATE_INVALID)
    (hS : SmFindState (some m) m.current_state = some S)
    (hH : SmHandlePasses S.on_handle m.handle event w.user u1)
    (hr : SmFindTransition (some S) event = some r) :
    (∀ g, r.condition = some g →
      SmSendEvent w event =
        if (g m.handle r.action_data u1).1 = true then
          SmPerformTransition m S r (g m.handle r.action_data u1).2
            (w.trace ++ SmHandleSteps S event ++
              [SmStep.condition r.event_id r.next_state r.action_data])
        else
          (SM_RET_IGNORE, ⟨some m, (g m.handle r.action_data u1).2,
            w.trace ++ SmHandleSteps S event ++
              [SmStep.condition r.event_id r.next_state r.action_data]⟩)) ∧
    (r.condition = none →
      SmSendEvent w event =
        SmPerformTransition m S r u1 (w.trace ++ SmHandleSteps S event)) ∧
    (∀ a u t, r.action = some a →
      SmPerformTransition m S r u t =
        if (a m.handle r.action_data u).1 = SM_RET_OK then
          SmPerformTransition m S { r with action := none } (a m.handle r.action_data u).2
            (t ++ [SmStep.action r.event_id r.next_state r.action_data])
        else
          ((a m.handle r.action_data u).1, ⟨some m, (a m.handle r.action_data u).2,
            t ++ [SmStep.action r.event_id r.next_state r.action_data]⟩)) := by
  rw [SmSendEvent_eq_dispatch hm hinit hstarted hS hH]
  refine ⟨?_, ?_, ?_⟩
  · intro g hg
    unfold SmSendEvent.dispatch
    simp only [hr, hg]
    cases hb : (g m.handle r.action_data u1).1 <;> simp
  · intro hg
    unfold SmSendEvent.dispatch
    simp only [hr, hg]
  · intro a u t ha
    unfold SmPerformTransition
    by_cases hc : (a m.handle r.action_data u).1 = SM_RET_OK
    · simp [ha, SmInvoke, hc]
    · simp [ha, SmInvoke, hc]

/-- C32 at the demo class: the instance holds the address of its session data
as `user_data`, the rule of `STATE_CONNECTING` for `EVT_TIMEOUT` is declared
with null action data, and `CanRetryConnect` and `OnConnectAction` are called
with the null pointer. -/
theorem SmSendEvent_callback_arguments_witness :
    (tcpMachine STATE_CONNECTING).user_data = some tcpSessionAddr ∧
    tcpTimeoutRule.action_data = none ∧
    ((∀ g, tcpTimeoutRule.condition = some g →
      SmSendEvent (tcpWorld STATE_CONNECTING (tcpData 0)) EVT_TIMEOUT =
        if (g (tcpMachine STATE_CONNECTING).handle tcpTimeoutRule.action_data
            (tcpTimedOut (tcpData 0))).1 = true then
          SmPerformTransition (tcpMachine STATE_CONNECTING) tcpConnecting tcpTimeoutRule
            (g (tcpMachine STATE_CONNECTING).handle tcpTimeoutRule.action_data
              (tcpTimedOut (tcpData 0))).2
            ((tcpWorld STATE_CONNECTING (tcpData 0)).trace ++
              SmHandleSteps tcpConnecting EVT_TIMEOUT ++
              [SmStep.condition tcpTimeoutRule.event_id tcpTimeoutRule.next_state
                tcpTimeoutRule.action_data])
        else
          (SM_RET_IGNORE, ⟨some (tcpMachine STATE_CONNECTING),
            (g (tcpMachine STATE_CONNECTING).handle tcpTimeoutRule.action_data
              (tcpTimedOut (tcpData 0))).2,
            (tcpWorld STATE_CONNECTING (tcpData 0)).trace ++
              SmHandleSteps tcpConnecting EVT_TIMEOUT ++
              [SmStep.condition tcpTimeoutRule.event_id tcpTimeoutRule.next_state
                tcpTimeoutRule.action_data]⟩)) ∧
    (tcpTimeoutRule.condition = none →
      SmSendEvent (tcpWorld STATE_CONNECTING (tcpData 0)) EVT_TIMEOUT =
        SmPerformTransition (tcpMachine STATE_CONNECTING) tcpConnecting tcpTimeoutRule
          (tcpTimedOut (tcpData 0))
          ((tcpWorld STATE_CONNECTING (tcpData 0)).trace ++
            SmHandleSteps tcpConnecting EVT_TIMEOUT)) ∧
    (∀ a u t, tcpTimeoutRule.action = some a →
      SmPerformTransition (tcpMachine STATE_CONNECTING) tcpConnecting tcpTimeoutRule u t =
        if (a (tcpMachine STATE_CONNECTING).handle tcpTimeoutRule.action_data u).1 =
            SM_RET_OK then
          SmPerformTransition (tcpMachine STATE_CONNECTING) tcpConnecting
            { tcpTimeoutRule with action := none }
            (a (tcpMachine STATE_CONNECTING).handle tcpTimeoutRule.action_data u).2
            (t ++ [SmStep.action tcpTimeoutRule.event_id tcpTimeoutRule.next_state
              tcpTimeoutRule.action_data])
        else
          ((a (tcpMachine STATE_CONNECTING).handle tcpTimeoutRule.action_data u).1,
            ⟨some (tcpMachine STATE_CONNECTING),
              (a (tcpMachine STATE_CONNECTING).handle tcpTimeoutRule.action_data u).2,
              t ++ [SmStep.action tcpTimeoutRule.event_id tcpTimeoutRule.next_state
                tcpTimeoutRule.action_data]⟩))) :=
  ⟨rfl, rfl,
    SmSendEvent_callback_arguments (tcpWorld STATE_CONNECTING (tcpData 0))
      (tcpMachine STATE_CONNECTING) tcpConnecting tcpTimeoutRule EVT_TIMEOUT
      (tcpTimedOut (tcpData 0)) rfl rfl (by decide) rfl ⟨rfl, Or.inl rfl⟩ rfl⟩

/-! ## Retry exhaustion in the demo class -/

/-- C33 fails on the code: on the demo instance in `STATE_CONNECTING` with
`connect_retry_count` at 5 or more, `SmSendEvent` with `EVT_TIMEOUT` calls
`Connecting_OnHandle` and the guard `CanRetryConnect` of the first rule for the
event, which rejects; the result is `SM_RET_IGNORE`, the instance is unchanged,
still in `STATE_CONNECTING`, and its state name reads "CONNECTING", not
"ERROR". -/
theorem SmSendEvent_timeout_exhausted_ignored (data : TcpSessionData)
    (hcount : 5 ≤ data.connect_retry_count) :
    (SmSendEvent (tcpWorld STATE_CONNECTING data) EVT_TIMEOUT).1 = SM_RET_IGNORE ∧
    (SmSendEvent (tcpWorld STATE_CONNECTING data) EVT_TIMEOUT).2.machine =
      some (tcpMachine STATE_CONNECTING) ∧
    (tcpMachine STATE_CONNECTING).current_state ≠ STATE_ERROR ∧
    SmGetCurrentStateName (SmSendEvent (tcpWorld STATE_CONNECTING data) EVT_TIMEOUT).2 =
      some "CONNECTING" ∧
    (SmSendEvent (tcpWorld STATE_CONNECTING data) EVT_TIMEOUT).2.user = tcpTimedOut data ∧
    (SmSendEvent (tcpWorld STATE_CONNECTING data) EVT_TIMEOUT).2.trace =
      [SmStep.onHandle STATE_CONNECTING EVT_TIMEOUT,
       SmStep.condition EVT_TIMEOUT STATE_CONNECTING none] := by
  have hS : SmFindState (some (tcpMachine STATE_CONNECTING))
      (tcpMachine STATE_CONNECTING).current_state = some tcpConnecting := rfl
  have hH : SmHandlePasses tcpConnecting.on_handle (tcpMachine STATE_CONNECTING).handle
      EVT_TIMEOUT (tcpWorld STATE_CONNECTING data).user (tcpTimedOut data) :=
    ⟨rfl, Or.inl rfl⟩
  have hr : SmFindTransition (some tcpConnecting) EVT_TIMEOUT = some tcpTimeoutRule := rfl
  have hG : SmGuardRejects tcpTimeoutRule (tcpMachine STATE_CONNECTING).handle
      (tcpTimedOut data) (tcpTimedOut data) := by
    have hlt : ¬ data.connect_retry_count < 5 := by omega
    simp [SmGuardRejects, tcpTimeoutRule, SM_TRANS_FULL, CanRetryConnect, tcpTimedOut, hlt]
  rw [SmSendEvent_eq_dispatch rfl rfl (by decide) hS hH,
    SmSendEvent_dispatch_reject hr hG]
  refine ⟨rfl, rfl, by decide, rfl, rfl, rfl⟩

/-- C33 at `connect_retry_count = 5`, the value the demo's five retries are
meant to reach. -/
theorem SmSendEvent_timeout_exhausted_ignored_witness :
    (SmSendEvent (tcpWorld STATE_CONNECTING (tcpData 5)) EVT_TIMEOUT).1 = SM_RET_IGNORE ∧
    (SmSendEvent (tcpWorld STATE_CONNECTING (tcpData 5)) EVT_TIMEOUT).2.machine =
      some (tcpMachine STATE_CONNECTING) ∧
    (tcpMachine STATE_CONNECTING).current_state ≠ STATE_ERROR ∧
    SmGetCurrentStateName
        (SmSendEvent (tcpWorld STATE_CONNECTING (tcpData 5)) EVT_TIMEOUT).2 =
      some "CONNECTING" ∧
    (SmSendEvent (tcpWorld STATE_CONNECTING (tcpData 5)) EVT_TIMEOUT).2.user =
      tcpTimedOut (tcpData 5) ∧
    (SmSendEvent (tcpWorld STATE_CONNECTING (tcpData 5)) EVT_TIMEOUT).2.trace =
      [SmStep.onHandle STATE_CONNECTING EVT_TIMEOUT,
       SmStep.condition EVT_TIMEOUT STATE_CONNECTING none] :=
  SmSendEvent_timeout_exhausted_ignored (tcpData 5) (by decide)

end SmMgr
